import Mathlib

/-!
# Input event subsystem of the Pico environmental monitor firmware

Shallow embedding of the button event manager (`EnhancedButtonManager`), the
mode mapping table (`button_mapping_new.hpp`), the unified event adapter
(`ButtonSystemAdapter`), the joystick direction classifiers and the
stability filters of `JoystickDebouncer` and `JoystickController`, the
queue-and-block manager `ButtonManager`, the two-key `ButtonEventHandler`
and `Joystick::update` with its bounded retry, followed by theorems about
them.

Conventions of the embedding:

* `uint32_t` values are natural numbers; subtraction of two timestamps is
  `sub_u32`, taken modulo `2^32` as the hardware does.
* The hardware boundary of one `update()` call is a `TickInput`: the value
  of the millisecond clock and the level of every GPIO pin.
* A callback is modelled by the list of values it is invoked with, in order;
  the section on `Synchronous` also runs the application callback of the
  adapter inside `update()`, as a function that changes the adapter.
* A `float` factor is an exact fraction; the factor `1.5f` of the source is
  exact on the `int16_t` magnitudes it multiplies.
-/

namespace PicoInput

/-! ## Machine arithmetic -/

/-- Number of values of a `uint32_t`. -/
def UINT32_MOD : Nat := 4294967296

/-- Value of `a - b` computed on `uint32_t` operands. -/
def sub_u32 (a b : Nat) : Nat :=
  (a % UINT32_MOD + UINT32_MOD - b % UINT32_MOD) % UINT32_MOD

/-- Hardware inputs seen by one call of `update()`: the reading of
`to_ms_since_boot(get_absolute_time())` and the function `gpio_get`
(`true` is a high level). -/
structure TickInput where
  clock_ms : Nat
  gpio_get : Nat → Bool

/-- Reading of `to_ms_since_boot(get_absolute_time())`, a `uint32_t`. -/
def TickInput.now (tk : TickInput) : Nat := tk.clock_ms % UINT32_MOD

/-! ## `button_mapping_new.hpp` -/

/-- Value of `NEW_BUTTON_LONG_PRESS_MS`. -/
def NEW_BUTTON_LONG_PRESS_MS : Nat := 600

/-- The enum `ButtonFunction`. -/
inductive ButtonFunction where
  | NONE
  | NAV_UP
  | NAV_DOWN
  | NAV_SELECT
  | NAV_BACK
  | NAV_HOME
  | PAGE_UP
  | PAGE_DOWN
  | SCREEN_TOGGLE
  | MENU_ENTER
  | BRIGHTNESS_ADJUST
  deriving DecidableEq, Repr

/-- The struct `ButtonFunctionMapping`. -/
structure ButtonFunctionMapping where
  single_press_up : ButtonFunction
  single_press_down : ButtonFunction
  long_press_up : ButtonFunction
  long_press_down : ButtonFunction
  screen_press : ButtonFunction
  deriving DecidableEq, Repr

/-- The enum `AppMode`. -/
inductive AppMode where
  | CONTENT_READING
  | MAIN_MENU
  | FILE_LIST
  | SYSTEM_CONFIG
  | SUB_MENU
  deriving DecidableEq, Repr

/-- The function `get_button_mapping`, with the constants of
`ButtonMapping::ContentMode`, `MainMenuMode`, `FileListMode`,
`SystemConfigMode` and `SubMenuMode` written out. -/
def get_button_mapping (mode : AppMode) : ButtonFunctionMapping :=
  match mode with
  | .CONTENT_READING =>
    { single_press_up := .PAGE_UP, single_press_down := .PAGE_DOWN,
      long_press_up := .MENU_ENTER, long_press_down := .NAV_HOME,
      screen_press := .SCREEN_TOGGLE }
  | .MAIN_MENU =>
    { single_press_up := .NAV_UP, single_press_down := .NAV_DOWN,
      long_press_up := .NAV_SELECT, long_press_down := .NAV_BACK,
      screen_press := .SCREEN_TOGGLE }
  | .FILE_LIST =>
    { single_press_up := .NAV_UP, single_press_down := .NAV_DOWN,
      long_press_up := .NAV_SELECT, long_press_down := .NAV_HOME,
      screen_press := .SCREEN_TOGGLE }
  | .SYSTEM_CONFIG =>
    { single_press_up := .NAV_UP, single_press_down := .NAV_DOWN,
      long_press_up := .NAV_SELECT, long_press_down := .NAV_HOME,
      screen_press := .SCREEN_TOGGLE }
  | .SUB_MENU =>
    { single_press_up := .NAV_UP, single_press_down := .NAV_DOWN,
      long_press_up := .BRIGHTNESS_ADJUST, long_press_down := .NAV_BACK,
      screen_press := .SCREEN_TOGGLE }

/-! ## `EnhancedButtonManager` -/

/-- The enum `EnhancedButtonEvent`. -/
inductive EnhancedButtonEvent where
  | NONE
  | NAV_UP
  | NAV_DOWN
  | NAV_SELECT
  | NAV_BACK
  | NAV_HOME
  | PAGE_UP
  | PAGE_DOWN
  | SCREEN_TOGGLE
  | MENU_ENTER
  | BRIGHTNESS_ADJUST
  deriving DecidableEq, Repr

/-- The struct `ButtonState` of `EnhancedButtonManager.hpp`. -/
structure ButtonState where
  pressed : Bool
  last_pressed : Bool
  press_time : Nat
  release_time : Nat
  long_press_handled : Bool
  deriving DecidableEq, Repr

/-- Data members of the class `EnhancedButtonManager`. The member
`event_callback_` is not state of the model: its invocations are the event
lists returned by `trigger_event` and `update`. -/
structure EnhancedButtonManager where
  up_pin_ : Nat
  down_pin_ : Nat
  screen_pin_ : Nat
  up_button_ : ButtonState
  down_button_ : ButtonState
  screen_button_ : ButtonState
  debounce_time_ms_ : Nat
  long_press_ms_ : Nat
  current_mode_ : AppMode
  current_mapping_ : ButtonFunctionMapping
  pending_event_ : EnhancedButtonEvent
  deriving DecidableEq, Repr

/-- Call site of `trigger_event` inside `update`: the button whose
processing made the call. -/
inductive Button where
  | up
  | down
  | screen
  deriving DecidableEq, Repr

/-- One accepted `trigger_event` call: the button that caused it and the
event, which is never `NONE`. -/
structure Fired where
  button : Button
  event : EnhancedButtonEvent
  deriving DecidableEq, Repr

namespace EnhancedButtonManager

/-- A `ButtonState` after `memset(&b, 0, sizeof(ButtonState))`. -/
def zero_state : ButtonState :=
  { pressed := false, last_pressed := false, press_time := 0,
    release_time := 0, long_press_handled := false }

/-- The constructor. The pin numbers and the debounce time come from
`config/button_config.hpp` (`BUTTON_KEY1_PIN`, `BUTTON_KEY2_PIN`,
`BUTTON_SCREEN_POWER_PIN`, `BUTTON_DEBOUNCE_TIME`) and are parameters. -/
def ctor (key1_pin key2_pin screen_power_pin debounce_time : Nat) :
    EnhancedButtonManager :=
  { up_pin_ := key1_pin, down_pin_ := key2_pin, screen_pin_ := screen_power_pin,
    up_button_ := zero_state, down_button_ := zero_state,
    screen_button_ := zero_state,
    debounce_time_ms_ := debounce_time,
    long_press_ms_ := NEW_BUTTON_LONG_PRESS_MS,
    current_mode_ := .MAIN_MENU,
    current_mapping_ := get_button_mapping .MAIN_MENU,
    pending_event_ := .NONE }

/-- The method `read_button_gpio`: a pressed button pulls its pin low. -/
def read_button_gpio (gpio_get : Nat → Bool) (pin : Nat) : Bool :=
  !gpio_get pin

/-- The method `initialize`: records the initial level of the three pins. -/
def init (m : EnhancedButtonManager) (gpio_get : Nat → Bool) :
    EnhancedButtonManager :=
  { m with
    up_button_ := { m.up_button_ with
      last_pressed := read_button_gpio gpio_get m.up_pin_ },
    down_button_ := { m.down_button_ with
      last_pressed := read_button_gpio gpio_get m.down_pin_ },
    screen_button_ := { m.screen_button_ with
      last_pressed := read_button_gpio gpio_get m.screen_pin_ } }

/-- The method `clear_events`. -/
def clear_events (m : EnhancedButtonManager) : EnhancedButtonManager :=
  { m with pending_event_ := .NONE }

/-- The method `get_next_event`: the returned event and the new state. -/
def get_next_event (m : EnhancedButtonManager) :
    EnhancedButtonEvent × EnhancedButtonManager :=
  (m.pending_event_, { m with pending_event_ := .NONE })

/-- The method `has_event`. -/
def has_event (m : EnhancedButtonManager) : Bool :=
  m.pending_event_ != .NONE

/-- The method `set_long_press_time`, whose argument is a `uint32_t`. -/
def set_long_press_time (m : EnhancedButtonManager) (ms : Nat) :
    EnhancedButtonManager :=
  { m with long_press_ms_ := ms % UINT32_MOD }

/-- The method `set_debounce_time`, whose argument is a `uint32_t`. -/
def set_debounce_time (m : EnhancedButtonManager) (ms : Nat) :
    EnhancedButtonManager :=
  { m with debounce_time_ms_ := ms % UINT32_MOD }

/-- The method `set_app_mode`. -/
def set_app_mode (m : EnhancedButtonManager) (mode : AppMode) :
    EnhancedButtonManager :=
  if m.current_mode_ ≠ mode then
    let m1 := { m with current_mode_ := mode,
                       current_mapping_ := get_button_mapping mode }
    let m2 := clear_events m1
    { m2 with
      up_button_ := { m2.up_button_ with long_press_handled := false },
      down_button_ := { m2.down_button_ with long_press_handled := false },
      screen_button_ := { m2.screen_button_ with long_press_handled := false } }
  else m

/-- The method `update_button_state` for the button on `pin`. -/
def update_button_state (button : ButtonState) (gpio_get : Nat → Bool)
    (pin : Nat) (current_time : Nat) : ButtonState :=
  let current_pressed := read_button_gpio gpio_get pin
  let button1 :=
    if current_pressed && !button.last_pressed then
      { button with pressed := true, press_time := current_time,
                    long_press_handled := false }
    else if !current_pressed && button.last_pressed then
      { button with pressed := false, release_time := current_time }
    else if current_pressed && button.last_pressed then
      { button with pressed := true }
    else
      { button with pressed := false }
  { button1 with last_pressed := current_pressed }

/-- The method `function_to_event`. -/
def function_to_event (function : ButtonFunction) : EnhancedButtonEvent :=
  match function with
  | .NAV_UP => .NAV_UP
  | .NAV_DOWN => .NAV_DOWN
  | .NAV_SELECT => .NAV_SELECT
  | .NAV_BACK => .NAV_BACK
  | .NAV_HOME => .NAV_HOME
  | .PAGE_UP => .PAGE_UP
  | .PAGE_DOWN => .PAGE_DOWN
  | .SCREEN_TOGGLE => .SCREEN_TOGGLE
  | .MENU_ENTER => .MENU_ENTER
  | .BRIGHTNESS_ADJUST => .BRIGHTNESS_ADJUST
  | .NONE => .NONE

/-- The method `trigger_event`, called while processing button `src`: a
non-`NONE` event is stored in the pending slot and handed to the callback
when one is registered. The list holds the call when it was accepted. -/
def trigger_event (m : EnhancedButtonManager) (src : Button)
    (event : EnhancedButtonEvent) : EnhancedButtonManager × List Fired :=
  if event ≠ .NONE then
    ({ m with pending_event_ := event }, [{ button := src, event := event }])
  else (m, [])

/-- The decision of the method `process_button_event` on one button: the
button after the call (the long-press mark is set through the `const_cast`)
and the argument of the `trigger_event` call it makes, if it makes one. -/
def process_button_event (long_press_ms_ : Nat) (button : ButtonState)
    (single_function long_function : ButtonFunction) (current_time : Nat) :
    ButtonState × Option EnhancedButtonEvent :=
  if button.pressed then
    let press_duration := sub_u32 current_time button.press_time
    if !button.long_press_handled && decide (press_duration ≥ long_press_ms_) then
      ({ button with long_press_handled := true },
        some (function_to_event long_function))
    else (button, none)
  else if !button.pressed && button.last_pressed then
    let press_duration := sub_u32 button.release_time button.press_time
    if !button.long_press_handled && decide (press_duration < long_press_ms_) then
      (button, some (function_to_event single_function))
    else (button, none)
  else (button, none)

/-- Performs the `trigger_event` call decided by `process_button_event`. -/
def trigger_opt (m : EnhancedButtonManager) (src : Button)
    (call : Option EnhancedButtonEvent) : EnhancedButtonManager × List Fired :=
  match call with
  | some event => trigger_event m src event
  | none => (m, [])

/-- The method `update`: the new state and the accepted `trigger_event`
calls, in the order they were made. -/
def update (m : EnhancedButtonManager) (tk : TickInput) :
    EnhancedButtonManager × List Fired :=
  let current_time := tk.now
  let m1 := { m with
    up_button_ := update_button_state m.up_button_ tk.gpio_get m.up_pin_ current_time }
  let m2 := { m1 with
    down_button_ :=
      update_button_state m1.down_button_ tk.gpio_get m1.down_pin_ current_time }
  let m3 := { m2 with
    screen_button_ :=
      update_button_state m2.screen_button_ tk.gpio_get m2.screen_pin_ current_time }
  let pu := process_button_event m3.long_press_ms_ m3.up_button_
    m3.current_mapping_.single_press_up m3.current_mapping_.long_press_up current_time
  let (m4, ev_up) := trigger_opt { m3 with up_button_ := pu.1 } .up pu.2
  let pd := process_button_event m4.long_press_ms_ m4.down_button_
    m4.current_mapping_.single_press_down m4.current_mapping_.long_press_down
    current_time
  let (m5, ev_down) := trigger_opt { m4 with down_button_ := pd.1 } .down pd.2
  let (m6, ev_screen) :=
    if m5.screen_button_.pressed && !m5.screen_button_.last_pressed then
      trigger_event m5 .screen (function_to_event m5.current_mapping_.screen_press)
    else (m5, [])
  (m6, ev_up ++ ev_down ++ ev_screen)

/-- A sequence of `update` calls: the final state and, for every call, the
`trigger_event` calls accepted in it. -/
def run (m : EnhancedButtonManager) : List TickInput →
    EnhancedButtonManager × List (List Fired)
  | [] => (m, [])
  | tk :: rest =>
    let r := update m tk
    let rs := run r.1 rest
    (rs.1, r.2 :: rs.2)

end EnhancedButtonManager

/-- Events of the accepted `trigger_event` calls that button `b` caused. -/
def events_of (b : Button) (fs : List Fired) : List EnhancedButtonEvent :=
  (fs.filter (fun f => f.button = b)).map Fired.event

/-! ## `ButtonSystemAdapter` -/

/-- The enum `UnifiedInputEvent`. -/
inductive UnifiedInputEvent where
  | NONE
  | NAVIGATE_UP
  | NAVIGATE_DOWN
  | NAVIGATE_LEFT
  | NAVIGATE_RIGHT
  | CONFIRM
  | CANCEL
  | HOME
  | PAGE_PREVIOUS
  | PAGE_NEXT
  | ENTER_MENU
  | TOGGLE_SCREEN
  | ADJUST_BRIGHTNESS
  deriving DecidableEq, Repr

/-- The enum `JoystickDirection`. -/
inductive JoystickDirection where
  | NONE
  | UP
  | DOWN
  | LEFT
  | RIGHT
  deriving DecidableEq, Repr

/-- The enum `ButtonState` of `joystick_controller.hpp` (state of the
joystick push-button); the struct of `EnhancedButtonManager.hpp` holds the
name `ButtonState` here. -/
inductive JoystickButtonState where
  | RELEASED
  | PRESSED
  deriving DecidableEq, Repr

/-- What the joystick controller reports after its own `update()`:
`getCurrentDirection()` and `getButtonState()`. -/
structure JoystickReading where
  direction : JoystickDirection
  button : JoystickButtonState
  deriving DecidableEq, Repr

/-- Data members of the class `ButtonSystemAdapter`. `joystick_controller_`
records whether the pointer is non-null. In the namespace
`ButtonSystemAdapter` the application callback `event_callback_` is one that
does not call back into the adapter, and is given by the lists of the events
it is invoked with; `Synchronous` below runs a callback that may change the
adapter inside the call. -/
structure ButtonSystemAdapter where
  button_manager_ : EnhancedButtonManager
  joystick_controller_ : Bool
  current_app_mode_ : AppMode
  last_joystick_direction_ : JoystickDirection
  last_joystick_button_ : JoystickButtonState
  last_event_time_ : Nat
  repeat_delay_ms_ : Nat
  deriving DecidableEq, Repr

namespace ButtonSystemAdapter

/-- The constructor; the arguments of the manager's constructor are passed
through, `joystick_controller` tells whether a controller is attached. -/
def ctor (key1_pin key2_pin screen_power_pin debounce_time : Nat)
    (joystick_controller : Bool) : ButtonSystemAdapter :=
  { button_manager_ :=
      EnhancedButtonManager.ctor key1_pin key2_pin screen_power_pin debounce_time,
    joystick_controller_ := joystick_controller,
    current_app_mode_ := .MAIN_MENU,
    last_joystick_direction_ := .NONE,
    last_joystick_button_ := .RELEASED,
    last_event_time_ := 0,
    repeat_delay_ms_ := 200 }

/-- The method `initialize`: initialises the manager, registers
`handle_button_event` as its callback and sets the initial mode. -/
def init (a : ButtonSystemAdapter) (gpio_get : Nat → Bool) : ButtonSystemAdapter :=
  { a with button_manager_ :=
      (a.button_manager_.init gpio_get).set_app_mode a.current_app_mode_ }

/-- The method `set_app_mode`. -/
def set_app_mode (a : ButtonSystemAdapter) (mode : AppMode) : ButtonSystemAdapter :=
  if a.current_app_mode_ ≠ mode then
    { a with current_app_mode_ := mode,
             button_manager_ := a.button_manager_.set_app_mode mode,
             last_joystick_direction_ := .NONE,
             last_joystick_button_ := .RELEASED,
             last_event_time_ := 0 }
  else a

/-- The method `set_repeat_delay`, whose argument is a `uint32_t`. -/
def set_repeat_delay (a : ButtonSystemAdapter) (ms : Nat) : ButtonSystemAdapter :=
  { a with repeat_delay_ms_ := ms % UINT32_MOD }

/-- The method `button_event_to_unified`. -/
def button_event_to_unified (button_event : EnhancedButtonEvent) : UnifiedInputEvent :=
  match button_event with
  | .NAV_UP => .NAVIGATE_UP
  | .NAV_DOWN => .NAVIGATE_DOWN
  | .NAV_SELECT => .CONFIRM
  | .NAV_BACK => .CANCEL
  | .NAV_HOME => .HOME
  | .PAGE_UP => .PAGE_PREVIOUS
  | .PAGE_DOWN => .PAGE_NEXT
  | .SCREEN_TOGGLE => .TOGGLE_SCREEN
  | .MENU_ENTER => .ENTER_MENU
  | .BRIGHTNESS_ADJUST => .ADJUST_BRIGHTNESS
  | .NONE => .NONE

/-- The method `joystick_event_to_unified`. -/
def joystick_event_to_unified (a : ButtonSystemAdapter)
    (direction : JoystickDirection) (button_state : JoystickButtonState) :
    UnifiedInputEvent :=
  match direction with
  | .UP =>
    if a.current_app_mode_ = .CONTENT_READING then .PAGE_PREVIOUS else .NAVIGATE_UP
  | .DOWN =>
    if a.current_app_mode_ = .CONTENT_READING then .PAGE_NEXT else .NAVIGATE_DOWN
  | .LEFT => .NAVIGATE_LEFT
  | .RIGHT => .NAVIGATE_RIGHT
  | .NONE =>
    if button_state = .PRESSED then
      match a.current_app_mode_ with
      | .CONTENT_READING => .ENTER_MENU
      | .MAIN_MENU => .CONFIRM
      | .FILE_LIST => .CONFIRM
      | .SYSTEM_CONFIG => .CONFIRM
      | .SUB_MENU => .CONFIRM
    else .NONE

/-- The method `can_trigger_event` when the clock reads `current_time`. -/
def can_trigger_event (a : ButtonSystemAdapter) (current_time : Nat) : Bool :=
  decide (sub_u32 current_time a.last_event_time_ ≥ a.repeat_delay_ms_)

/-- The method `trigger_unified_event` when the clock reads `current_time`:
the new state and the events handed to the application callback. -/
def trigger_unified_event (a : ButtonSystemAdapter) (event : UnifiedInputEvent)
    (current_time : Nat) : ButtonSystemAdapter × List UnifiedInputEvent :=
  if event = .NONE then (a, [])
  else if !can_trigger_event a current_time then (a, [])
  else ({ a with last_event_time_ := current_time }, [event])

/-- The method `handle_button_event`, the callback of the manager. -/
def handle_button_event (a : ButtonSystemAdapter) (button_event : EnhancedButtonEvent)
    (current_time : Nat) : ButtonSystemAdapter × List UnifiedInputEvent :=
  if button_event = .NONE then (a, [])
  else trigger_unified_event a (button_event_to_unified button_event) current_time

/-- The method `handle_joystick_event`. -/
def handle_joystick_event (a : ButtonSystemAdapter) (direction : JoystickDirection)
    (button_state : JoystickButtonState) (current_time : Nat) :
    ButtonSystemAdapter × List UnifiedInputEvent :=
  let r1 :=
    if direction ≠ .NONE ∧ direction ≠ a.last_joystick_direction_ then
      trigger_unified_event a (joystick_event_to_unified a direction .RELEASED)
        current_time
    else (a, [])
  let a1 := r1.1
  let r2 :=
    if button_state = .PRESSED ∧ a1.last_joystick_button_ = .RELEASED then
      trigger_unified_event a1 (joystick_event_to_unified a1 .NONE button_state)
        current_time
    else (a1, [])
  (r2.1, r1.2 ++ r2.2)

/-- Runs the manager's callback on the events the manager triggered, in
order. -/
def deliver_button_events (a : ButtonSystemAdapter) (current_time : Nat) :
    List Fired → ButtonSystemAdapter × List UnifiedInputEvent
  | [] => (a, [])
  | f :: rest =>
    let r := handle_button_event a f.event current_time
    let rs := deliver_button_events r.1 current_time rest
    (rs.1, r.2 ++ rs.2)

/-- The method `update`: the new state and the events handed to the
application callback, in order. Every clock read of the call returns
`tk.now`; `joy` is what the joystick controller reports after its own
update and is ignored when no controller is attached. -/
def update (a : ButtonSystemAdapter) (tk : TickInput) (joy : JoystickReading) :
    ButtonSystemAdapter × List UnifiedInputEvent :=
  let mr := a.button_manager_.update tk
  let r1 := deliver_button_events { a with button_manager_ := mr.1 } tk.now mr.2
  let a1 := r1.1
  if a1.joystick_controller_ then
    if joy.direction ≠ a1.last_joystick_direction_ ∨
        joy.button ≠ a1.last_joystick_button_ then
      let r2 := handle_joystick_event a1 joy.direction joy.button tk.now
      ({ r2.1 with last_joystick_direction_ := joy.direction,
                   last_joystick_button_ := joy.button }, r1.2 ++ r2.2)
    else (a1, r1.2)
  else (a1, r1.2)

end ButtonSystemAdapter

/-! ## Concrete hardware inputs used by the examples -/

/-- Pin levels with the three buttons wired to GPIO 8, 9 and 14: a pressed
button reads low, every other pin reads high. -/
def pins (up down screen : Bool) : Nat → Bool :=
  fun pin =>
    if pin = 8 then !up else if pin = 9 then !down else if pin = 14 then !screen
    else true

/-- A manager built by the constructor for GPIO 8, 9 and 14 and initialised
with all buttons released. -/
def manager0 : EnhancedButtonManager :=
  (EnhancedButtonManager.ctor 8 9 14 50).init (pins false false false)

/-- An adapter without joystick built by the constructor for GPIO 8, 9 and
14 and initialised with all buttons released. -/
def adapter0 : ButtonSystemAdapter :=
  (ButtonSystemAdapter.ctor 8 9 14 50 false).init (pins false false false)

/-- The joystick at rest. -/
def joystick_idle : JoystickReading := { direction := .NONE, button := .RELEASED }

/-- Sample `pressed` of the three buttons at clock value `t`. -/
def tick (t : Nat) (up down screen : Bool) : TickInput :=
  { clock_ms := t, gpio_get := pins up down screen }

namespace ButtonSystemAdapter

/-- A sequence of `update` calls: the final state and, for every call, the
events handed to the application callback in it. -/
def run (a : ButtonSystemAdapter) : List (TickInput × JoystickReading) →
    ButtonSystemAdapter × List (List UnifiedInputEvent)
  | [] => (a, [])
  | x :: rest =>
    let r := update a x.1 x.2
    let rs := run r.1 rest
    (rs.1, r.2 :: rs.2)

end ButtonSystemAdapter

namespace EnhancedButtonManager

/-- The `ButtonState` member that belongs to button `b`. -/
def button_state (m : EnhancedButtonManager) : Button → ButtonState
  | .up => m.up_button_
  | .down => m.down_button_
  | .screen => m.screen_button_

/-- The pin member that belongs to button `b`. -/
def button_pin (m : EnhancedButtonManager) : Button → Nat
  | .up => m.up_pin_
  | .down => m.down_pin_
  | .screen => m.screen_pin_

/-- The long-press function `update` passes to `process_button_event` for
button `b`; the screen button has none. -/
def long_function (map : ButtonFunctionMapping) : Button → ButtonFunction
  | .up => map.long_press_up
  | .down => map.long_press_down
  | .screen => .NONE

/-- The short-press function `update` uses for button `b`. -/
def single_function (map : ButtonFunctionMapping) : Button → ButtonFunction
  | .up => map.single_press_up
  | .down => map.single_press_down
  | .screen => map.screen_press

/-- Whether button `b` is sampled pressed at `tk`. -/
def sampled_pressed (m : EnhancedButtonManager) (b : Button) (tk : TickInput) : Bool :=
  read_button_gpio tk.gpio_get (m.button_pin b)

end EnhancedButtonManager

/-- Clock reading at the first tick of a hold, the tick of the rising edge. -/
def press_time_of : List TickInput → Nat
  | [] => 0
  | tk :: _ => tk.now

/-- The accepted `trigger_event` calls among the call decided by
`process_button_event` for button `src`: a call with `NONE` is ignored. -/
def accepted (src : Button) : Option EnhancedButtonEvent → List Fired
  | some e => if e ≠ .NONE then [{ button := src, event := e }] else []
  | none => []

/-- What one `update` call does to a single button on `pin`: its state is
refreshed by `update_button_state` and handed to `process_button_event`. -/
def button_step (long_press_ms_ : Nat) (single_function long_function : ButtonFunction)
    (pin : Nat) (s : ButtonState) (tk : TickInput) :
    ButtonState × Option EnhancedButtonEvent :=
  EnhancedButtonManager.process_button_event long_press_ms_
    (EnhancedButtonManager.update_button_state s tk.gpio_get pin tk.now)
    single_function long_function tk.now

/-- The steps of a single button over a sequence of `update` calls: the
final state and, for every call, the events it triggers. -/
def button_run (long_press_ms_ : Nat) (single_function long_function : ButtonFunction)
    (pin : Nat) (src : Button) (s : ButtonState) :
    List TickInput → ButtonState × List (List EnhancedButtonEvent)
  | [] => (s, [])
  | tk :: rest =>
    let r := button_step long_press_ms_ single_function long_function pin s tk
    let rs := button_run long_press_ms_ single_function long_function pin src r.1 rest
    (rs.1, (accepted src r.2).map Fired.event :: rs.2)

/-! ## Joystick direction classification -/

/-- Conversion of an integer to `int16_t`. -/
def to_int16 (n : Int) : Int := (n + 32768) % 65536 - 32768

/-- A `float` factor given as the exact fraction `num / den`, `den > 0`.
The source uses the factors `1.5f` (`3 / 2`) and `0.8f` (taken as `4 / 5`);
products of an `int16_t` magnitude with `1.5f` are exact in `float`. A
factor whose products are rounded in `float`, such as `1.3f`, is outside
the embedding: the source compares with the rounded product. -/
structure Ratio where
  num : Nat
  den : Nat
  deriving DecidableEq, Repr

/-- The `float` comparison `a > b * ratio` between integer magnitudes,
evaluated exactly. -/
def gt_times (a b : Int) (ratio : Ratio) : Bool :=
  decide (a * ratio.den > b * ratio.num)

/-- The `float` comparison `a < b * ratio` between integer magnitudes,
evaluated exactly. -/
def lt_times (a b : Int) (ratio : Ratio) : Bool :=
  decide (a * ratio.den < b * ratio.num)

/-- Modelled from the spec: the struct `JoystickDebounceConfig` of
`joystick.hpp`, a header that is not among the sources; the fields are those
the constructor of `JoystickDebouncer` assigns. -/
structure JoystickDebounceConfig where
  threshold : Nat
  deadzone : Nat
  stable_count_required : Nat
  button_debounce_ms : Nat
  direction_ratio : Ratio
  deriving DecidableEq, Repr

/-- What the joystick device answers during one `update`: the byte returned
by `get_button_value()` and the two `uint16_t` of the ADC register, `none`
when the I2C read does not return its four bytes. -/
structure JoystickSample where
  button_value : Nat
  adc_xy : Option (Nat × Nat)
  deriving DecidableEq, Repr

namespace Joystick

/-- The method `get_joy_adc_16bits_value_xy`: the two values read, or zeros
when the read fails. -/
def get_joy_adc_16bits_value_xy (adc_xy : Option (Nat × Nat)) : Nat × Nat :=
  match adc_xy with
  | some (x, y) => (x % 65536, y % 65536)
  | none => (0, 0)

/-- The method `Joystick::determine_direction`, which reads only
`_debounce_config`. -/
def determine_direction (_debounce_config : JoystickDebounceConfig)
    (x_adc y_adc : Nat) : JoystickDirection :=
  let center : Int := 2048
  let threshold : Int := (_debounce_config.threshold % 65536 : Nat)
  let deadzone : Int := (_debounce_config.deadzone % 65536 : Nat)
  let x_offset := to_int16 (to_int16 (x_adc % 65536 : Nat) - center)
  let y_offset := to_int16 (to_int16 (y_adc % 65536 : Nat) - center)
  if |x_offset| < deadzone ∧ |y_offset| < deadzone then .NONE
  else if |x_offset| < threshold ∧ |y_offset| < threshold then .NONE
  else if gt_times |x_offset| |y_offset| _debounce_config.direction_ratio then
    (if x_offset > 0 then .RIGHT else .LEFT)
  else
    (if y_offset > 0 then .DOWN else .UP)

end Joystick

/-! ## `JoystickDebouncer` -/

/-- Data members of the class `JoystickDebouncer`. -/
structure JoystickDebouncer where
  _config : JoystickDebounceConfig
  _current_direction : JoystickDirection
  _last_direction : JoystickDirection
  _current_button_state : JoystickButtonState
  _last_button_state : JoystickButtonState
  _direction_stable_count : Nat
  _last_button_time : Nat
  _button_event_occurred : Bool
  _direction_changed : Bool
  deriving DecidableEq, Repr

namespace JoystickDebouncer

/-- The configuration the constructor installs. -/
def default_config : JoystickDebounceConfig :=
  { threshold := 1800, deadzone := 1000, stable_count_required := 3,
    button_debounce_ms := 200, direction_ratio := { num := 3, den := 2 } }

/-- The constructor. -/
def ctor : JoystickDebouncer :=
  { _config := default_config,
    _current_direction := .NONE,
    _last_direction := .NONE,
    _current_button_state := .RELEASED,
    _last_button_state := .RELEASED,
    _direction_stable_count := 0,
    _last_button_time := 0,
    _button_event_occurred := false,
    _direction_changed := false }

/-- The method `set_debounce_config`. -/
def set_debounce_config (d : JoystickDebouncer) (config : JoystickDebounceConfig) :
    JoystickDebouncer :=
  { d with _config := config }

/-- The method `has_button_event`. -/
def has_button_event (d : JoystickDebouncer) : Bool := d._button_event_occurred

/-- The method `get_button_state`. -/
def get_button_state (d : JoystickDebouncer) : JoystickButtonState :=
  d._current_button_state

/-- The method `has_direction_changed`. -/
def has_direction_changed (d : JoystickDebouncer) : Bool := d._direction_changed

/-- The method `get_stable_direction`. -/
def get_stable_direction (d : JoystickDebouncer) : JoystickDirection :=
  d._current_direction

/-- The method `JoystickDebouncer::determine_direction`. -/
def determine_direction (d : JoystickDebouncer) (x_adc y_adc : Nat) :
    JoystickDirection :=
  let center : Int := 2048
  let threshold : Int := (d._config.threshold % 65536 : Nat)
  let deadzone : Int := (d._config.deadzone % 65536 : Nat)
  let x_offset := to_int16 (to_int16 (x_adc % 65536 : Nat) - center)
  let y_offset := to_int16 (to_int16 (y_adc % 65536 : Nat) - center)
  if |x_offset| < deadzone ∧ |y_offset| < deadzone then .NONE
  else if |x_offset| < threshold ∧ |y_offset| < threshold then .NONE
  else if gt_times |x_offset| |y_offset| d._config.direction_ratio then
    (if x_offset > 0 then .RIGHT else .LEFT)
  else
    (if y_offset > 0 then .DOWN else .UP)

/-- The button part of `update` (lines 28 to 41). -/
def update_button (d : JoystickDebouncer) (current_time : Nat) (button_value : Nat) :
    JoystickDebouncer :=
  let new_button_state : JoystickButtonState :=
    if button_value = 0 then .PRESSED else .RELEASED
  if new_button_state ≠ d._current_button_state then
    if sub_u32 current_time d._last_button_time > d._config.button_debounce_ms then
      { d with _last_button_state := d._current_button_state,
               _current_button_state := new_button_state,
               _button_event_occurred := true,
               _last_button_time := current_time }
    else d
  else { d with _button_event_occurred := false }

/-- The direction part of `update` (lines 49 to 63) for the classification
`new_direction` of this tick; `_direction_stable_count` is a `uint8_t`. -/
def update_direction (d : JoystickDebouncer) (new_direction : JoystickDirection) :
    JoystickDebouncer :=
  if new_direction ≠ d._current_direction then
    if new_direction = d._last_direction then
      let d1 := { d with
        _direction_stable_count := (d._direction_stable_count + 1) % 256 }
      if d1._direction_stable_count ≥ d1._config.stable_count_required then
        { d1 with _current_direction := new_direction, _direction_changed := true }
      else d1
    else
      { d with _direction_stable_count := 1, _last_direction := new_direction }
  else
    { d with _direction_stable_count := 0, _direction_changed := false }

/-- The classification `update` computes from the answer of the device. -/
def raw_direction (d : JoystickDebouncer) (sample : JoystickSample) :
    JoystickDirection :=
  let xy := Joystick.get_joy_adc_16bits_value_xy sample.adc_xy
  determine_direction d xy.1 xy.2

/-- The method `update`; `joystick` is `none` for a null pointer, `clock_ms`
is the clock reading. -/
def update (d : JoystickDebouncer) (clock_ms : Nat) (joystick : Option JoystickSample) :
    JoystickDebouncer :=
  match joystick with
  | none => d
  | some sample =>
    let current_time := clock_ms % UINT32_MOD
    let d1 := update_button d current_time (sample.button_value % 256)
    update_direction d1 (raw_direction d1 sample)

/-- A sequence of `update` calls on an attached joystick: the stable
direction reported after every call. -/
def stable_trace (d : JoystickDebouncer) :
    List (Nat × JoystickSample) → List JoystickDirection
  | [] => []
  | x :: rest =>
    let d1 := update d x.1 (some x.2)
    d1.get_stable_direction :: stable_trace d1 rest

end JoystickDebouncer

/-! ## `JoystickController` -/

/-- Data members of the class `JoystickController`. The two `int` members
`previous_direction_` and `last_reported_direction_` only ever hold the
value of a `JoystickDirection` (`0` is `NONE`) and are kept as such; the LED
and the log are outputs that are not modelled. -/
structure JoystickController where
  threshold_ : Nat
  stable_count_required_ : Nat
  previous_direction_ : JoystickDirection
  stable_count_ : Nat
  last_reported_direction_ : JoystickDirection
  last_button_pressed_ : Bool
  led_enabled_ : Bool
  deriving DecidableEq, Repr

/-- What the joystick device answers to `JoystickController::update`: the
two 12-bit offset registers, read as `int16_t`, and the button byte. -/
structure OffsetSample where
  offset_x : Int
  offset_y : Int
  button_value : Nat
  deriving DecidableEq, Repr

namespace JoystickController

/-- The constructor. -/
def ctor : JoystickController :=
  { threshold_ := 1800,
    stable_count_required_ := 3,
    previous_direction_ := .NONE,
    stable_count_ := 0,
    last_reported_direction_ := .NONE,
    last_button_pressed_ := false,
    led_enabled_ := true }

/-- The method `setThreshold`, whose argument is a `uint16_t`. -/
def setThreshold (c : JoystickController) (threshold : Nat) : JoystickController :=
  { c with threshold_ := threshold % 65536 }

/-- The method `setStableCount`, whose argument is a `uint8_t`. -/
def setStableCount (c : JoystickController) (count : Nat) : JoystickController :=
  { c with stable_count_required_ := count % 256 }

/-- The method `getCurrentDirection`. -/
def getCurrentDirection (c : JoystickController) : JoystickDirection :=
  c.last_reported_direction_

/-- The method `getButtonState`. -/
def getButtonState (c : JoystickController) : JoystickButtonState :=
  if c.last_button_pressed_ then .PRESSED else .RELEASED

/-- The method `determineDirection`; `abs_x` and `abs_y` are `int16_t`. -/
def determineDirection (c : JoystickController) (offset_x offset_y : Int) :
    JoystickDirection :=
  let offset_x := to_int16 offset_x
  let offset_y := to_int16 offset_y
  let abs_x := to_int16 |offset_x|
  let abs_y := to_int16 |offset_y|
  let threshold : Int := (c.threshold_ : Nat)
  if abs_x < threshold ∧ abs_y < threshold then .NONE
  else if lt_times abs_x threshold { num := 4, den := 5 } ∧
      lt_times abs_y threshold { num := 4, den := 5 } then .NONE
  else if gt_times abs_y abs_x { num := 3, den := 2 } then
    (if offset_y < 0 then .UP else .DOWN)
  else if gt_times abs_x abs_y { num := 3, den := 2 } then
    (if offset_x < 0 then .LEFT else .RIGHT)
  else .NONE

/-- The direction part of `update` (lines 45 to 67) for the classification
`current_direction` of this tick: the new state and the invocations of the
direction callback. `stable_count_` is a `uint8_t`. -/
def update_direction (c : JoystickController) (current_direction : JoystickDirection) :
    JoystickController × List JoystickDirection :=
  let c1 :=
    if current_direction = c.previous_direction_ then
      { c with stable_count_ := (c.stable_count_ + 1) % 256 }
    else
      { c with stable_count_ := 0, previous_direction_ := current_direction }
  if c1.stable_count_ ≥ c1.stable_count_required_ ∧
      current_direction ≠ .NONE ∧
      current_direction ≠ c1.last_reported_direction_ then
    ({ c1 with last_reported_direction_ := current_direction }, [current_direction])
  else if current_direction = .NONE ∧ c1.last_reported_direction_ ≠ .NONE then
    ({ c1 with last_reported_direction_ := .NONE }, [])
  else (c1, [])

/-- The method `handleButtonEvent`: the new state and the invocations of
the button callback. -/
def handleButtonEvent (c : JoystickController) (button_value : Nat) :
    JoystickController × List JoystickButtonState :=
  let current_button_pressed := decide (button_value = 0)
  if current_button_pressed && !c.last_button_pressed_ then
    ({ c with last_button_pressed_ := true }, [.PRESSED])
  else if !current_button_pressed && c.last_button_pressed_ then
    ({ c with last_button_pressed_ := false }, [.RELEASED])
  else (c, [])

/-- The method `update`: the new state; the callbacks invoked are those of
`update_direction` and `handleButtonEvent`. -/
def update (c : JoystickController) (sample : OffsetSample) : JoystickController :=
  let current_direction := determineDirection c sample.offset_x sample.offset_y
  let c1 := (update_direction c current_direction).1
  (handleButtonEvent c1 (sample.button_value % 256)).1

/-- What the controller reports to the `ButtonSystemAdapter`. -/
def reading (c : JoystickController) : JoystickReading :=
  { direction := c.getCurrentDirection, button := c.getButtonState }

/-- A sequence of `update` calls: the value of `getCurrentDirection()` after
every call. -/
def reported_trace (c : JoystickController) :
    List OffsetSample → List JoystickDirection
  | [] => []
  | x :: rest =>
    let c1 := update c x
    c1.getCurrentDirection :: reported_trace c1 rest

end JoystickController

/-! ## Reference inputs and the stability filter in the words of the spec -/

/-- Raw `uint16_t` ADC value of an axis pushed to offset `dx` from the
centre 2048, taken modulo `2^16`. -/
def raw_of_offset (dx : Int) : Nat := ((2048 + dx) % 65536).toNat

/-- State of the stability filter as the spec words it: the stable
direction, the last classification and the length of its current run. -/
structure RunFilter where
  stable : JoystickDirection
  candidate : JoystickDirection
  run : Nat
  deriving DecidableEq, Repr

namespace RunFilter

/-- Before any sample: stable direction `NONE`, no run yet. -/
def init : RunFilter := { stable := .NONE, candidate := .NONE, run := 0 }

/-- One classification `d`: the run of equal classifications is extended or
restarted, and the stable direction changes to `d` exactly when `d` differs
from it and this is the `required`-th consecutive `d`. -/
def step (required : Nat) (f : RunFilter) (d : JoystickDirection) : RunFilter :=
  let run1 := if d = f.candidate then f.run + 1 else 1
  { stable := if d ≠ f.stable ∧ run1 = required then d else f.stable,
    candidate := d,
    run := run1 }

/-- The stable direction after every classification of a sequence. -/
def trace (required : Nat) (f : RunFilter) :
    List JoystickDirection → List JoystickDirection
  | [] => []
  | d :: rest => (step required f d).stable :: trace required (step required f d) rest

end RunFilter

/-- Relation between the direction members of a `JoystickDebouncer` and the
filter of the spec after the same classifications. -/
def filter_related (required : Nat) (d : JoystickDebouncer) (f : RunFilter) : Prop :=
  d._current_direction = f.stable ∧
  ((f.candidate = f.stable ∧
      (d._last_direction = f.stable ∨ d._direction_stable_count = 0)) ∨
   (f.candidate ≠ f.stable ∧ d._last_direction = f.candidate ∧
      d._direction_stable_count = f.run ∧ 1 ≤ f.run ∧ f.run < required))

/-- Two qualifying events handed to `trigger_unified_event`, the first when
the clock reads `t1` and the second when it reads `t2`: the events
delivered to the application callback. -/
def deliver_two (a : ButtonSystemAdapter) (e1 e2 : UnifiedInputEvent) (t1 t2 : Nat) :
    List UnifiedInputEvent :=
  let r1 := ButtonSystemAdapter.trigger_unified_event a e1 (t1 % UINT32_MOD)
  let r2 := ButtonSystemAdapter.trigger_unified_event r1.1 e2 (t2 % UINT32_MOD)
  r1.2 ++ r2.2

/-- A step of the adapter made while the clock reads `now` delivers at most
one event: it keeps `repeat_delay_ms_`, hands at most one event to the
callback, leaves the gate shut at `now` when it delivered one, and delivers
nothing and keeps the gate shut when the gate was shut before. -/
def delivers_once (a : ButtonSystemAdapter) (now : Nat)
    (r : ButtonSystemAdapter × List UnifiedInputEvent) : Prop :=
  r.1.repeat_delay_ms_ = a.repeat_delay_ms_ ∧
  r.2.length ≤ 1 ∧
  (r.2 ≠ [] → ButtonSystemAdapter.can_trigger_event r.1 now = false) ∧
  (ButtonSystemAdapter.can_trigger_event a now = false →
    r.2 = [] ∧ ButtonSystemAdapter.can_trigger_event r.1 now = false)

/-- The device's answer with the stick pushed to offsets `(dx, dy)` from the
centre and the button released. -/
def pushed (dx dy : Int) : JoystickSample :=
  { button_value := 1, adc_xy := some (raw_of_offset dx, raw_of_offset dy) }

/-- The offset registers with the stick pushed to `(dx, dy)` and the button
released. -/
def pushed_offsets (dx dy : Int) : OffsetSample :=
  { offset_x := dx, offset_y := dy, button_value := 1 }

/-! ## `ButtonManager` -/

/-- The enum `ButtonManagerEvent`. -/
inductive ButtonManagerEvent where
  | NONE
  | SCREEN_POWER_TOGGLE
  | PAGE_UP
  | PAGE_DOWN
  | PAGE_UP_LONG
  | PAGE_DOWN_LONG
  deriving DecidableEq, Repr

/-- Data members of the class `ButtonManager`. -/
structure ButtonManager where
  screen_power_pin_ : Nat
  page_up_pin_ : Nat
  page_down_pin_ : Nat
  last_screen_power_state_ : Bool
  last_page_up_state_ : Bool
  last_page_down_state_ : Bool
  last_screen_power_time_ : Nat
  last_page_up_time_ : Nat
  last_page_down_time_ : Nat
  debounce_time_ms_ : Nat
  long_press_time_ms_ : Nat
  page_up_press_start_time_ : Nat
  page_down_press_start_time_ : Nat
  page_up_long_press_handled_ : Bool
  page_down_long_press_handled_ : Bool
  pending_event_ : ButtonManagerEvent
  deriving DecidableEq, Repr

namespace ButtonManager

/-- The constructor. The pin numbers and the debounce time come from
`config/button_config.hpp` (`BUTTON_SCREEN_POWER_PIN`, `BUTTON_PAGE_UP_PIN`,
`BUTTON_PAGE_DOWN_PIN`, `BUTTON_DEBOUNCE_TIME`) and are parameters. -/
def ctor (screen_power_pin page_up_pin page_down_pin debounce_time : Nat) :
    ButtonManager :=
  { screen_power_pin_ := screen_power_pin,
    page_up_pin_ := page_up_pin,
    page_down_pin_ := page_down_pin,
    last_screen_power_state_ := false,
    last_page_up_state_ := false,
    last_page_down_state_ := false,
    last_screen_power_time_ := 0,
    last_page_up_time_ := 0,
    last_page_down_time_ := 0,
    debounce_time_ms_ := debounce_time,
    long_press_time_ms_ := NEW_BUTTON_LONG_PRESS_MS,
    page_up_press_start_time_ := 0,
    page_down_press_start_time_ := 0,
    page_up_long_press_handled_ := false,
    page_down_long_press_handled_ := false,
    pending_event_ := .NONE }

/-- The method `readButtonState`: a pressed button pulls its pin low. -/
def readButtonState (gpio_get : Nat → Bool) (pin : Nat) : Bool :=
  !gpio_get pin

/-- The method `initialize`: records the initial level of the three pins. -/
def init (s : ButtonManager) (gpio_get : Nat → Bool) : ButtonManager :=
  { s with
    last_screen_power_state_ := readButtonState gpio_get s.screen_power_pin_,
    last_page_up_state_ := readButtonState gpio_get s.page_up_pin_,
    last_page_down_state_ := readButtonState gpio_get s.page_down_pin_ }

/-- The method `getNextEvent`: the returned event and the new state. -/
def getNextEvent (s : ButtonManager) : ButtonManagerEvent × ButtonManager :=
  (s.pending_event_, { s with pending_event_ := .NONE })

/-- The method `hasEvent`. -/
def hasEvent (s : ButtonManager) : Bool :=
  s.pending_event_ != .NONE

/-- The method `isButtonJustPressed` when the clock reads `current_time`:
the returned flag and the new values of the referenced `last_state` and
`last_time`. -/
def isButtonJustPressed (debounce_time_ms_ : Nat) (current_time : Nat)
    (current_state : Bool) (last_state : Bool) (last_time : Nat) :
    Bool × Bool × Nat :=
  if current_state && !last_state then
    if sub_u32 current_time last_time ≥ debounce_time_ms_ then
      (true, current_state, current_time)
    else (false, last_state, last_time)
  else
    (false, current_state, if !current_state then current_time else last_time)

/-- The page-up block of `update` (lines 90 to 119): the state after it and
whether it returned from `update`. -/
def page_up_stage (s : ButtonManager) (current_page_up : Bool) (current_time : Nat) :
    ButtonManager × Bool :=
  if current_page_up && !s.last_page_up_state_ then
    ({ s with page_up_press_start_time_ := current_time,
              page_up_long_press_handled_ := false }, false)
  else if current_page_up && s.last_page_up_state_ then
    let press_duration := sub_u32 current_time s.page_up_press_start_time_
    if !s.page_up_long_press_handled_ && decide (press_duration ≥ s.long_press_time_ms_) then
      ({ s with pending_event_ := .PAGE_UP_LONG,
                page_up_long_press_handled_ := true,
                last_page_up_state_ := current_page_up }, true)
    else (s, false)
  else if !current_page_up && s.last_page_up_state_ then
    if !s.page_up_long_press_handled_ then
      ({ s with pending_event_ := .PAGE_UP,
                last_page_up_state_ := current_page_up }, true)
    else (s, false)
  else (s, false)

/-- The page-down block of `update` (lines 121 to 150): the state after it
and whether it returned from `update`. -/
def page_down_stage (s : ButtonManager) (current_page_down : Bool) (current_time : Nat) :
    ButtonManager × Bool :=
  if current_page_down && !s.last_page_down_state_ then
    ({ s with page_down_press_start_time_ := current_time,
              page_down_long_press_handled_ := false }, false)
  else if current_page_down && s.last_page_down_state_ then
    let press_duration := sub_u32 current_time s.page_down_press_start_time_
    if !s.page_down_long_press_handled_ &&
        decide (press_duration ≥ s.long_press_time_ms_) then
      ({ s with pending_event_ := .PAGE_DOWN_LONG,
                page_down_long_press_handled_ := true,
                last_page_down_state_ := current_page_down }, true)
    else (s, false)
  else if !current_page_down && s.last_page_down_state_ then
    if !s.page_down_long_press_handled_ then
      ({ s with pending_event_ := .PAGE_DOWN,
                last_page_down_state_ := current_page_down }, true)
    else (s, false)
  else (s, false)

/-- The screen-key block of `update` (lines 82 to 88): the state after it
and whether it returned from `update`. -/
def screen_stage (s : ButtonManager) (current_screen_power : Bool) (current_time : Nat) :
    ButtonManager × Bool :=
  let jp := isButtonJustPressed s.debounce_time_ms_ current_time current_screen_power
    s.last_screen_power_state_ s.last_screen_power_time_
  let s1 := { s with last_screen_power_state_ := jp.2.1,
                     last_screen_power_time_ := jp.2.2 }
  if jp.1 then ({ s1 with pending_event_ := .SCREEN_POWER_TOGGLE }, true)
  else (s1, false)

/-- The method `update`. -/
def update (s : ButtonManager) (tk : TickInput) : ButtonManager :=
  let current_time := tk.now
  if s.pending_event_ ≠ .NONE then s
  else
    let current_screen_power := readButtonState tk.gpio_get s.screen_power_pin_
    let current_page_up := readButtonState tk.gpio_get s.page_up_pin_
    let current_page_down := readButtonState tk.gpio_get s.page_down_pin_
    let screen := screen_stage s current_screen_power current_time
    if screen.2 then screen.1
    else
      let up := page_up_stage screen.1 current_page_up current_time
      if up.2 then up.1
      else
        let down := page_down_stage up.1 current_page_down current_time
        if down.2 then down.1
        else
          { down.1 with last_page_up_state_ := current_page_up,
                        last_page_down_state_ := current_page_down }

/-- One iteration of a main loop that calls `getNextEvent` after every
`update`: the new state and the event the consumer receives. -/
def poll (s : ButtonManager) (tk : TickInput) : ButtonManager × ButtonManagerEvent :=
  let r := getNextEvent (update s tk)
  (r.2, r.1)

/-- A sequence of such iterations: the final state and the event received
in each. -/
def poll_run (s : ButtonManager) : List TickInput →
    ButtonManager × List ButtonManagerEvent
  | [] => (s, [])
  | tk :: rest =>
    let r := poll s tk
    let rs := poll_run r.1 rest
    (rs.1, r.2 :: rs.2)

end ButtonManager

/-! ## `ButtonEventHandler` -/

/-- The enumerators of `ButtonLogicEvent` that `button_event.cpp` uses; the
header `button_event.hpp` is not among the sources. -/
inductive ButtonLogicEvent where
  | NONE
  | SHORT_PRESS
  | LONG_PRESS
  deriving DecidableEq, Repr

/-- Data members of the class `button::ButtonEventHandler` that
`button_event.cpp` reads or writes, the controller pointer left out. -/
structure ButtonEventHandler where
  long_press_ms_ : Nat
  double_press_ms_ : Nat
  key1_press_time_ : Nat
  key2_press_time_ : Nat
  key1_last_release_time_ : Nat
  key2_last_release_time_ : Nat
  key1_long_press_handled_ : Bool
  key2_long_press_handled_ : Bool
  last_key1_pressed_ : Bool
  last_key2_pressed_ : Bool
  key1_event_ : ButtonLogicEvent
  key2_event_ : ButtonLogicEvent
  deriving DecidableEq, Repr

namespace ButtonEventHandler

/-- The constructor, whose time arguments are `uint32_t`. -/
def ctor (long_press_ms double_press_ms : Nat) : ButtonEventHandler :=
  { long_press_ms_ := long_press_ms % UINT32_MOD,
    double_press_ms_ := double_press_ms % UINT32_MOD,
    key1_press_time_ := 0, key2_press_time_ := 0,
    key1_last_release_time_ := 0, key2_last_release_time_ := 0,
    key1_long_press_handled_ := false, key2_long_press_handled_ := false,
    last_key1_pressed_ := false, last_key2_pressed_ := false,
    key1_event_ := .NONE, key2_event_ := .NONE }

/-- The KEY1 block of `update` (lines 40 to 77), without the final
assignment to `last_key1_pressed_`. -/
def update_key1 (h : ButtonEventHandler) (now : Nat) (key1_pressed : Bool) :
    ButtonEventHandler :=
  if key1_pressed then
    let h1 :=
      if !h.last_key1_pressed_ then
        { h with key1_press_time_ := now, key1_event_ := .NONE }
      else h
    let press_duration := sub_u32 now h1.key1_press_time_
    if !h1.key1_long_press_handled_ &&
        decide (press_duration ≥ NEW_BUTTON_LONG_PRESS_MS) then
      { h1 with key1_event_ := .LONG_PRESS, key1_long_press_handled_ := true }
    else if h1.key1_long_press_handled_ then
      { h1 with key1_event_ := .LONG_PRESS }
    else h1
  else
    let h1 :=
      if h.last_key1_pressed_ then
        let h2 :=
          if !h.key1_long_press_handled_ then { h with key1_event_ := .SHORT_PRESS }
          else h
        { h2 with key1_long_press_handled_ := false }
      else h
    { h1 with key1_press_time_ := 0 }

/-- The KEY2 block of `update` (lines 96 to 133), without the final
assignment to `last_key2_pressed_`. -/
def update_key2 (h : ButtonEventHandler) (now : Nat) (key2_pressed : Bool) :
    ButtonEventHandler :=
  if key2_pressed then
    let h1 :=
      if !h.last_key2_pressed_ then
        { h with key2_press_time_ := now, key2_event_ := .NONE }
      else h
    let press_duration := sub_u32 now h1.key2_press_time_
    if !h1.key2_long_press_handled_ &&
        decide (press_duration ≥ NEW_BUTTON_LONG_PRESS_MS) then
      { h1 with key2_event_ := .LONG_PRESS, key2_long_press_handled_ := true }
    else if h1.key2_long_press_handled_ then
      { h1 with key2_event_ := .LONG_PRESS }
    else h1
  else
    let h1 :=
      if h.last_key2_pressed_ then
        let h2 :=
          if !h.key2_long_press_handled_ then { h with key2_event_ := .SHORT_PRESS }
          else h
        { h2 with key2_long_press_handled_ := false }
      else h
    { h1 with key2_press_time_ := 0 }

/-- The method `update`; `clock_ms` is the clock reading, `key1_pressed` and
`key2_pressed` are what the controller answers to `is_key1_pressed()` and
`is_key2_pressed()`. -/
def update (h : ButtonEventHandler) (clock_ms : Nat) (key1_pressed key2_pressed : Bool) :
    ButtonEventHandler :=
  let now := clock_ms % UINT32_MOD
  let h1 := update_key1 h now key1_pressed
  let h2 := update_key2 h1 now key2_pressed
  { h2 with last_key1_pressed_ := key1_pressed, last_key2_pressed_ := key2_pressed }

/-- The method `get_key1_event`. -/
def get_key1_event (h : ButtonEventHandler) : ButtonLogicEvent := h.key1_event_

/-- The method `get_key2_event`. -/
def get_key2_event (h : ButtonEventHandler) : ButtonLogicEvent := h.key2_event_

/-- A sequence of `update` calls with KEY2 released: the value of
`get_key1_event()` after every call. -/
def key1_trace (h : ButtonEventHandler) : List (Nat × Bool) → List ButtonLogicEvent
  | [] => []
  | x :: rest =>
    let h1 := update h x.1 x.2 false
    h1.get_key1_event :: key1_trace h1 rest

end ButtonEventHandler

/-! ## `Joystick::update` -/

/-- One pass of the retry loop of `Joystick::update`: what the call of
`get_joy_adc_16bits_value_xy_with_timeout` reads (the two `uint16_t`, or
`none` when it does not return 4) and by how many milliseconds the clock
advances during the pass, the `sleep_ms(1)` after a failure included. -/
structure ReadAttempt where
  result : Option (Nat × Nat)
  elapsed_ms : Nat
  deriving DecidableEq, Repr

/-- What the retry loop leaves behind: the sample that is classified, the
flag `adc_read_success` and the number of read attempts made. -/
structure RetryResult where
  x_adc : Nat
  y_adc : Nat
  adc_read_success : Bool
  attempts : Nat
  deriving DecidableEq, Repr

/-- Data members of the class `Joystick` that `Joystick::update` reads or
writes, with its function-local static `last_direction_change_time`. -/
structure Joystick where
  _debounce_config : JoystickDebounceConfig
  _current_direction : JoystickDirection
  _last_direction : JoystickDirection
  _current_button_state : JoystickButtonState
  _last_button_state : JoystickButtonState
  _direction_stable_count : Nat
  _last_button_time : Nat
  _button_event_occurred : Bool
  _direction_changed : Bool
  last_direction_change_time : Nat
  deriving DecidableEq, Repr

namespace Joystick

/-- The method `get_joy_adc_16bits_value_xy_with_timeout`: the two values
read and `true`, or the centre `(2048, 2048)` and `false` when the read does
not return 4. -/
def get_joy_adc_16bits_value_xy_with_timeout (result : Option (Nat × Nat)) :
    (Nat × Nat) × Bool :=
  match result with
  | some (x, y) => ((x % 65536, y % 65536), true)
  | none => ((2048, 2048), false)

/-- The retry loop of `update` (lines 316 to 329). `start_time` is the
reading taken before the loop, `clock_ms` the clock at the loop test,
`made` the attempts made so far, `script` the passes still to come. The
result is `none` only when the script ends while the loop goes on. -/
def retry_loop (start_time : Nat) :
    List ReadAttempt → Nat → Nat → Option RetryResult
  | [], clock_ms, made =>
    if sub_u32 (clock_ms % UINT32_MOD) start_time < 10 then none
    else
      some { x_adc := 2048, y_adc := 2048, adc_read_success := false,
             attempts := made }
  | a :: rest, clock_ms, made =>
    if sub_u32 (clock_ms % UINT32_MOD) start_time < 10 then
      let r := get_joy_adc_16bits_value_xy_with_timeout a.result
      if r.2 then
        some { x_adc := r.1.1, y_adc := r.1.2, adc_read_success := true,
               attempts := made + 1 }
      else
        retry_loop start_time rest (clock_ms + a.elapsed_ms) (made + 1)
    else
      some { x_adc := 2048, y_adc := 2048, adc_read_success := false,
             attempts := made }

/-- The read of `update` (lines 308 to 329): `start_time` is taken and the
loop starts at the same clock value. -/
def read_with_retry (clock_ms : Nat) (script : List ReadAttempt) : Option RetryResult :=
  retry_loop (clock_ms % UINT32_MOD) script clock_ms 0

/-- The button part of `update` (lines 292 to 305). -/
def update_button (j : Joystick) (current_time : Nat) (button_value : Nat) : Joystick :=
  let new_button_state : JoystickButtonState :=
    if button_value = 0 then .PRESSED else .RELEASED
  if new_button_state ≠ j._current_button_state then
    if sub_u32 current_time j._last_button_time > j._debounce_config.button_debounce_ms then
      { j with _last_button_state := j._current_button_state,
               _current_button_state := new_button_state,
               _button_event_occurred := true,
               _last_button_time := current_time }
    else j
  else { j with _button_event_occurred := false }

/-- The direction part of `update` (lines 334 to 366) for the
classification `new_direction`; `_direction_stable_count` is a `uint8_t`. -/
def update_direction (j : Joystick) (current_time : Nat)
    (new_direction : JoystickDirection) : Joystick :=
  let j1 :=
    if new_direction ≠ j._current_direction then
      if new_direction = j._last_direction then
        let j2 := { j with
          _direction_stable_count := (j._direction_stable_count + 1) % 256 }
        if j2._direction_stable_count ≥ j2._debounce_config.stable_count_required then
          { j2 with _current_direction := new_direction, _direction_changed := true }
        else j2
      else
        { j with _direction_stable_count := 1, _last_direction := new_direction }
    else
      { j with _direction_stable_count := 0, _direction_changed := false }
  if j1._direction_changed then
    let time_since_last_change := sub_u32 current_time j1.last_direction_change_time
    if time_since_last_change < 100 then { j1 with _direction_changed := false }
    else { j1 with last_direction_change_time := current_time }
  else j1

/-- The method `update`: `clock_ms` is the first clock reading,
`button_value` the answer of `get_button_value()`, `read_clock_ms` the clock
when the read starts and `script` the passes of its retry loop. -/
def update (j : Joystick) (clock_ms : Nat) (button_value : Nat) (read_clock_ms : Nat)
    (script : List ReadAttempt) : Option Joystick :=
  let current_time := clock_ms % UINT32_MOD
  let j1 := update_button j current_time (button_value % 256)
  match read_with_retry read_clock_ms script with
  | none => none
  | some r =>
    some (update_direction j1 current_time
      (determine_direction j1._debounce_config r.x_adc r.y_adc))

/-- The method `has_button_event`. -/
def has_button_event (j : Joystick) : Bool := j._button_event_occurred

/-- The method `get_button_state`. -/
def get_button_state (j : Joystick) : JoystickButtonState := j._current_button_state

end Joystick

/-! ## The offsets and the gates of the classifiers, taken apart -/

/-- The offset `(int16_t)adc - center` stored in an `int16_t`, as
`determine_direction` computes it for one axis. -/
def axis_offset (adc : Nat) : Int :=
  to_int16 (to_int16 (adc % 65536 : Nat) - 2048)

/-- `JoystickDebouncer::determine_direction` with the deadzone check (lines
96 to 99) removed. -/
def determine_direction_without_deadzone (d : JoystickDebouncer) (x_adc y_adc : Nat) :
    JoystickDirection :=
  let center : Int := 2048
  let threshold : Int := (d._config.threshold % 65536 : Nat)
  let x_offset := to_int16 (to_int16 (x_adc % 65536 : Nat) - center)
  let y_offset := to_int16 (to_int16 (y_adc % 65536 : Nat) - center)
  if |x_offset| < threshold ∧ |y_offset| < threshold then .NONE
  else if gt_times |x_offset| |y_offset| d._config.direction_ratio then
    (if x_offset > 0 then .RIGHT else .LEFT)
  else
    (if y_offset > 0 then .DOWN else .UP)

/-- `JoystickController::determineDirection` with the check against 80 % of
the threshold (lines 152 to 155) removed. -/
def determineDirection_without_deadzone (c : JoystickController)
    (offset_x offset_y : Int) : JoystickDirection :=
  let offset_x := to_int16 offset_x
  let offset_y := to_int16 offset_y
  let abs_x := to_int16 |offset_x|
  let abs_y := to_int16 |offset_y|
  let threshold : Int := (c.threshold_ : Nat)
  if abs_x < threshold ∧ abs_y < threshold then .NONE
  else if gt_times abs_y abs_x { num := 3, den := 2 } then
    (if offset_y < 0 then .UP else .DOWN)
  else if gt_times abs_x abs_y { num := 3, den := 2 } then
    (if offset_x < 0 then .LEFT else .RIGHT)
  else .NONE

/-- The device's answer when the I2C read of the ADC register fails, the
button released. -/
def failed_read : JoystickSample := { button_value := 1, adc_xy := none }

/-- The gates and the dominant-axis stage of `determine_direction` on the
two offsets. -/
def classify_offsets (cfg : JoystickDebounceConfig) (x_offset y_offset : Int) :
    JoystickDirection :=
  let threshold : Int := (cfg.threshold % 65536 : Nat)
  let deadzone : Int := (cfg.deadzone % 65536 : Nat)
  if |x_offset| < deadzone ∧ |y_offset| < deadzone then .NONE
  else if |x_offset| < threshold ∧ |y_offset| < threshold then .NONE
  else if gt_times |x_offset| |y_offset| cfg.direction_ratio then
    (if x_offset > 0 then .RIGHT else .LEFT)
  else
    (if y_offset > 0 then .DOWN else .UP)

/-- A `ButtonManager` for GPIO 14 (screen), 8 (page up) and 9 (page down),
initialised with all buttons released; `tick t up down screen` samples
them. -/
def button_manager0 : ButtonManager :=
  (ButtonManager.ctor 14 8 9 50).init (pins false false false)

/-- The device's answer with the stick at rest and the button pressed. -/
def pressed_at_rest : JoystickSample :=
  { button_value := 0, adc_xy := some (raw_of_offset 0, raw_of_offset 0) }

/-- A `Joystick` at rest: the members `update` uses hold the values the
constructor of `JoystickDebouncer` gives to the members of the same names
(the constructor of `Joystick` is in `joystick.hpp`, not among the
sources). -/
def joystick0 : Joystick :=
  { _debounce_config := JoystickDebouncer.default_config,
    _current_direction := .NONE,
    _last_direction := .NONE,
    _current_button_state := .RELEASED,
    _last_button_state := .RELEASED,
    _direction_stable_count := 0,
    _last_button_time := 0,
    _button_event_occurred := false,
    _direction_changed := false,
    last_direction_change_time := 0 }

/-! ## The two page keys of `ButtonManager`, seen one at a time -/

/-- The two keys `ButtonManager::update` classifies as short or long. -/
inductive PageKey where
  | up
  | down
  deriving DecidableEq, Repr

namespace ButtonManager

/-- The pin member of page key `k`. -/
def key_pin (s : ButtonManager) : PageKey → Nat
  | .up => s.page_up_pin_
  | .down => s.page_down_pin_

/-- The last registered state of page key `k`. -/
def key_last (s : ButtonManager) : PageKey → Bool
  | .up => s.last_page_up_state_
  | .down => s.last_page_down_state_

/-- The long-press mark of page key `k`. -/
def key_handled (s : ButtonManager) : PageKey → Bool
  | .up => s.page_up_long_press_handled_
  | .down => s.page_down_long_press_handled_

/-- The press start time of page key `k`. -/
def key_start (s : ButtonManager) : PageKey → Nat
  | .up => s.page_up_press_start_time_
  | .down => s.page_down_press_start_time_

/-- The last registered state of the other page key. -/
def other_last (s : ButtonManager) : PageKey → Bool
  | .up => s.last_page_down_state_
  | .down => s.last_page_up_state_

/-- The pin of the other page key. -/
def other_pin (s : ButtonManager) : PageKey → Nat
  | .up => s.page_down_pin_
  | .down => s.page_up_pin_

/-- Whether page key `k` is sampled pressed at `tk`. -/
def key_sampled (s : ButtonManager) (k : PageKey) (tk : TickInput) : Bool :=
  readButtonState tk.gpio_get (s.key_pin k)

/-- The screen key and the other page key are both sampled released at
`tk`. -/
def others_released (s : ButtonManager) (k : PageKey) (tk : TickInput) : Prop :=
  readButtonState tk.gpio_get s.screen_power_pin_ = false ∧
  readButtonState tk.gpio_get (s.other_pin k) = false

end ButtonManager

/-- The long-press event of page key `k`. -/
def long_event : PageKey → ButtonManagerEvent
  | .up => .PAGE_UP_LONG
  | .down => .PAGE_DOWN_LONG

/-- The short-press event of page key `k`. -/
def short_event : PageKey → ButtonManagerEvent
  | .up => .PAGE_UP
  | .down => .PAGE_DOWN

/-- The events of page key `k` among the events received. -/
def key_events (k : PageKey) (es : List ButtonManagerEvent) : List ButtonManagerEvent :=
  es.filter (fun e => decide (e = long_event k) || decide (e = short_event k))

/-- What a poll may do to the registered state `last`, `handled` of a page
key sampled `cur`, when it produces the long event (`is_long`), the short
event (`is_short`) or neither, leaving `last1`, `handled1`. -/
def key_poll_ok (cur last handled is_long is_short last1 handled1 : Bool) : Prop :=
  (is_long = true →
    cur = true ∧ last = true ∧ handled = false ∧ handled1 = true ∧ last1 = true) ∧
  (is_short = true →
    cur = false ∧ last = true ∧ handled = false ∧ handled1 = false ∧ last1 = false) ∧
  (is_long = false → is_short = false →
    (last1 = last ∨ last1 = cur) ∧
    (handled1 = handled ∨ (cur = true ∧ last = false ∧ handled1 = false)))

/-- State `s` has the wiring and long-press time of `s0`, holds no pending
event and registers the other page key released. -/
def ButtonManager.isolated (s0 s : ButtonManager) (k : PageKey) : Prop :=
  s.pending_event_ = .NONE ∧
  s.screen_power_pin_ = s0.screen_power_pin_ ∧
  s.key_pin k = s0.key_pin k ∧
  s.other_pin k = s0.other_pin k ∧
  s.long_press_time_ms_ = s0.long_press_time_ms_ ∧
  s.other_last k = false

instance (s : ButtonManager) (k : PageKey) (tk : TickInput) :
    Decidable (s.others_released k tk) := by
  unfold ButtonManager.others_released
  exact inferInstance

/-! ## `ButtonSystemAdapter::update` with the callbacks run inside the call

`EnhancedButtonManager::trigger_event` calls the adapter's
`handle_button_event` at once, and `trigger_unified_event` calls the
application callback at once: both run before `update()` goes on. The
application callback is given by what a call of it does to the adapter
through the adapter's public methods (`set_app_mode`, `set_repeat_delay`,
the manager behind `get_button_manager()`); it does not call `update()`
itself. The definitions of this section follow the same source lines as
`ButtonSystemAdapter.update` and `EnhancedButtonManager.update`, with the
callback run where the source calls it. -/

namespace Synchronous

/-- The method `ButtonSystemAdapter::trigger_unified_event` when the clock
reads `current_time`: `last_event_time_` is written, then the callback `cb`
runs on the adapter. -/
def trigger_unified_event
    (cb : UnifiedInputEvent → ButtonSystemAdapter → ButtonSystemAdapter)
    (a : ButtonSystemAdapter) (event : UnifiedInputEvent) (current_time : Nat) :
    ButtonSystemAdapter × List UnifiedInputEvent :=
  if event = .NONE then (a, [])
  else if !ButtonSystemAdapter.can_trigger_event a current_time then (a, [])
  else (cb event { a with last_event_time_ := current_time }, [event])

/-- The method `ButtonSystemAdapter::handle_button_event`. -/
def handle_button_event
    (cb : UnifiedInputEvent → ButtonSystemAdapter → ButtonSystemAdapter)
    (a : ButtonSystemAdapter) (button_event : EnhancedButtonEvent) (current_time : Nat) :
    ButtonSystemAdapter × List UnifiedInputEvent :=
  if button_event = .NONE then (a, [])
  else
    trigger_unified_event cb a
      (ButtonSystemAdapter.button_event_to_unified button_event) current_time

/-- The method `EnhancedButtonManager::trigger_event` of the adapter's
manager: the pending slot is written, then the registered callback, which
is `handle_button_event`, runs. -/
def trigger_event
    (cb : UnifiedInputEvent → ButtonSystemAdapter → ButtonSystemAdapter)
    (a : ButtonSystemAdapter) (event : EnhancedButtonEvent) (current_time : Nat) :
    ButtonSystemAdapter × List UnifiedInputEvent :=
  if event ≠ .NONE then
    handle_button_event cb
      { a with button_manager_ := { a.button_manager_ with pending_event_ := event } }
      event current_time
  else (a, [])

/-- The write `const_cast<ButtonState&>(button).long_press_handled = true`
of `process_button_event` when `button` refers to the member of `b`. -/
def mark_long_press_handled (m : EnhancedButtonManager) : Button → EnhancedButtonManager
  | .up => { m with up_button_ := { m.up_button_ with long_press_handled := true } }
  | .down => { m with down_button_ := { m.down_button_ with long_press_handled := true } }
  | .screen =>
    { m with screen_button_ := { m.screen_button_ with long_press_handled := true } }

/-- The method `EnhancedButtonManager::process_button_event` called on the
member of button `b`: `trigger_event` returns before the long-press mark is
written. -/
def process_button_event
    (cb : UnifiedInputEvent → ButtonSystemAdapter → ButtonSystemAdapter)
    (a : ButtonSystemAdapter) (b : Button) (single_function long_function : ButtonFunction)
    (current_time : Nat) : ButtonSystemAdapter × List UnifiedInputEvent :=
  let button := a.button_manager_.button_state b
  if button.pressed then
    let press_duration := sub_u32 current_time button.press_time
    if !button.long_press_handled &&
        decide (press_duration ≥ a.button_manager_.long_press_ms_) then
      let r := trigger_event cb a
        (EnhancedButtonManager.function_to_event long_function) current_time
      ({ r.1 with button_manager_ := mark_long_press_handled r.1.button_manager_ b }, r.2)
    else (a, [])
  else if !button.pressed && button.last_pressed then
    let press_duration := sub_u32 button.release_time button.press_time
    if !button.long_press_handled &&
        decide (press_duration < a.button_manager_.long_press_ms_) then
      trigger_event cb a
        (EnhancedButtonManager.function_to_event single_function) current_time
    else (a, [])
  else (a, [])

/-- The three `update_button_state` calls that open
`EnhancedButtonManager::update`. -/
def refresh_buttons (m : EnhancedButtonManager) (tk : TickInput) : EnhancedButtonManager :=
  let m1 := { m with
    up_button_ :=
      EnhancedButtonManager.update_button_state m.up_button_ tk.gpio_get m.up_pin_ tk.now }
  let m2 := { m1 with
    down_button_ :=
      EnhancedButtonManager.update_button_state m1.down_button_ tk.gpio_get m1.down_pin_
        tk.now }
  { m2 with
    screen_button_ :=
      EnhancedButtonManager.update_button_state m2.screen_button_ tk.gpio_get
        m2.screen_pin_ tk.now }

/-- The method `EnhancedButtonManager::update` of the adapter's manager:
the new adapter and the events handed to the application callback. The
mapping is read when each `process_button_event` call is made. -/
def manager_update
    (cb : UnifiedInputEvent → ButtonSystemAdapter → ButtonSystemAdapter)
    (a : ButtonSystemAdapter) (tk : TickInput) :
    ButtonSystemAdapter × List UnifiedInputEvent :=
  let a3 := { a with button_manager_ := refresh_buttons a.button_manager_ tk }
  let r_up := process_button_event cb a3 .up
    a3.button_manager_.current_mapping_.single_press_up
    a3.button_manager_.current_mapping_.long_press_up tk.now
  let r_down := process_button_event cb r_up.1 .down
    r_up.1.button_manager_.current_mapping_.single_press_down
    r_up.1.button_manager_.current_mapping_.long_press_down tk.now
  let r_screen :=
    if r_down.1.button_manager_.screen_button_.pressed &&
        !r_down.1.button_manager_.screen_button_.last_pressed then
      trigger_event cb r_down.1
        (EnhancedButtonManager.function_to_event
          r_down.1.button_manager_.current_mapping_.screen_press) tk.now
    else (r_down.1, [])
  (r_screen.1, r_up.2 ++ (r_down.2 ++ r_screen.2))

/-- The method `ButtonSystemAdapter::handle_joystick_event`. -/
def handle_joystick_event
    (cb : UnifiedInputEvent → ButtonSystemAdapter → ButtonSystemAdapter)
    (a : ButtonSystemAdapter) (direction : JoystickDirection)
    (button_state : JoystickButtonState) (current_time : Nat) :
    ButtonSystemAdapter × List UnifiedInputEvent :=
  let r1 :=
    if direction ≠ .NONE ∧ direction ≠ a.last_joystick_direction_ then
      trigger_unified_event cb a
        (ButtonSystemAdapter.joystick_event_to_unified a direction .RELEASED) current_time
    else (a, [])
  let a1 := r1.1
  let r2 :=
    if button_state = .PRESSED ∧ a1.last_joystick_button_ = .RELEASED then
      trigger_unified_event cb a1
        (ButtonSystemAdapter.joystick_event_to_unified a1 .NONE button_state) current_time
    else (a1, [])
  (r2.1, r1.2 ++ r2.2)

/-- The method `ButtonSystemAdapter::update`: the new state and the events
handed to the application callback `cb`, in order. Every clock read of the
call returns `tk.now`; `joy` is what the joystick controller reports after
its own update. -/
def update
    (cb : UnifiedInputEvent → ButtonSystemAdapter → ButtonSystemAdapter)
    (a : ButtonSystemAdapter) (tk : TickInput) (joy : JoystickReading) :
    ButtonSystemAdapter × List UnifiedInputEvent :=
  let r1 := manager_update cb a tk
  let a1 := r1.1
  if a1.joystick_controller_ then
    if joy.direction ≠ a1.last_joystick_direction_ ∨
        joy.button ≠ a1.last_joystick_button_ then
      let r2 := handle_joystick_event cb a1 joy.direction joy.button tk.now
      ({ r2.1 with last_joystick_direction_ := joy.direction,
                   last_joystick_button_ := joy.button }, r1.2 ++ r2.2)
    else (a1, r1.2)
  else (a1, r1.2)

/-- A callback that leaves the adapter alone. -/
def passive_callback : UnifiedInputEvent → ButtonSystemAdapter → ButtonSystemAdapter :=
  fun _ a => a

/-- A callback that calls `get_button_manager()->set_long_press_time(1000)`
at every event. -/
def retime_callback : UnifiedInputEvent → ButtonSystemAdapter → ButtonSystemAdapter :=
  fun _ a => { a with button_manager_ := a.button_manager_.set_long_press_time 1000 }

/-- A callback that answers `ENTER_MENU` with `set_app_mode(MAIN_MENU)`. -/
def menu_callback : UnifiedInputEvent → ButtonSystemAdapter → ButtonSystemAdapter :=
  fun event a => if event = .ENTER_MENU then a.set_app_mode .MAIN_MENU else a

/-- The callback `cb` leaves `last_event_time_` and `repeat_delay_ms_` as
they are: it calls neither `set_repeat_delay` with another value nor
`set_app_mode` with another mode. -/
def keeps_gate (cb : UnifiedInputEvent → ButtonSystemAdapter → ButtonSystemAdapter) :
    Prop :=
  ∀ (event : UnifiedInputEvent) (a : ButtonSystemAdapter),
    (cb event a).last_event_time_ = a.last_event_time_ ∧
    (cb event a).repeat_delay_ms_ = a.repeat_delay_ms_

end Synchronous

/-- An adapter with a joystick attached, built by the constructor for GPIO
8, 9 and 14 and initialised with all buttons released. -/
def adapter_joy0 : ButtonSystemAdapter :=
  (ButtonSystemAdapter.ctor 8 9 14 50 true).init (pins false false false)

/-! ## Theorems -/

open EnhancedButtonManager

/-! ### Normal form of one `update` call -/

theorem update_button_state_pressed (s : ButtonState) (g : Nat → Bool) (pin t : Nat) :
    (update_button_state s g pin t).pressed = read_button_gpio g pin := by
  unfold update_button_state
  cases h1 : read_button_gpio g pin <;> cases h2 : s.last_pressed <;> simp

theorem update_button_state_last_pressed (s : ButtonState) (g : Nat → Bool)
    (pin t : Nat) :
    (update_button_state s g pin t).last_pressed = read_button_gpio g pin := by
  unfold update_button_state
  simp

theorem trigger_opt_snd (m : EnhancedButtonManager) (src : Button)
    (call : Option EnhancedButtonEvent) :
    (trigger_opt m src call).2 = accepted src call := by
  cases call with
  | none => rfl
  | some e =>
    simp only [trigger_opt, trigger_event, accepted]
    split <;> rfl

theorem trigger_opt_fst (m : EnhancedButtonManager) (src : Button)
    (call : Option EnhancedButtonEvent) :
    (trigger_opt m src call).1 =
      { m with pending_event_ :=
          (((accepted src call).getLast?).map Fired.event).getD m.pending_event_ } := by
  cases call with
  | none => rfl
  | some e =>
    simp only [trigger_opt, trigger_event, accepted]
    split <;> rfl

theorem update_events (m : EnhancedButtonManager) (tk : TickInput) :
    (update m tk).2 =
      accepted .up (button_step m.long_press_ms_ m.current_mapping_.single_press_up
        m.current_mapping_.long_press_up m.up_pin_ m.up_button_ tk).2 ++
      accepted .down (button_step m.long_press_ms_ m.current_mapping_.single_press_down
        m.current_mapping_.long_press_down m.down_pin_ m.down_button_ tk).2 := by
  simp only [update, button_step, trigger_opt_snd, trigger_opt_fst,
    update_button_state_pressed, update_button_state_last_pressed]
  simp

theorem update_state (m : EnhancedButtonManager) (tk : TickInput) :
    (update m tk).1 =
      { m with
        up_button_ := (button_step m.long_press_ms_ m.current_mapping_.single_press_up
          m.current_mapping_.long_press_up m.up_pin_ m.up_button_ tk).1,
        down_button_ :=
          (button_step m.long_press_ms_ m.current_mapping_.single_press_down
            m.current_mapping_.long_press_down m.down_pin_ m.down_button_ tk).1,
        screen_button_ :=
          update_button_state m.screen_button_ tk.gpio_get m.screen_pin_ tk.now,
        pending_event_ :=
          ((((update m tk).2).getLast?).map Fired.event).getD m.pending_event_ } := by
  rw [update_events]
  simp only [update, button_step, trigger_opt_snd, trigger_opt_fst,
    update_button_state_pressed, update_button_state_last_pressed]
  generalize (process_button_event m.long_press_ms_
    (update_button_state m.up_button_ tk.gpio_get m.up_pin_ tk.now)
    m.current_mapping_.single_press_up m.current_mapping_.long_press_up tk.now) = pu
  generalize (process_button_event m.long_press_ms_
    (update_button_state m.down_button_ tk.gpio_get m.down_pin_ tk.now)
    m.current_mapping_.single_press_down m.current_mapping_.long_press_down
    tk.now) = pd
  obtain ⟨pu1, pu2⟩ := pu
  obtain ⟨pd1, pd2⟩ := pd
  cases pu2 <;> cases pd2 <;> simp [accepted]
  split <;> simp


theorem update_long_press_ms (m : EnhancedButtonManager) (tk : TickInput) :
    (update m tk).1.long_press_ms_ = m.long_press_ms_ := by
  rw [update_state]

theorem update_current_mapping (m : EnhancedButtonManager) (tk : TickInput) :
    (update m tk).1.current_mapping_ = m.current_mapping_ := by
  rw [update_state]

theorem update_current_mode (m : EnhancedButtonManager) (tk : TickInput) :
    (update m tk).1.current_mode_ = m.current_mode_ := by
  rw [update_state]

theorem update_button_pin (m : EnhancedButtonManager) (tk : TickInput) (b : Button) :
    (update m tk).1.button_pin b = m.button_pin b := by
  rw [update_state]
  cases b <;> rfl

theorem update_button_state_of (m : EnhancedButtonManager) (tk : TickInput)
    (b : Button) (hb : b ≠ .screen) :
    (update m tk).1.button_state b =
      (button_step m.long_press_ms_ (single_function m.current_mapping_ b)
        (long_function m.current_mapping_ b) (m.button_pin b) (m.button_state b) tk).1 := by
  rw [update_state]
  cases b with
  | up => rfl
  | down => rfl
  | screen => exact absurd rfl hb

theorem events_of_append (b : Button) (xs ys : List Fired) :
    events_of b (xs ++ ys) = events_of b xs ++ events_of b ys := by
  simp [events_of]

theorem events_of_accepted_self (b : Button) (call : Option EnhancedButtonEvent) :
    events_of b (accepted b call) = (accepted b call).map Fired.event := by
  cases call with
  | none => rfl
  | some e =>
    simp only [accepted]
    split <;> simp [events_of]

theorem events_of_accepted_other (b c : Button) (hbc : c ≠ b)
    (call : Option EnhancedButtonEvent) :
    events_of b (accepted c call) = [] := by
  cases call with
  | none => rfl
  | some e =>
    simp only [accepted]
    split <;> simp [events_of, hbc]

theorem update_events_of (m : EnhancedButtonManager) (tk : TickInput)
    (b : Button) (hb : b ≠ .screen) :
    events_of b (update m tk).2 =
      (accepted b (button_step m.long_press_ms_ (single_function m.current_mapping_ b)
        (long_function m.current_mapping_ b) (m.button_pin b)
        (m.button_state b) tk).2).map Fired.event := by
  rw [update_events, events_of_append]
  cases b with
  | up =>
    rw [events_of_accepted_self, events_of_accepted_other _ _ (by decide)]
    simp [single_function, long_function, button_pin, button_state]
  | down =>
    rw [events_of_accepted_self, events_of_accepted_other _ _ (by decide)]
    simp [single_function, long_function, button_pin, button_state]
  | screen => exact absurd rfl hb

/-- The events a button triggers over a sequence of `update` calls are those
of its own state machine: the other buttons do not interfere. -/
theorem run_events_of (b : Button) (hb : b ≠ .screen) (ticks : List TickInput) :
    ∀ m : EnhancedButtonManager,
      (run m ticks).2.map (events_of b) =
        (button_run m.long_press_ms_ (single_function m.current_mapping_ b)
          (long_function m.current_mapping_ b) (m.button_pin b) b
          (m.button_state b) ticks).2 := by
  induction ticks with
  | nil => intro m; rfl
  | cons tk rest ih =>
    intro m
    simp only [run, button_run, List.map_cons]
    rw [ih (update m tk).1, update_events_of m tk b hb, update_long_press_ms,
      update_current_mapping, update_button_pin, update_button_state_of m tk b hb]

/-! ### One button while it is held -/

/-- A pressed sample that has not reached the long-press time: nothing is
triggered and the button stays armed with the same press time. -/
theorem button_step_quiet (lp : Nat) (su lu : ButtonFunction) (pin : Nat)
    (s : ButtonState) (tk : TickInput) (t0 : Nat)
    (hs : (s.last_pressed = false ∧ t0 = tk.now) ∨
      (s.last_pressed = true ∧ s.long_press_handled = false ∧ s.press_time = t0))
    (hp : read_button_gpio tk.gpio_get pin = true)
    (hd : sub_u32 tk.now t0 < lp) :
    (button_step lp su lu pin s tk).2 = none ∧
    (button_step lp su lu pin s tk).1.last_pressed = true ∧
    (button_step lp su lu pin s tk).1.long_press_handled = false ∧
    (button_step lp su lu pin s tk).1.press_time = t0 := by
  have hd2 : ¬ lp ≤ sub_u32 tk.now t0 := Nat.not_le.mpr hd
  rcases hs with ⟨h1, h2⟩ | ⟨h1, h2, h3⟩
  · subst h2
    simp [button_step, process_button_event, update_button_state, hp, h1, hd2]
  · subst h3
    simp [button_step, process_button_event, update_button_state, hp, h1, h2, hd2]

/-- A pressed sample that has reached the long-press time on an armed
button: the long-press event is handed to `trigger_event` and the button is
marked handled. -/
theorem button_step_fire (lp : Nat) (su lu : ButtonFunction) (pin : Nat)
    (s : ButtonState) (tk : TickInput) (t0 : Nat)
    (hs : (s.last_pressed = false ∧ t0 = tk.now) ∨
      (s.last_pressed = true ∧ s.long_press_handled = false ∧ s.press_time = t0))
    (hp : read_button_gpio tk.gpio_get pin = true)
    (hd : lp ≤ sub_u32 tk.now t0) :
    (button_step lp su lu pin s tk).2 = some (function_to_event lu) ∧
    (button_step lp su lu pin s tk).1.last_pressed = true ∧
    (button_step lp su lu pin s tk).1.long_press_handled = true := by
  rcases hs with ⟨h1, h2⟩ | ⟨h1, h2, h3⟩
  · subst h2
    simp [button_step, process_button_event, update_button_state, hp, h1, hd]
  · subst h3
    simp [button_step, process_button_event, update_button_state, hp, h1, h2, hd]

/-- A pressed sample on a button whose long press is already handled. -/
theorem button_step_handled (lp : Nat) (su lu : ButtonFunction) (pin : Nat)
    (s : ButtonState) (tk : TickInput)
    (h1 : s.last_pressed = true) (h2 : s.long_press_handled = true)
    (hp : read_button_gpio tk.gpio_get pin = true) :
    (button_step lp su lu pin s tk).2 = none ∧
    (button_step lp su lu pin s tk).1.last_pressed = true ∧
    (button_step lp su lu pin s tk).1.long_press_handled = true := by
  simp [button_step, process_button_event, update_button_state, hp, h1, h2]

/-- A released sample triggers nothing, whatever the state. -/
theorem button_step_released (lp : Nat) (su lu : ButtonFunction) (pin : Nat)
    (s : ButtonState) (tk : TickInput)
    (hp : read_button_gpio tk.gpio_get pin = false) :
    (button_step lp su lu pin s tk).2 = none := by
  simp [button_step, process_button_event, update_button_state_pressed,
    update_button_state_last_pressed, hp]

theorem button_run_cons (lp : Nat) (su lu : ButtonFunction) (pin : Nat)
    (b : Button) (s : ButtonState) (tk : TickInput) (rest : List TickInput) :
    (button_run lp su lu pin b s (tk :: rest)).2 =
      (accepted b (button_step lp su lu pin s tk).2).map Fired.event ::
        (button_run lp su lu pin b (button_step lp su lu pin s tk).1 rest).2 :=
  rfl

theorem accepted_none_events (b : Button) :
    (accepted b none).map Fired.event = [] :=
  rfl

theorem button_run_handled (lp : Nat) (su lu : ButtonFunction) (pin : Nat)
    (b : Button) (post : List TickInput) (rel : TickInput)
    (hrel : read_button_gpio rel.gpio_get pin = false) :
    ∀ s : ButtonState, s.last_pressed = true → s.long_press_handled = true →
      (∀ tk ∈ post, read_button_gpio tk.gpio_get pin = true) →
      (button_run lp su lu pin b s (post ++ [rel])).2 =
        (post ++ [rel]).map (fun _ => []) := by
  induction post with
  | nil =>
    intro s _ _ _
    rw [List.nil_append, button_run_cons, button_step_released lp su lu pin s rel hrel,
      accepted_none_events]
    rfl
  | cons tk rest ih =>
    intro s h1 h2 hp
    obtain ⟨e1, e2, e3⟩ :=
      button_step_handled lp su lu pin s tk h1 h2 (hp tk (List.mem_cons_self _ _))
    rw [List.cons_append, button_run_cons, e1, accepted_none_events,
      ih _ e2 e3 (fun x hx => hp x (List.mem_cons_of_mem _ hx))]
    rfl

theorem button_run_long_press (lp : Nat) (su lu : ButtonFunction) (pin : Nat)
    (b : Button) (post : List TickInput) (fire rel : TickInput) (t0 : Nat)
    (hfire : read_button_gpio fire.gpio_get pin = true)
    (hpost : ∀ tk ∈ post, read_button_gpio tk.gpio_get pin = true)
    (hrel : read_button_gpio rel.gpio_get pin = false)
    (hreach : lp ≤ sub_u32 fire.now t0) (pre : List TickInput) :
    ∀ s : ButtonState,
      ((s.last_pressed = false ∧ t0 = press_time_of (pre ++ fire :: post)) ∨
        (s.last_pressed = true ∧ s.long_press_handled = false ∧ s.press_time = t0)) →
      (∀ tk ∈ pre, read_button_gpio tk.gpio_get pin = true) →
      (∀ tk ∈ pre, sub_u32 tk.now t0 < lp) →
      (button_run lp su lu pin b s ((pre ++ fire :: post) ++ [rel])).2 =
        pre.map (fun _ => []) ++
          (accepted b (some (function_to_event lu))).map Fired.event ::
            (post ++ [rel]).map (fun _ => []) := by
  induction pre with
  | nil =>
    intro s hs _ _
    obtain ⟨e1, e2, e3⟩ := button_step_fire lp su lu pin s fire t0 hs hfire hreach
    rw [List.nil_append, List.cons_append, button_run_cons, e1,
      button_run_handled lp su lu pin b post rel hrel _ e2 e3 hpost]
    rfl
  | cons tk rest ih =>
    intro s hs hp hd
    have hs2 : (s.last_pressed = false ∧ t0 = tk.now) ∨
        (s.last_pressed = true ∧ s.long_press_handled = false ∧ s.press_time = t0) := hs
    obtain ⟨e1, e2, e3, e4⟩ :=
      button_step_quiet lp su lu pin s tk t0 hs2 (hp tk (List.mem_cons_self _ _))
        (hd tk (List.mem_cons_self _ _))
    rw [List.cons_append, List.cons_append, button_run_cons, e1, accepted_none_events,
      ih _ (Or.inr ⟨e2, e3, e4⟩) (fun x hx => hp x (List.mem_cons_of_mem _ hx))
        (fun x hx => hd x (List.mem_cons_of_mem _ hx))]
    rfl

theorem long_function_event_ne_none (mode : AppMode) (b : Button) (hb : b ≠ .screen) :
    function_to_event (long_function (get_button_mapping mode) b) ≠ .NONE := by
  cases b with
  | up => cases mode <;> decide
  | down => cases mode <;> decide
  | screen => exact absurd rfl hb

/-! ### The claims -/

/-- C1, the code at a short press. In `MAIN_MENU` with the default
long-press time of 600 ms, the Up button is sampled pressed at 1000 ms and
released at 1100 ms: no event is triggered at the press and none at the
release, where the claim expects `NAV_UP`. The same holds for the Down
button. -/
theorem short_press_triggers_nothing :
    (run manager0 [tick 1000 true false false, tick 1100 false false false]).2
      = [[], []] ∧
    (run manager0 [tick 1000 false true false, tick 1100 false false false]).2
      = [[], []] := by
  decide

/-- C2. With no mode change, take a press of the Up or Down button `b` that
starts with a rising edge and is sampled pressed at the ticks
`pre ++ fire :: post` and released at `rel`, where `fire` is the first tick
at which `(now - press_time) mod 2^32 >= long_press_ms`. Then the events
triggered for `b` over these `update` calls are: none at the ticks before
`fire`, exactly the long-press event of `b` in the current mapping at
`fire`, none at the later held ticks and none at the release; and that event
is not `NONE`. -/
theorem long_press_fires_exactly_once (m : EnhancedButtonManager) (b : Button)
    (pre post : List TickInput) (fire rel : TickInput)
    (hb : b ≠ .screen)
    (hmap : m.current_mapping_ = get_button_mapping m.current_mode_)
    (hidle : (m.button_state b).last_pressed = false)
    (hheld : ∀ tk ∈ pre ++ fire :: post, sampled_pressed m b tk = true)
    (hrel : sampled_pressed m b rel = false)
    (hbefore : ∀ tk ∈ pre,
      sub_u32 tk.now (press_time_of (pre ++ fire :: post)) < m.long_press_ms_)
    (hreach : m.long_press_ms_ ≤
      sub_u32 fire.now (press_time_of (pre ++ fire :: post))) :
    (run m ((pre ++ fire :: post) ++ [rel])).2.map (events_of b) =
      pre.map (fun _ => []) ++
        [function_to_event (long_function m.current_mapping_ b)] ::
          (post ++ [rel]).map (fun _ => []) ∧
    function_to_event (long_function m.current_mapping_ b) ≠ .NONE := by
  have hne : function_to_event (long_function m.current_mapping_ b) ≠ .NONE := by
    rw [hmap]
    exact long_function_event_ne_none _ b hb
  refine ⟨?_, hne⟩
  rw [run_events_of b hb]
  rw [button_run_long_press m.long_press_ms_ _ _ (m.button_pin b) b post fire rel
    (press_time_of (pre ++ fire :: post))
    (hheld fire (by simp)) (fun tk htk => hheld tk (by simp [htk])) hrel hreach pre
    (m.button_state b) (Or.inl ⟨hidle, rfl⟩)
    (fun tk htk => hheld tk (by simp [htk])) hbefore]
  simp [accepted, hne]

/-- Witness of `long_press_fires_exactly_once`: in `MAIN_MENU` with the
default 600 ms, Up is pressed at 1000 ms, held at 1300, 1600 and 1700 ms and
released at 1800 ms; `NAV_SELECT` is triggered at 1600 ms only. -/
theorem long_press_fires_exactly_once_witness :
    (run manager0 [tick 1000 true false false, tick 1300 true false false,
        tick 1600 true false false, tick 1700 true false false,
        tick 1800 false false false]).2.map (events_of .up)
      = [[], [], [.NAV_SELECT], [], []] :=
  (long_press_fires_exactly_once manager0 .up
    [tick 1000 true false false, tick 1300 true false false]
    [tick 1700 true false false]
    (tick 1600 true false false) (tick 1800 false false false)
    (by decide) (by decide) (by decide) (by decide) (by decide) (by decide)
    (by decide)).1

/-- C3, the code at a mode switch during a hold. In `CONTENT_READING` the Up
button is pressed at 1000 ms and still held at 1600 ms, where its long
press triggers `MENU_ENTER`; the mode is switched to `MAIN_MENU`; at the
next tick, 1650 ms, the same hold triggers `NAV_SELECT` in the new mode.
Likewise a hold begun at 1000 ms, with the mode switched at 1300 ms before
any event, triggers `NAV_SELECT` at 1600 ms. -/
theorem mode_switch_rearms_long_press :
    (run (manager0.set_app_mode .CONTENT_READING)
        [tick 1000 true false false, tick 1600 true false false]).2
      = [[], [{ button := .up, event := .MENU_ENTER }]] ∧
    (update
        ((run (manager0.set_app_mode .CONTENT_READING)
          [tick 1000 true false false, tick 1600 true false false]).1.set_app_mode
            .MAIN_MENU)
        (tick 1650 true false false)).2
      = [{ button := .up, event := .NAV_SELECT }] ∧
    (run
        ((run (manager0.set_app_mode .CONTENT_READING)
          [tick 1000 true false false, tick 1300 true false false]).1.set_app_mode
            .MAIN_MENU)
        [tick 1600 true false false, tick 1700 false false false]).2
      = [[{ button := .up, event := .NAV_SELECT }], []] := by
  decide

/-- C4, the code on the end-to-end scenario. The adapter is switched to
`CONTENT_READING` and the Up button is pressed at 1000 ms and released at
1100 ms: nothing is delivered to the application, where the claim expects
`PAGE_PREVIOUS`. After `set_app_mode(MAIN_MENU)` the press at 2000 ms
released at 2100 ms again delivers nothing, where the claim expects
`NAVIGATE_UP`. The anti-repeat gate is open at both releases. -/
theorem end_to_end_short_press_delivers_nothing :
    (ButtonSystemAdapter.run (adapter0.set_app_mode .CONTENT_READING)
        [(tick 1000 true false false, joystick_idle),
         (tick 1100 false false false, joystick_idle)]).2 = [[], []] ∧
    (ButtonSystemAdapter.run
        ((ButtonSystemAdapter.run (adapter0.set_app_mode .CONTENT_READING)
          [(tick 1000 true false false, joystick_idle),
           (tick 1100 false false false, joystick_idle)]).1.set_app_mode .MAIN_MENU)
        [(tick 2000 true false false, joystick_idle),
         (tick 2100 false false false, joystick_idle)]).2 = [[], []] ∧
    ButtonSystemAdapter.can_trigger_event
      (ButtonSystemAdapter.run (adapter0.set_app_mode .CONTENT_READING)
        [(tick 1000 true false false, joystick_idle)]).1 1100 = true ∧
    ButtonSystemAdapter.can_trigger_event
      (ButtonSystemAdapter.run
        ((ButtonSystemAdapter.run (adapter0.set_app_mode .CONTENT_READING)
          [(tick 1000 true false false, joystick_idle),
           (tick 1100 false false false, joystick_idle)]).1.set_app_mode .MAIN_MENU)
        [(tick 2000 true false false, joystick_idle)]).1 2100 = true := by
  decide

/-- C5, the code at a rising edge of the Screen button. In each of the five
modes, the Screen button was sampled released at the previous tick and is
sampled pressed at 1000 ms: no event is triggered, where the claim expects
`SCREEN_TOGGLE`. -/
theorem screen_rising_edge_triggers_nothing :
    ∀ mode : AppMode,
      (manager0.set_app_mode mode).screen_button_.last_pressed = false ∧
      sampled_pressed (manager0.set_app_mode mode) .screen
        (tick 1000 false false true) = true ∧
      (update (manager0.set_app_mode mode) (tick 1000 false false true)).2 = [] := by
  intro mode
  cases mode <;> decide

/-- C6 as stated fails: with Up and Down both pressed at 1000 ms and both
still held at 1600 ms, the `update` call at 1600 ms triggers two events, so
it does not trigger at most one. -/
theorem two_events_in_one_update :
    (update (update manager0 (tick 1000 true true false)).1
        (tick 1600 true true false)).2
      = [{ button := .up, event := .NAV_SELECT },
         { button := .down, event := .NAV_BACK }] ∧
    ¬ (update (update manager0 (tick 1000 true true false)).1
        (tick 1600 true true false)).2.length ≤ 1 := by
  decide

/-- C6 amended. In every call of `update`, for every state and every
combination of samples, at most one event is triggered per button, hence at
most three in the call; none of them is `NONE`; and the pending slot ends
holding the last event triggered, or its old content if there is none. -/
theorem update_one_event_per_button (m : EnhancedButtonManager) (tk : TickInput) :
    (∀ b : Button, (events_of b (update m tk).2).length ≤ 1) ∧
    (update m tk).2.length ≤ 3 ∧
    (∀ f ∈ (update m tk).2, f.event ≠ .NONE) ∧
    (update m tk).1.pending_event_ =
      ((((update m tk).2).getLast?).map Fired.event).getD m.pending_event_ := by
  have hlen : ∀ (c : Button) (call : Option EnhancedButtonEvent),
      (accepted c call).length ≤ 1 := by
    intro c call
    cases call with
    | none => simp [accepted]
    | some e => simp only [accepted]; split <;> simp
  have hnone : ∀ (c : Button) (call : Option EnhancedButtonEvent),
      ∀ f ∈ accepted c call, f.event ≠ .NONE := by
    intro c call f hf
    cases call with
    | none => simp [accepted] at hf
    | some e =>
      simp only [accepted] at hf
      split at hf
      · simp at hf; subst hf; assumption
      · simp at hf
  refine ⟨?_, ?_, ?_, ?_⟩
  · intro b
    cases b with
    | up =>
      rw [update_events_of m tk .up (by decide), List.length_map]
      exact hlen _ _
    | down =>
      rw [update_events_of m tk .down (by decide), List.length_map]
      exact hlen _ _
    | screen =>
      rw [update_events, events_of_append,
        events_of_accepted_other _ _ (by decide), events_of_accepted_other _ _ (by decide)]
      simp
  · rw [update_events, List.length_append]
    have h1 := hlen .up (button_step m.long_press_ms_ m.current_mapping_.single_press_up
        m.current_mapping_.long_press_up m.up_pin_ m.up_button_ tk).2
    have h2 := hlen .down
      (button_step m.long_press_ms_ m.current_mapping_.single_press_down
        m.current_mapping_.long_press_down m.down_pin_ m.down_button_ tk).2
    omega
  · intro f hf
    rw [update_events, List.mem_append] at hf
    rcases hf with hf | hf
    · exact hnone _ _ f hf
    · exact hnone _ _ f hf
  · rw [update_state]

/-- C7 as stated fails: after a long press of Up in `MAIN_MENU` the pending
event is `NAV_SELECT` and the long press is marked handled; calling
`set_app_mode(MAIN_MENU)` then leaves both as they are, so the pending slot
is not `NONE` and `long_press_handled` is not false. -/
theorem set_same_mode_keeps_pending :
    ((run manager0 [tick 1000 true false false,
        tick 1600 true false false]).1.set_app_mode .MAIN_MENU).pending_event_
      = .NAV_SELECT ∧
    ¬ (((run manager0 [tick 1000 true false false,
          tick 1600 true false false]).1.set_app_mode .MAIN_MENU).pending_event_
        = .NONE) ∧
    ¬ (((run manager0 [tick 1000 true false false,
          tick 1600 true false false]).1.set_app_mode
            .MAIN_MENU).up_button_.long_press_handled = false) := by
  decide

/-- C7 amended. For every prior state and every mode different from the
current one, after `set_app_mode(mode)` the current mode is `mode`, the
mapping is `get_button_mapping(mode)`, the pending slot is `NONE` and
`long_press_handled` is false for the three buttons; a call with the current
mode changes nothing. -/
theorem set_app_mode_effect (m : EnhancedButtonManager) (mode : AppMode)
    (hne : m.current_mode_ ≠ mode) :
    (m.set_app_mode mode).current_mode_ = mode ∧
    (m.set_app_mode mode).current_mapping_ = get_button_mapping mode ∧
    (m.set_app_mode mode).pending_event_ = .NONE ∧
    (m.set_app_mode mode).up_button_.long_press_handled = false ∧
    (m.set_app_mode mode).down_button_.long_press_handled = false ∧
    (m.set_app_mode mode).screen_button_.long_press_handled = false ∧
    m.set_app_mode m.current_mode_ = m := by
  simp [set_app_mode, hne, clear_events]

/-- Witness of `set_app_mode_effect`: switching the initial manager from
`MAIN_MENU` to `FILE_LIST`. -/
theorem set_app_mode_effect_witness :
    (manager0.set_app_mode .FILE_LIST).current_mode_ = .FILE_LIST ∧
    (manager0.set_app_mode .FILE_LIST).current_mapping_
      = get_button_mapping .FILE_LIST ∧
    (manager0.set_app_mode .FILE_LIST).pending_event_ = .NONE ∧
    (manager0.set_app_mode .FILE_LIST).up_button_.long_press_handled = false ∧
    (manager0.set_app_mode .FILE_LIST).down_button_.long_press_handled = false ∧
    (manager0.set_app_mode .FILE_LIST).screen_button_.long_press_handled = false ∧
    manager0.set_app_mode manager0.current_mode_ = manager0 :=
  set_app_mode_effect manager0 .FILE_LIST (by decide)

/-- C8. `get_next_event` returns the pending event and leaves the slot
`NONE`, so that a second `get_next_event` returns `NONE` and `has_event` is
false; `has_event` holds exactly when the pending event is not `NONE`; and
putting the old pending event back after `get_next_event` or `clear_events`
gives the manager back, i.e. no other field changed. -/
theorem pending_slot_read_and_clear (m : EnhancedButtonManager) :
    m.get_next_event.1 = m.pending_event_ ∧
    m.get_next_event.2.pending_event_ = .NONE ∧
    m.get_next_event.2.get_next_event.1 = .NONE ∧
    m.get_next_event.2.has_event = false ∧
    (m.has_event = true ↔ m.pending_event_ ≠ .NONE) ∧
    { m.get_next_event.2 with pending_event_ := m.pending_event_ } = m ∧
    m.clear_events.pending_event_ = .NONE ∧
    { m.clear_events with pending_event_ := m.pending_event_ } = m := by
  refine ⟨rfl, rfl, rfl, rfl, ?_, rfl, rfl, rfl⟩
  simp [has_event]

/-- C9 as stated fails: in `FILE_LIST` the long press of the Down button is
not `NAV_BACK`. -/
theorem file_list_long_down_not_back :
    ¬ ((get_button_mapping .FILE_LIST).single_press_up = .NAV_UP ∧
       (get_button_mapping .FILE_LIST).single_press_down = .NAV_DOWN ∧
       (get_button_mapping .FILE_LIST).long_press_up = .NAV_SELECT ∧
       (get_button_mapping .FILE_LIST).long_press_down = .NAV_BACK) := by
  decide

/-- C9 amended. In `MAIN_MENU`, `FILE_LIST` and `SYSTEM_CONFIG` the single
presses are `NAV_UP` and `NAV_DOWN` and the long press of Up is
`NAV_SELECT`; the long press of Down is `NAV_BACK` in `MAIN_MENU` and
`NAV_HOME` in `FILE_LIST` and `SYSTEM_CONFIG`. -/
theorem menu_modes_mapping :
    ((get_button_mapping .MAIN_MENU).single_press_up = .NAV_UP ∧
     (get_button_mapping .MAIN_MENU).single_press_down = .NAV_DOWN ∧
     (get_button_mapping .MAIN_MENU).long_press_up = .NAV_SELECT ∧
     (get_button_mapping .MAIN_MENU).long_press_down = .NAV_BACK) ∧
    ((get_button_mapping .FILE_LIST).single_press_up = .NAV_UP ∧
     (get_button_mapping .FILE_LIST).single_press_down = .NAV_DOWN ∧
     (get_button_mapping .FILE_LIST).long_press_up = .NAV_SELECT ∧
     (get_button_mapping .FILE_LIST).long_press_down = .NAV_HOME) ∧
    ((get_button_mapping .SYSTEM_CONFIG).single_press_up = .NAV_UP ∧
     (get_button_mapping .SYSTEM_CONFIG).single_press_down = .NAV_DOWN ∧
     (get_button_mapping .SYSTEM_CONFIG).long_press_up = .NAV_SELECT ∧
     (get_button_mapping .SYSTEM_CONFIG).long_press_down = .NAV_HOME) := by
  refine ⟨⟨rfl, rfl, rfl, rfl⟩, ⟨rfl, rfl, rfl, rfl⟩, ⟨rfl, rfl, rfl, rfl⟩⟩

/-- C10. Reading mode maps the single presses to `PAGE_UP` and `PAGE_DOWN`
and the long press of Up to `MENU_ENTER`; the sub-menu maps the long press
of Up to `BRIGHTNESS_ADJUST`; every mode maps the screen button to
`SCREEN_TOGGLE`. -/
theorem reading_submenu_screen_mapping :
    (get_button_mapping .CONTENT_READING).single_press_up = .PAGE_UP ∧
    (get_button_mapping .CONTENT_READING).single_press_down = .PAGE_DOWN ∧
    (get_button_mapping .CONTENT_READING).long_press_up = .MENU_ENTER ∧
    (get_button_mapping .SUB_MENU).long_press_up = .BRIGHTNESS_ADJUST ∧
    ∀ mode, (get_button_mapping mode).screen_press = .SCREEN_TOGGLE := by
  refine ⟨rfl, rfl, rfl, rfl, ?_⟩
  intro mode
  cases mode <;> rfl

/-- C11. The composition of `function_to_event` and
`button_event_to_unified` is the stated table; it is injective on
`ButtonFunction`; and what `handle_button_event` delivers for an event does
not depend on the mode of the adapter. -/
theorem button_function_to_unified_table :
    (ButtonSystemAdapter.button_event_to_unified (function_to_event .NAV_UP)
        = .NAVIGATE_UP ∧
     ButtonSystemAdapter.button_event_to_unified (function_to_event .NAV_DOWN)
        = .NAVIGATE_DOWN ∧
     ButtonSystemAdapter.button_event_to_unified (function_to_event .NAV_SELECT)
        = .CONFIRM ∧
     ButtonSystemAdapter.button_event_to_unified (function_to_event .NAV_BACK)
        = .CANCEL ∧
     ButtonSystemAdapter.button_event_to_unified (function_to_event .NAV_HOME)
        = .HOME ∧
     ButtonSystemAdapter.button_event_to_unified (function_to_event .PAGE_UP)
        = .PAGE_PREVIOUS ∧
     ButtonSystemAdapter.button_event_to_unified (function_to_event .PAGE_DOWN)
        = .PAGE_NEXT ∧
     ButtonSystemAdapter.button_event_to_unified (function_to_event .SCREEN_TOGGLE)
        = .TOGGLE_SCREEN ∧
     ButtonSystemAdapter.button_event_to_unified (function_to_event .MENU_ENTER)
        = .ENTER_MENU ∧
     ButtonSystemAdapter.button_event_to_unified (function_to_event .BRIGHTNESS_ADJUST)
        = .ADJUST_BRIGHTNESS ∧
     ButtonSystemAdapter.button_event_to_unified (function_to_event .NONE)
        = .NONE) ∧
    Function.Injective
      (fun f => ButtonSystemAdapter.button_event_to_unified (function_to_event f)) ∧
    ∀ (a : ButtonSystemAdapter) (mode : AppMode) (f : ButtonFunction) (now : Nat),
      (ButtonSystemAdapter.handle_button_event { a with current_app_mode_ := mode }
        (function_to_event f) now).2
      = (ButtonSystemAdapter.handle_button_event a (function_to_event f) now).2 := by
  refine ⟨by decide, ?_, ?_⟩
  · intro f g h
    cases f <;> cases g <;> first | rfl | exact absurd h (by decide)
  · intro a mode f now
    simp only [ButtonSystemAdapter.handle_button_event,
      ButtonSystemAdapter.trigger_unified_event, ButtonSystemAdapter.can_trigger_event]
    split
    · rfl
    · split
      · rfl
      · split <;> rfl

/-- C12. The table of `joystick_event_to_unified`, for an adapter in mode
`mode` and any button state `button` where the direction decides: Up and
Down turn pages in `CONTENT_READING` and navigate in the other modes, Left
and Right navigate in every mode, and without direction a pressed button
enters the menu in `CONTENT_READING` and confirms in the four other modes,
a released one gives `NONE`. -/
theorem joystick_event_to_unified_table (a : ButtonSystemAdapter) (mode : AppMode)
    (button : JoystickButtonState) :
    ButtonSystemAdapter.joystick_event_to_unified
        { a with current_app_mode_ := mode } .UP button
      = (if mode = .CONTENT_READING then .PAGE_PREVIOUS else .NAVIGATE_UP) ∧
    ButtonSystemAdapter.joystick_event_to_unified
        { a with current_app_mode_ := mode } .DOWN button
      = (if mode = .CONTENT_READING then .PAGE_NEXT else .NAVIGATE_DOWN) ∧
    ButtonSystemAdapter.joystick_event_to_unified
        { a with current_app_mode_ := mode } .LEFT button = .NAVIGATE_LEFT ∧
    ButtonSystemAdapter.joystick_event_to_unified
        { a with current_app_mode_ := mode } .RIGHT button = .NAVIGATE_RIGHT ∧
    ButtonSystemAdapter.joystick_event_to_unified
        { a with current_app_mode_ := .CONTENT_READING } .NONE .PRESSED = .ENTER_MENU ∧
    ButtonSystemAdapter.joystick_event_to_unified
        { a with current_app_mode_ := .MAIN_MENU } .NONE .PRESSED = .CONFIRM ∧
    ButtonSystemAdapter.joystick_event_to_unified
        { a with current_app_mode_ := .FILE_LIST } .NONE .PRESSED = .CONFIRM ∧
    ButtonSystemAdapter.joystick_event_to_unified
        { a with current_app_mode_ := .SYSTEM_CONFIG } .NONE .PRESSED = .CONFIRM ∧
    ButtonSystemAdapter.joystick_event_to_unified
        { a with current_app_mode_ := .SUB_MENU } .NONE .PRESSED = .CONFIRM ∧
    ButtonSystemAdapter.joystick_event_to_unified
        { a with current_app_mode_ := mode } .NONE .RELEASED = .NONE := by
  refine ⟨rfl, rfl, rfl, rfl, rfl, rfl, rfl, rfl, rfl, ?_⟩
  simp [ButtonSystemAdapter.joystick_event_to_unified]

/-- C13. For an event `e` other than `NONE` handed to
`trigger_unified_event` when the clock reads `now`: if
`(now - last_event_time_) mod 2^32 >= repeat_delay_ms` the callback receives
exactly `e` and `last_event_time_` becomes `now`, nothing else changing;
otherwise the callback receives nothing and the adapter is unchanged; so
`e` is delivered if and only if the inequality holds. -/
theorem anti_repeat_gate (a : ButtonSystemAdapter) (e : UnifiedInputEvent) (now : Nat)
    (he : e ≠ .NONE) :
    (a.repeat_delay_ms_ ≤ sub_u32 now a.last_event_time_ →
      ButtonSystemAdapter.trigger_unified_event a e now
        = ({ a with last_event_time_ := now }, [e])) ∧
    (sub_u32 now a.last_event_time_ < a.repeat_delay_ms_ →
      ButtonSystemAdapter.trigger_unified_event a e now = (a, [])) ∧
    ((ButtonSystemAdapter.trigger_unified_event a e now).2 = [e] ↔
      a.repeat_delay_ms_ ≤ sub_u32 now a.last_event_time_) := by
  refine ⟨?_, ?_, ?_⟩
  · intro h
    simp [ButtonSystemAdapter.trigger_unified_event,
      ButtonSystemAdapter.can_trigger_event, he, h]
  · intro h
    simp [ButtonSystemAdapter.trigger_unified_event,
      ButtonSystemAdapter.can_trigger_event, he, Nat.not_le.mpr h]
  · by_cases h : a.repeat_delay_ms_ ≤ sub_u32 now a.last_event_time_
    · simp [ButtonSystemAdapter.trigger_unified_event,
        ButtonSystemAdapter.can_trigger_event, he, h]
    · simp [ButtonSystemAdapter.trigger_unified_event,
        ButtonSystemAdapter.can_trigger_event, he, h]

/-- Witness of `anti_repeat_gate`: on the fresh adapter `CONFIRM` passes
the gate at 1000 ms. -/
theorem anti_repeat_gate_witness :
    ButtonSystemAdapter.trigger_unified_event adapter0 .CONFIRM 1000
      = ({ adapter0 with last_event_time_ := 1000 }, [.CONFIRM]) :=
  (anti_repeat_gate adapter0 .CONFIRM 1000 (by decide)).1 (by decide)

/-! ### The anti-repeat gate over two events and over one `update` -/

theorem sub_u32_same (t : Nat) : sub_u32 t t = 0 := by
  unfold sub_u32
  have h : t % UINT32_MOD + UINT32_MOD - t % UINT32_MOD = UINT32_MOD := by omega
  rw [h]
  exact Nat.mod_self _

theorem sub_u32_later (t k : Nat) (hk : k < UINT32_MOD) :
    sub_u32 ((t + k) % UINT32_MOD) (t % UINT32_MOD) = k := by
  unfold sub_u32
  unfold UINT32_MOD at *
  omega

theorem trigger_unified_event_open (a : ButtonSystemAdapter) (e : UnifiedInputEvent)
    (now : Nat) (he : e ≠ .NONE)
    (hopen : ButtonSystemAdapter.can_trigger_event a now = true) :
    ButtonSystemAdapter.trigger_unified_event a e now
      = ({ a with last_event_time_ := now }, [e]) := by
  simp [ButtonSystemAdapter.trigger_unified_event, he, hopen]

theorem trigger_unified_event_shut (a : ButtonSystemAdapter) (e : UnifiedInputEvent)
    (now : Nat) (hshut : ButtonSystemAdapter.can_trigger_event a now = false) :
    ButtonSystemAdapter.trigger_unified_event a e now = (a, []) := by
  simp [ButtonSystemAdapter.trigger_unified_event, hshut]

/-- C14 as stated fails: on the fresh adapter (`repeat_delay_ms = 200`,
`last_event_time_ = 0`) two qualifying events generated at 100 ms and 150 ms
are both dropped, so not exactly one is delivered; and of two generated at
100 ms and 350 ms only the second is delivered, not both. -/
theorem early_events_not_delivered :
    adapter0.repeat_delay_ms_ = 200 ∧
    deliver_two adapter0 .CONFIRM .CANCEL 100 (100 + 50) = [] ∧
    ¬ (deliver_two adapter0 .CONFIRM .CANCEL 100 (100 + 50)).length = 1 ∧
    deliver_two adapter0 .CONFIRM .CANCEL 100 (100 + 250) = [.CANCEL] ∧
    ¬ (deliver_two adapter0 .CONFIRM .CANCEL 100 (100 + 250)).length = 2 := by
  decide

/-- C14 amended. For an adapter with `repeat_delay_ms = 200` and every time
`t` at which the first of two qualifying events is generated with the gate
open: if the second is generated at `t + 50` only the first is delivered,
and if it is generated at `t + 250` both are delivered, in order. -/
theorem two_events_through_gate (a : ButtonSystemAdapter) (e1 e2 : UnifiedInputEvent)
    (t : Nat) (h200 : a.repeat_delay_ms_ = 200) (he1 : e1 ≠ .NONE) (he2 : e2 ≠ .NONE)
    (hopen : ButtonSystemAdapter.can_trigger_event a (t % UINT32_MOD) = true) :
    deliver_two a e1 e2 t (t + 50) = [e1] ∧
    deliver_two a e1 e2 t (t + 250) = [e1, e2] := by
  have h50 := sub_u32_later t 50 (by decide)
  have h250 := sub_u32_later t 250 (by decide)
  have hfirst := trigger_unified_event_open a e1 (t % UINT32_MOD) he1 hopen
  constructor
  · have hshut : ButtonSystemAdapter.can_trigger_event
        { a with last_event_time_ := t % UINT32_MOD } ((t + 50) % UINT32_MOD) = false := by
      simp [ButtonSystemAdapter.can_trigger_event, h50, h200]
    simp only [deliver_two, hfirst]
    rw [trigger_unified_event_shut _ e2 _ hshut]
    rfl
  · have hopen2 : ButtonSystemAdapter.can_trigger_event
        { a with last_event_time_ := t % UINT32_MOD } ((t + 250) % UINT32_MOD) = true := by
      simp [ButtonSystemAdapter.can_trigger_event, h250, h200]
    simp only [deliver_two, hfirst]
    rw [trigger_unified_event_open _ e2 _ he2 hopen2]
    rfl

/-- Witness of `two_events_through_gate`: the fresh adapter at 1000 ms. -/
theorem two_events_through_gate_witness :
    deliver_two adapter0 .CONFIRM .CANCEL 1000 (1000 + 50) = [.CONFIRM] ∧
    deliver_two adapter0 .CONFIRM .CANCEL 1000 (1000 + 250) = [.CONFIRM, .CANCEL] :=
  two_events_through_gate adapter0 .CONFIRM .CANCEL 1000 (by decide) (by decide)
    (by decide) (by decide)

theorem gate_shut_after_delivery (a : ButtonSystemAdapter) (now : Nat)
    (hpos : 0 < a.repeat_delay_ms_) :
    ButtonSystemAdapter.can_trigger_event { a with last_event_time_ := now } now
      = false := by
  have hne := Nat.pos_iff_ne_zero.mp hpos
  simp [ButtonSystemAdapter.can_trigger_event, sub_u32_same, hne]

theorem delivers_once_nil (a : ButtonSystemAdapter) (now : Nat) :
    delivers_once a now (a, []) := by
  refine ⟨rfl, by simp, by simp, ?_⟩
  intro h
  exact ⟨rfl, h⟩

theorem delivers_once_comp (a : ButtonSystemAdapter) (now : Nat)
    (r rs : ButtonSystemAdapter × List UnifiedInputEvent)
    (h1 : delivers_once a now r) (h2 : delivers_once r.1 now rs) :
    delivers_once a now (rs.1, r.2 ++ rs.2) := by
  obtain ⟨d1, l1, s1, c1⟩ := h1
  obtain ⟨d2, l2, s2, c2⟩ := h2
  refine ⟨d2.trans d1, ?_, ?_, ?_⟩
  · by_cases hr : r.2 = []
    · simp [hr, l2]
    · have := (c2 (s1 hr)).1
      simp [this, l1]
  · intro hne
    by_cases hr : r.2 = []
    · have h : rs.2 ≠ [] := by
        intro hrs
        exact hne (by simp [hr, hrs])
      exact s2 h
    · exact (c2 (s1 hr)).2
  · intro hshut
    obtain ⟨e1, g1⟩ := c1 hshut
    obtain ⟨e2, g2⟩ := c2 g1
    exact ⟨by simp [e1, e2], g2⟩

theorem accepted_event_ne_none (c : Button) (call : Option EnhancedButtonEvent) :
    ∀ f ∈ accepted c call, f.event ≠ .NONE := by
  intro f hf
  cases call with
  | none => simp [accepted] at hf
  | some e =>
    simp only [accepted] at hf
    split at hf
    · simp at hf; subst hf; assumption
    · simp at hf

theorem update_fired_ne_none (m : EnhancedButtonManager) (tk : TickInput) :
    ∀ f ∈ (EnhancedButtonManager.update m tk).2, f.event ≠ .NONE := by
  intro f hf
  rw [update_events, List.mem_append] at hf
  rcases hf with hf | hf
  · exact accepted_event_ne_none _ _ f hf
  · exact accepted_event_ne_none _ _ f hf

theorem button_event_to_unified_ne_none (e : EnhancedButtonEvent) (he : e ≠ .NONE) :
    ButtonSystemAdapter.button_event_to_unified e ≠ .NONE := by
  cases e <;> first | exact absurd rfl he | decide

theorem can_trigger_event_congr (a b : ButtonSystemAdapter) (now : Nat)
    (h1 : b.last_event_time_ = a.last_event_time_)
    (h2 : b.repeat_delay_ms_ = a.repeat_delay_ms_) :
    ButtonSystemAdapter.can_trigger_event b now
      = ButtonSystemAdapter.can_trigger_event a now := by
  unfold ButtonSystemAdapter.can_trigger_event
  rw [h1, h2]

/-- The property `delivers_once` looks at `last_event_time_` and
`repeat_delay_ms_` only. -/
theorem delivers_once_congr (a a1 r r1 : ButtonSystemAdapter)
    (l : List UnifiedInputEvent) (now : Nat)
    (ha1 : a1.last_event_time_ = a.last_event_time_)
    (ha2 : a1.repeat_delay_ms_ = a.repeat_delay_ms_)
    (hr1 : r1.last_event_time_ = r.last_event_time_)
    (hr2 : r1.repeat_delay_ms_ = r.repeat_delay_ms_)
    (h : delivers_once a now (r, l)) : delivers_once a1 now (r1, l) := by
  obtain ⟨d, len, s, c⟩ := h
  have ga := can_trigger_event_congr a a1 now ha1 ha2
  have gr := can_trigger_event_congr r r1 now hr1 hr2
  refine ⟨?_, len, ?_, ?_⟩
  · show r1.repeat_delay_ms_ = a1.repeat_delay_ms_
    rw [hr2, ha2]
    exact d
  · intro hne
    show ButtonSystemAdapter.can_trigger_event r1 now = false
    rw [gr]
    exact s hne
  · intro hshut
    rw [ga] at hshut
    obtain ⟨e, g⟩ := c hshut
    refine ⟨e, ?_⟩
    show ButtonSystemAdapter.can_trigger_event r1 now = false
    rw [gr]
    exact g

theorem sync_trigger_unified_event_open
    (cb : UnifiedInputEvent → ButtonSystemAdapter → ButtonSystemAdapter)
    (a : ButtonSystemAdapter) (e : UnifiedInputEvent) (now : Nat) (he : e ≠ .NONE)
    (hopen : ButtonSystemAdapter.can_trigger_event a now = true) :
    Synchronous.trigger_unified_event cb a e now
      = (cb e { a with last_event_time_ := now }, [e]) := by
  simp [Synchronous.trigger_unified_event, he, hopen]

theorem sync_trigger_unified_event_shut
    (cb : UnifiedInputEvent → ButtonSystemAdapter → ButtonSystemAdapter)
    (a : ButtonSystemAdapter) (e : UnifiedInputEvent) (now : Nat)
    (hshut : ButtonSystemAdapter.can_trigger_event a now = false) :
    Synchronous.trigger_unified_event cb a e now = (a, []) := by
  simp [Synchronous.trigger_unified_event, hshut]

theorem sync_trigger_unified_event_once
    (cb : UnifiedInputEvent → ButtonSystemAdapter → ButtonSystemAdapter)
    (hcb : Synchronous.keeps_gate cb)
    (a : ButtonSystemAdapter) (e : UnifiedInputEvent) (now : Nat)
    (hpos : 0 < a.repeat_delay_ms_) :
    delivers_once a now (Synchronous.trigger_unified_event cb a e now) := by
  by_cases he : e = .NONE
  · have h : Synchronous.trigger_unified_event cb a e now = (a, []) := by
      simp [Synchronous.trigger_unified_event, he]
    rw [h]
    exact delivers_once_nil a now
  · cases hg : ButtonSystemAdapter.can_trigger_event a now with
    | false =>
      rw [sync_trigger_unified_event_shut cb a e now hg]
      refine ⟨rfl, by simp, by simp, ?_⟩
      intro _
      exact ⟨rfl, hg⟩
    | true =>
      rw [sync_trigger_unified_event_open cb a e now he hg]
      obtain ⟨h1, h2⟩ := hcb e { a with last_event_time_ := now }
      refine ⟨h2, by simp, ?_, ?_⟩
      · intro _
        show ButtonSystemAdapter.can_trigger_event
          (cb e { a with last_event_time_ := now }) now = false
        rw [can_trigger_event_congr { a with last_event_time_ := now } _ now h1 h2]
        exact gate_shut_after_delivery a now hpos
      · intro h
        rw [hg] at h
        exact absurd h (by decide)

theorem sync_trigger_event_once
    (cb : UnifiedInputEvent → ButtonSystemAdapter → ButtonSystemAdapter)
    (hcb : Synchronous.keeps_gate cb)
    (a : ButtonSystemAdapter) (e : EnhancedButtonEvent) (now : Nat)
    (hpos : 0 < a.repeat_delay_ms_) :
    delivers_once a now (Synchronous.trigger_event cb a e now) := by
  unfold Synchronous.trigger_event
  split
  · unfold Synchronous.handle_button_event
    split
    · exact delivers_once_congr _ a _ _ [] now rfl rfl rfl rfl (delivers_once_nil _ now)
    · exact delivers_once_congr _ a _ _ _ now rfl rfl rfl rfl
        (sync_trigger_unified_event_once cb hcb
          { a with button_manager_ := { a.button_manager_ with pending_event_ := e } }
          _ now hpos)
  · exact delivers_once_nil a now

theorem sync_process_button_event_once
    (cb : UnifiedInputEvent → ButtonSystemAdapter → ButtonSystemAdapter)
    (hcb : Synchronous.keeps_gate cb)
    (a : ButtonSystemAdapter) (b : Button) (su lu : ButtonFunction) (now : Nat)
    (hpos : 0 < a.repeat_delay_ms_) :
    delivers_once a now (Synchronous.process_button_event cb a b su lu now) := by
  unfold Synchronous.process_button_event
  simp only []
  split
  · split
    · exact delivers_once_congr a a _ _ _ now rfl rfl rfl rfl
        (sync_trigger_event_once cb hcb a _ now hpos)
    · exact delivers_once_nil a now
  · split
    · split
      · exact sync_trigger_event_once cb hcb a _ now hpos
      · exact delivers_once_nil a now
    · exact delivers_once_nil a now

theorem sync_screen_once
    (cb : UnifiedInputEvent → ButtonSystemAdapter → ButtonSystemAdapter)
    (hcb : Synchronous.keeps_gate cb)
    (a : ButtonSystemAdapter) (c : Bool) (e : EnhancedButtonEvent) (now : Nat)
    (hpos : 0 < a.repeat_delay_ms_) :
    delivers_once a now
      (if c = true then Synchronous.trigger_event cb a e now else (a, [])) := by
  split
  · exact sync_trigger_event_once cb hcb a e now hpos
  · exact delivers_once_nil a now

theorem sync_cond_once
    (cb : UnifiedInputEvent → ButtonSystemAdapter → ButtonSystemAdapter)
    (hcb : Synchronous.keeps_gate cb)
    (a : ButtonSystemAdapter) (now : Nat) (c : Prop)
    [Decidable c] (e : UnifiedInputEvent) (hpos : 0 < a.repeat_delay_ms_) :
    delivers_once a now
      (if c then Synchronous.trigger_unified_event cb a e now else (a, [])) := by
  split
  · exact sync_trigger_unified_event_once cb hcb a e now hpos
  · exact delivers_once_nil a now

theorem sync_handle_joystick_event_once
    (cb : UnifiedInputEvent → ButtonSystemAdapter → ButtonSystemAdapter)
    (hcb : Synchronous.keeps_gate cb)
    (a : ButtonSystemAdapter) (direction : JoystickDirection)
    (button_state : JoystickButtonState) (now : Nat) (hpos : 0 < a.repeat_delay_ms_) :
    delivers_once a now
      (Synchronous.handle_joystick_event cb a direction button_state now) := by
  have h1 := sync_cond_once cb hcb a now
    (direction ≠ .NONE ∧ direction ≠ a.last_joystick_direction_)
    (ButtonSystemAdapter.joystick_event_to_unified a direction .RELEASED) hpos
  have hpos2 := hpos
  rw [← h1.1] at hpos2
  exact delivers_once_comp a now _ _ h1 (sync_cond_once cb hcb _ now _ _ hpos2)

theorem sync_manager_update_once
    (cb : UnifiedInputEvent → ButtonSystemAdapter → ButtonSystemAdapter)
    (hcb : Synchronous.keeps_gate cb)
    (a : ButtonSystemAdapter) (tk : TickInput) (hpos : 0 < a.repeat_delay_ms_) :
    delivers_once a tk.now (Synchronous.manager_update cb a tk) := by
  have d_up := sync_process_button_event_once cb hcb
    { a with button_manager_ := Synchronous.refresh_buttons a.button_manager_ tk } .up
    (Synchronous.refresh_buttons a.button_manager_ tk).current_mapping_.single_press_up
    (Synchronous.refresh_buttons a.button_manager_ tk).current_mapping_.long_press_up
    tk.now hpos
  unfold Synchronous.manager_update
  simp only []
  generalize Synchronous.process_button_event cb
    { a with button_manager_ := Synchronous.refresh_buttons a.button_manager_ tk } .up
    (Synchronous.refresh_buttons a.button_manager_ tk).current_mapping_.single_press_up
    (Synchronous.refresh_buttons a.button_manager_ tk).current_mapping_.long_press_up
    tk.now = r_up at d_up ⊢
  have hpos_up : 0 < r_up.1.repeat_delay_ms_ := by rw [d_up.1]; exact hpos
  have d_down := sync_process_button_event_once cb hcb r_up.1 .down
    r_up.1.button_manager_.current_mapping_.single_press_down
    r_up.1.button_manager_.current_mapping_.long_press_down tk.now hpos_up
  generalize Synchronous.process_button_event cb r_up.1 .down
    r_up.1.button_manager_.current_mapping_.single_press_down
    r_up.1.button_manager_.current_mapping_.long_press_down tk.now = r_down at d_down ⊢
  have hpos_down : 0 < r_down.1.repeat_delay_ms_ := by rw [d_down.1]; exact hpos_up
  have d_screen := sync_screen_once cb hcb r_down.1
    (r_down.1.button_manager_.screen_button_.pressed &&
      !r_down.1.button_manager_.screen_button_.last_pressed)
    (EnhancedButtonManager.function_to_event
      r_down.1.button_manager_.current_mapping_.screen_press) tk.now hpos_down
  exact delivers_once_congr _ a _ _ _ tk.now rfl rfl rfl rfl
    (delivers_once_comp _ tk.now r_up _ d_up
      (delivers_once_comp r_up.1 tk.now r_down _ d_down d_screen))

/-- With a positive delay and a callback that keeps the gate members, a
call of `update` that starts with the gate shut delivers nothing, and any
call delivers at most one event and leaves the gate shut when it delivered
one. -/
theorem sync_update_once
    (cb : UnifiedInputEvent → ButtonSystemAdapter → ButtonSystemAdapter)
    (hcb : Synchronous.keeps_gate cb)
    (a : ButtonSystemAdapter) (tk : TickInput) (joy : JoystickReading)
    (hpos : 0 < a.repeat_delay_ms_) :
    delivers_once a tk.now (Synchronous.update cb a tk joy) := by
  have d_m := sync_manager_update_once cb hcb a tk hpos
  have hpos_m : 0 < (Synchronous.manager_update cb a tk).1.repeat_delay_ms_ := by
    rw [d_m.1]; exact hpos
  have d_j := sync_handle_joystick_event_once cb hcb
    (Synchronous.manager_update cb a tk).1 joy.direction joy.button tk.now hpos_m
  have d_both := delivers_once_comp a tk.now _ _ d_m d_j
  unfold Synchronous.update
  simp only []
  split
  · split
    · exact delivers_once_congr a a _ _ _ tk.now rfl rfl rfl rfl d_both
    · exact d_m
  · exact d_m

/-- When the button part of `update` delivers an event, the joystick part
delivers none. -/
theorem sync_update_button_wins
    (cb : UnifiedInputEvent → ButtonSystemAdapter → ButtonSystemAdapter)
    (hcb : Synchronous.keeps_gate cb)
    (a : ButtonSystemAdapter) (tk : TickInput) (joy : JoystickReading)
    (hpos : 0 < a.repeat_delay_ms_)
    (hne : (Synchronous.manager_update cb a tk).2 ≠ []) :
    (Synchronous.update cb a tk joy).2 = (Synchronous.manager_update cb a tk).2 := by
  have d_m := sync_manager_update_once cb hcb a tk hpos
  have hpos_m : 0 < (Synchronous.manager_update cb a tk).1.repeat_delay_ms_ := by
    rw [d_m.1]; exact hpos
  have d_j := sync_handle_joystick_event_once cb hcb
    (Synchronous.manager_update cb a tk).1 joy.direction joy.button tk.now hpos_m
  have hj := (d_j.2.2.2 (d_m.2.2.1 hne)).1
  unfold Synchronous.update
  simp only []
  split
  · split
    · simp only [hj, List.append_nil]
    · rfl
  · rfl

theorem accepted_cases (b : Button) (call : Option EnhancedButtonEvent) :
    accepted b call = [] ∨
    ∃ e, e ≠ .NONE ∧ call = some e ∧ accepted b call = [{ button := b, event := e }] := by
  cases call with
  | none => exact Or.inl rfl
  | some e =>
    by_cases he : e = .NONE
    · left
      simp [accepted, he]
    · right
      exact ⟨e, he, rfl, by simp [accepted, he]⟩

theorem accepted_nil_cases (b : Button) (call : Option EnhancedButtonEvent)
    (h : accepted b call = []) : call = none ∨ call = some .NONE := by
  cases call with
  | none => exact Or.inl rfl
  | some e =>
    by_cases he : e = .NONE
    · right
      rw [he]
    · simp [accepted, he] at h

theorem sync_trigger_event_fires
    (cb : UnifiedInputEvent → ButtonSystemAdapter → ButtonSystemAdapter)
    (a : ButtonSystemAdapter) (e : EnhancedButtonEvent) (now : Nat) (he : e ≠ .NONE)
    (hopen : ButtonSystemAdapter.can_trigger_event a now = true) :
    (Synchronous.trigger_event cb a e now).2
      = [ButtonSystemAdapter.button_event_to_unified e] := by
  have hu := button_event_to_unified_ne_none e he
  have hopen2 : ButtonSystemAdapter.can_trigger_event
      { a with button_manager_ := { a.button_manager_ with pending_event_ := e } } now
      = true := hopen
  unfold Synchronous.trigger_event Synchronous.handle_button_event
  rw [if_pos he, if_neg he, sync_trigger_unified_event_open cb _ _ now hu hopen2]

/-- A `process_button_event` call that decides to trigger an event other
than `NONE` while the gate is open delivers that event. -/
theorem sync_process_button_event_fires
    (cb : UnifiedInputEvent → ButtonSystemAdapter → ButtonSystemAdapter)
    (a : ButtonSystemAdapter) (b : Button) (su lu : ButtonFunction) (now : Nat)
    (e : EnhancedButtonEvent) (he : e ≠ .NONE)
    (hopen : ButtonSystemAdapter.can_trigger_event a now = true)
    (hcall : (EnhancedButtonManager.process_button_event a.button_manager_.long_press_ms_
      (a.button_manager_.button_state b) su lu now).2 = some e) :
    (Synchronous.process_button_event cb a b su lu now).2
      = [ButtonSystemAdapter.button_event_to_unified e] := by
  unfold EnhancedButtonManager.process_button_event at hcall
  unfold Synchronous.process_button_event
  simp only [] at hcall ⊢
  split_ifs at hcall ⊢
  all_goals
    simp only [Option.some.injEq] at hcall
    rw [hcall]
    exact sync_trigger_event_fires cb a e now he hopen

/-- A `process_button_event` call on Up that triggers nothing, or `NONE`,
delivers nothing and leaves the gate members, the mapping, the long-press
time and the Down button as they are. -/
theorem sync_process_button_event_quiet
    (cb : UnifiedInputEvent → ButtonSystemAdapter → ButtonSystemAdapter)
    (a : ButtonSystemAdapter) (su lu : ButtonFunction) (now : Nat)
    (hcall : accepted .up (EnhancedButtonManager.process_button_event
      a.button_manager_.long_press_ms_ (a.button_manager_.button_state .up)
      su lu now).2 = []) :
    (Synchronous.process_button_event cb a .up su lu now).2 = [] ∧
    (Synchronous.process_button_event cb a .up su lu now).1.last_event_time_
      = a.last_event_time_ ∧
    (Synchronous.process_button_event cb a .up su lu now).1.repeat_delay_ms_
      = a.repeat_delay_ms_ ∧
    (Synchronous.process_button_event cb a .up su lu now).1.button_manager_.down_button_
      = a.button_manager_.down_button_ ∧
    (Synchronous.process_button_event cb a .up su lu now).1.button_manager_.current_mapping_
      = a.button_manager_.current_mapping_ ∧
    (Synchronous.process_button_event cb a .up su lu now).1.button_manager_.long_press_ms_
      = a.button_manager_.long_press_ms_ := by
  have h := accepted_nil_cases _ _ hcall
  unfold EnhancedButtonManager.process_button_event at h
  unfold Synchronous.process_button_event
  simp only [] at h ⊢
  split_ifs at h ⊢
  · have hnone : EnhancedButtonManager.function_to_event lu = .NONE := by
      rcases h with h | h
      · simp at h
      · simpa using h
    simp [hnone, Synchronous.trigger_event, Synchronous.mark_long_press_handled]
  · simp
  · have hnone : EnhancedButtonManager.function_to_event su = .NONE := by
      rcases h with h | h
      · simp at h
      · simpa using h
    simp [hnone, Synchronous.trigger_event]
  · simp
  · simp

/-- The first event the manager triggers in a call that starts with the
gate open is the one event the button part of `update` delivers. -/
theorem sync_manager_update_first
    (cb : UnifiedInputEvent → ButtonSystemAdapter → ButtonSystemAdapter)
    (hcb : Synchronous.keeps_gate cb)
    (a : ButtonSystemAdapter) (tk : TickInput) (hpos : 0 < a.repeat_delay_ms_)
    (f : Fired) (rest : List Fired)
    (hfired : (EnhancedButtonManager.update a.button_manager_ tk).2 = f :: rest)
    (hopen : ButtonSystemAdapter.can_trigger_event a tk.now = true) :
    (Synchronous.manager_update cb a tk).2
      = [ButtonSystemAdapter.button_event_to_unified f.event] := by
  rw [update_events] at hfired
  have d_up := sync_process_button_event_once cb hcb
    { a with button_manager_ := Synchronous.refresh_buttons a.button_manager_ tk } .up
    (Synchronous.refresh_buttons a.button_manager_ tk).current_mapping_.single_press_up
    (Synchronous.refresh_buttons a.button_manager_ tk).current_mapping_.long_press_up
    tk.now hpos
  have hopen3 : ButtonSystemAdapter.can_trigger_event
      { a with button_manager_ := Synchronous.refresh_buttons a.button_manager_ tk }
      tk.now = true := hopen
  rcases accepted_cases .up (button_step a.button_manager_.long_press_ms_
      a.button_manager_.current_mapping_.single_press_up
      a.button_manager_.current_mapping_.long_press_up a.button_manager_.up_pin_
      a.button_manager_.up_button_ tk).2 with hup | ⟨e, he, hcall, hup⟩
  · -- Up triggers nothing: the first event is the one of Down
    rw [hup, List.nil_append] at hfired
    have q_up := sync_process_button_event_quiet cb
      { a with button_manager_ := Synchronous.refresh_buttons a.button_manager_ tk }
      (Synchronous.refresh_buttons a.button_manager_ tk).current_mapping_.single_press_up
      (Synchronous.refresh_buttons a.button_manager_ tk).current_mapping_.long_press_up
      tk.now hup
    rcases accepted_cases .down (button_step a.button_manager_.long_press_ms_
        a.button_manager_.current_mapping_.single_press_down
        a.button_manager_.current_mapping_.long_press_down a.button_manager_.down_pin_
        a.button_manager_.down_button_ tk).2 with hdn | ⟨e, he, hcall, hdn⟩
    · rw [hdn] at hfired
      exact absurd hfired (by simp)
    · rw [hdn] at hfired
      have hf : f.event = e := by
        have := (List.cons.inj hfired).1
        rw [← this]
      unfold Synchronous.manager_update
      simp only []
      generalize Synchronous.process_button_event cb
        { a with button_manager_ := Synchronous.refresh_buttons a.button_manager_ tk } .up
        (Synchronous.refresh_buttons a.button_manager_ tk).current_mapping_.single_press_up
        (Synchronous.refresh_buttons a.button_manager_ tk).current_mapping_.long_press_up
        tk.now = r_up at d_up q_up ⊢
      obtain ⟨q1, q2, q3, q4, q5, q6⟩ := q_up
      have hopen_up : ButtonSystemAdapter.can_trigger_event r_up.1 tk.now = true := by
        rw [can_trigger_event_congr _ r_up.1 tk.now q2 q3]
        exact hopen3
      have hpos_up : 0 < r_up.1.repeat_delay_ms_ := by rw [q3]; exact hpos
      have hcall_dn : (EnhancedButtonManager.process_button_event
          r_up.1.button_manager_.long_press_ms_ (r_up.1.button_manager_.button_state .down)
          r_up.1.button_manager_.current_mapping_.single_press_down
          r_up.1.button_manager_.current_mapping_.long_press_down tk.now).2 = some e := by
        show (EnhancedButtonManager.process_button_event
          r_up.1.button_manager_.long_press_ms_ r_up.1.button_manager_.down_button_
          r_up.1.button_manager_.current_mapping_.single_press_down
          r_up.1.button_manager_.current_mapping_.long_press_down tk.now).2 = some e
        rw [q4, q5, q6]
        exact hcall
      have f_dn := sync_process_button_event_fires cb r_up.1 .down
        r_up.1.button_manager_.current_mapping_.single_press_down
        r_up.1.button_manager_.current_mapping_.long_press_down tk.now e he hopen_up
        hcall_dn
      have d_dn := sync_process_button_event_once cb hcb r_up.1 .down
        r_up.1.button_manager_.current_mapping_.single_press_down
        r_up.1.button_manager_.current_mapping_.long_press_down tk.now hpos_up
      generalize Synchronous.process_button_event cb r_up.1 .down
        r_up.1.button_manager_.current_mapping_.single_press_down
        r_up.1.button_manager_.current_mapping_.long_press_down tk.now
        = r_down at f_dn d_dn ⊢
      have hshut := d_dn.2.2.1 (by rw [f_dn]; simp)
      have hpos_dn : 0 < r_down.1.repeat_delay_ms_ := by rw [d_dn.1]; exact hpos_up
      have d_screen := sync_screen_once cb hcb r_down.1
        (r_down.1.button_manager_.screen_button_.pressed &&
          !r_down.1.button_manager_.screen_button_.last_pressed)
        (EnhancedButtonManager.function_to_event
          r_down.1.button_manager_.current_mapping_.screen_press) tk.now hpos_dn
      rw [(d_screen.2.2.2 hshut).1, q1, f_dn, hf]
      rfl
  · -- Up triggers the first event
    rw [hup] at hfired
    have hf : f.event = e := by
      have := (List.cons.inj hfired).1
      rw [← this]
    have f_up := sync_process_button_event_fires cb
      { a with button_manager_ := Synchronous.refresh_buttons a.button_manager_ tk } .up
      (Synchronous.refresh_buttons a.button_manager_ tk).current_mapping_.single_press_up
      (Synchronous.refresh_buttons a.button_manager_ tk).current_mapping_.long_press_up
      tk.now e he hopen3 hcall
    unfold Synchronous.manager_update
    simp only []
    generalize Synchronous.process_button_event cb
      { a with button_manager_ := Synchronous.refresh_buttons a.button_manager_ tk } .up
      (Synchronous.refresh_buttons a.button_manager_ tk).current_mapping_.single_press_up
      (Synchronous.refresh_buttons a.button_manager_ tk).current_mapping_.long_press_up
      tk.now = r_up at d_up f_up ⊢
    have hshut := d_up.2.2.1 (by rw [f_up]; simp)
    have hpos_up : 0 < r_up.1.repeat_delay_ms_ := by rw [d_up.1]; exact hpos
    have d_dn := sync_process_button_event_once cb hcb r_up.1 .down
      r_up.1.button_manager_.current_mapping_.single_press_down
      r_up.1.button_manager_.current_mapping_.long_press_down tk.now hpos_up
    generalize Synchronous.process_button_event cb r_up.1 .down
      r_up.1.button_manager_.current_mapping_.single_press_down
      r_up.1.button_manager_.current_mapping_.long_press_down tk.now = r_down at d_dn ⊢
    obtain ⟨hdn_nil, hshut_dn⟩ := d_dn.2.2.2 hshut
    have hpos_dn : 0 < r_down.1.repeat_delay_ms_ := by rw [d_dn.1]; exact hpos_up
    have d_screen := sync_screen_once cb hcb r_down.1
      (r_down.1.button_manager_.screen_button_.pressed &&
        !r_down.1.button_manager_.screen_button_.last_pressed)
      (EnhancedButtonManager.function_to_event
        r_down.1.button_manager_.current_mapping_.screen_press) tk.now hpos_dn
    rw [(d_screen.2.2.2 hshut_dn).1, hdn_nil, f_up, hf]
    rfl

/-- C15 as stated fails, in two ways. With the anti-repeat delay set to 0 by
`set_repeat_delay(0)`, the long press of Up reaching 600 ms in the same call
in which the joystick reports Up delivers `CONFIRM` and then `NAVIGATE_UP`.
With the default delay of 200 ms, in `CONTENT_READING`, and a callback that
answers `ENTER_MENU` with `set_app_mode(MAIN_MENU)`, which zeroes
`last_event_time_` inside the call, the same inputs deliver `ENTER_MENU`
and then `NAVIGATE_UP`. In both the callback is invoked twice and the
joystick event is not dropped. -/
theorem two_deliveries_in_one_update :
    ((Synchronous.update Synchronous.passive_callback
      (Synchronous.update Synchronous.passive_callback (adapter_joy0.set_repeat_delay 0)
        (tick 1000 true false false) joystick_idle).1
      (tick 1600 true false false) { direction := .UP, button := .RELEASED }).2
      = [.CONFIRM, .NAVIGATE_UP]) ∧
    (adapter_joy0.set_app_mode .CONTENT_READING).repeat_delay_ms_ = 200 ∧
    ((Synchronous.update Synchronous.menu_callback
      (Synchronous.update Synchronous.menu_callback
        (adapter_joy0.set_app_mode .CONTENT_READING)
        (tick 1000 true false false) joystick_idle).1
      (tick 1600 true false false) { direction := .UP, button := .RELEASED }).2
      = [.ENTER_MENU, .NAVIGATE_UP]) ∧
    ¬ (Synchronous.update Synchronous.menu_callback
      (Synchronous.update Synchronous.menu_callback
        (adapter_joy0.set_app_mode .CONTENT_READING)
        (tick 1000 true false false) joystick_idle).1
      (tick 1600 true false false)
      { direction := .UP, button := .RELEASED }).2.length ≤ 1 := by
  decide

/-- C15 amended. The application callback runs inside `update` and is any
function of the event and the adapter that leaves `last_event_time_` and
`repeat_delay_ms_` as they are; every clock read of the call returns
`tk.now`. For an adapter whose `repeat_delay_ms_` is positive, every call of
`update` then invokes the callback at most once; and when the manager
triggers a button event in the call with the gate open (`f` is the first
it triggers, which no callback precedes), the one event delivered is that
button event, whatever the joystick reports in that call. -/
theorem adapter_update_delivers_at_most_one
    (cb : UnifiedInputEvent → ButtonSystemAdapter → ButtonSystemAdapter)
    (a : ButtonSystemAdapter) (tk : TickInput) (joy : JoystickReading)
    (hpos : 0 < a.repeat_delay_ms_) (hcb : Synchronous.keeps_gate cb) :
    (Synchronous.update cb a tk joy).2.length ≤ 1 ∧
    ∀ (f : Fired) (rest : List Fired),
      (EnhancedButtonManager.update a.button_manager_ tk).2 = f :: rest →
      ButtonSystemAdapter.can_trigger_event a tk.now = true →
      (Synchronous.update cb a tk joy).2
        = [ButtonSystemAdapter.button_event_to_unified f.event] := by
  refine ⟨(sync_update_once cb hcb a tk joy hpos).2.1, ?_⟩
  intro f rest hfired hopen
  have hm := sync_manager_update_first cb hcb a tk hpos f rest hfired hopen
  rw [sync_update_button_wins cb hcb a tk joy hpos (by rw [hm]; simp), hm]

/-- Witness of `adapter_update_delivers_at_most_one`: the adapter with the
default delay of 200 ms and a joystick attached, in `CONTENT_READING`, with
a callback that sets the long-press time to one second at every event; Up
is held since 1000 ms and at 1600 ms the joystick reports Up as well. The
call delivers `ENTER_MENU` alone. -/
theorem adapter_update_delivers_at_most_one_witness :
    (Synchronous.update Synchronous.retime_callback
      (Synchronous.update Synchronous.retime_callback
        (adapter_joy0.set_app_mode .CONTENT_READING)
        (tick 1000 true false false) joystick_idle).1
      (tick 1600 true false false) { direction := .UP, button := .RELEASED }).2.length
      ≤ 1 ∧
    (Synchronous.update Synchronous.retime_callback
      (Synchronous.update Synchronous.retime_callback
        (adapter_joy0.set_app_mode .CONTENT_READING)
        (tick 1000 true false false) joystick_idle).1
      (tick 1600 true false false) { direction := .UP, button := .RELEASED }).2
      = [.ENTER_MENU] :=
  ⟨(adapter_update_delivers_at_most_one Synchronous.retime_callback
      (Synchronous.update Synchronous.retime_callback
        (adapter_joy0.set_app_mode .CONTENT_READING)
        (tick 1000 true false false) joystick_idle).1
      (tick 1600 true false false) { direction := .UP, button := .RELEASED }
      (by decide) (fun _ _ => ⟨rfl, rfl⟩)).1,
   (adapter_update_delivers_at_most_one Synchronous.retime_callback
      (Synchronous.update Synchronous.retime_callback
        (adapter_joy0.set_app_mode .CONTENT_READING)
        (tick 1000 true false false) joystick_idle).1
      (tick 1600 true false false) { direction := .UP, button := .RELEASED }
      (by decide) (fun _ _ => ⟨rfl, rfl⟩)).2
      { button := .up, event := .MENU_ENTER } [] (by decide) (by decide)⟩

/-! ### The adapter with a callback that leaves it alone -/

theorem sync_trigger_unified_event_passive (a : ButtonSystemAdapter)
    (e : UnifiedInputEvent) (now : Nat) :
    Synchronous.trigger_unified_event Synchronous.passive_callback a e now
      = ButtonSystemAdapter.trigger_unified_event a e now := by
  unfold Synchronous.trigger_unified_event ButtonSystemAdapter.trigger_unified_event
    Synchronous.passive_callback
  rfl

theorem sync_handle_button_event_passive (a : ButtonSystemAdapter)
    (e : EnhancedButtonEvent) (now : Nat) :
    Synchronous.handle_button_event Synchronous.passive_callback a e now
      = ButtonSystemAdapter.handle_button_event a e now := by
  unfold Synchronous.handle_button_event ButtonSystemAdapter.handle_button_event
  rw [sync_trigger_unified_event_passive]

theorem sync_handle_joystick_event_passive (a : ButtonSystemAdapter)
    (direction : JoystickDirection) (button_state : JoystickButtonState) (now : Nat) :
    Synchronous.handle_joystick_event Synchronous.passive_callback a direction
        button_state now
      = ButtonSystemAdapter.handle_joystick_event a direction button_state now := by
  unfold Synchronous.handle_joystick_event ButtonSystemAdapter.handle_joystick_event
  simp only [sync_trigger_unified_event_passive]

/-- The method `handle_button_event` neither reads nor writes the manager. -/
theorem handle_button_event_manager (a : ButtonSystemAdapter) (m : EnhancedButtonManager)
    (e : EnhancedButtonEvent) (now : Nat) :
    ButtonSystemAdapter.handle_button_event { a with button_manager_ := m } e now
      = ({ (ButtonSystemAdapter.handle_button_event a e now).1 with button_manager_ := m },
         (ButtonSystemAdapter.handle_button_event a e now).2) := by
  unfold ButtonSystemAdapter.handle_button_event ButtonSystemAdapter.trigger_unified_event
    ButtonSystemAdapter.can_trigger_event
  split_ifs <;> rfl

theorem deliver_button_events_manager (now : Nat) (fs : List Fired) :
    ∀ (a : ButtonSystemAdapter) (m : EnhancedButtonManager),
      ButtonSystemAdapter.deliver_button_events { a with button_manager_ := m } now fs
        = ({ (ButtonSystemAdapter.deliver_button_events a now fs).1 with
              button_manager_ := m },
           (ButtonSystemAdapter.deliver_button_events a now fs).2) := by
  induction fs with
  | nil => intro a m; rfl
  | cons f rest ih =>
    intro a m
    simp only [ButtonSystemAdapter.deliver_button_events]
    rw [handle_button_event_manager]
    simp only []
    rw [ih]

theorem deliver_button_events_cons (a : ButtonSystemAdapter) (now : Nat) (f : Fired)
    (rest : List Fired) :
    ButtonSystemAdapter.deliver_button_events a now (f :: rest)
      = ((ButtonSystemAdapter.deliver_button_events
            (ButtonSystemAdapter.handle_button_event a f.event now).1 now rest).1,
         (ButtonSystemAdapter.handle_button_event a f.event now).2 ++
           (ButtonSystemAdapter.deliver_button_events
             (ButtonSystemAdapter.handle_button_event a f.event now).1 now rest).2) := rfl

theorem deliver_button_events_append (now : Nat) (xs ys : List Fired) :
    ∀ a : ButtonSystemAdapter,
      ButtonSystemAdapter.deliver_button_events a now (xs ++ ys)
        = ((ButtonSystemAdapter.deliver_button_events
              (ButtonSystemAdapter.deliver_button_events a now xs).1 now ys).1,
           (ButtonSystemAdapter.deliver_button_events a now xs).2 ++
             (ButtonSystemAdapter.deliver_button_events
               (ButtonSystemAdapter.deliver_button_events a now xs).1 now ys).2) := by
  induction xs with
  | nil => intro a; rfl
  | cons f rest ih =>
    intro a
    rw [List.cons_append, deliver_button_events_cons, deliver_button_events_cons, ih]
    simp only [List.append_assoc]

theorem sync_trigger_event_passive (a : ButtonSystemAdapter) (src : Button)
    (e : EnhancedButtonEvent) (now : Nat) :
    Synchronous.trigger_event Synchronous.passive_callback a e now
      = ButtonSystemAdapter.deliver_button_events
          { a with button_manager_ :=
              (EnhancedButtonManager.trigger_event a.button_manager_ src e).1 }
          now (EnhancedButtonManager.trigger_event a.button_manager_ src e).2 := by
  unfold Synchronous.trigger_event EnhancedButtonManager.trigger_event
  by_cases he : e = .NONE
  · simp [he, ButtonSystemAdapter.deliver_button_events]
  · simp [he, ButtonSystemAdapter.deliver_button_events, sync_handle_button_event_passive]

theorem sync_process_button_event_up_passive (a : ButtonSystemAdapter)
    (su lu : ButtonFunction) (now : Nat) :
    Synchronous.process_button_event Synchronous.passive_callback a .up su lu now
      = ButtonSystemAdapter.deliver_button_events
          { a with button_manager_ :=
              (EnhancedButtonManager.trigger_opt
                { a.button_manager_ with up_button_ :=
                    (EnhancedButtonManager.process_button_event
                      a.button_manager_.long_press_ms_ a.button_manager_.up_button_
                      su lu now).1 } .up
                (EnhancedButtonManager.process_button_event
                  a.button_manager_.long_press_ms_ a.button_manager_.up_button_
                  su lu now).2).1 }
          now
          (accepted .up (EnhancedButtonManager.process_button_event
            a.button_manager_.long_press_ms_ a.button_manager_.up_button_ su lu now).2) := by
  unfold Synchronous.process_button_event EnhancedButtonManager.process_button_event
  simp only [EnhancedButtonManager.button_state]
  split_ifs
  · by_cases he : EnhancedButtonManager.function_to_event lu = .NONE
    · simp [he, accepted, EnhancedButtonManager.trigger_opt,
        EnhancedButtonManager.trigger_event, Synchronous.trigger_event,
        Synchronous.mark_long_press_handled, ButtonSystemAdapter.deliver_button_events]
    · simp [he, accepted, EnhancedButtonManager.trigger_opt,
        EnhancedButtonManager.trigger_event, Synchronous.trigger_event,
        Synchronous.mark_long_press_handled, ButtonSystemAdapter.deliver_button_events,
        sync_handle_button_event_passive, handle_button_event_manager]
  · simp [accepted, EnhancedButtonManager.trigger_opt,
      ButtonSystemAdapter.deliver_button_events]
  · by_cases he : EnhancedButtonManager.function_to_event su = .NONE
    · simp [he, accepted, EnhancedButtonManager.trigger_opt,
        EnhancedButtonManager.trigger_event, Synchronous.trigger_event,
        ButtonSystemAdapter.deliver_button_events]
    · simp [he, accepted, EnhancedButtonManager.trigger_opt,
        EnhancedButtonManager.trigger_event, Synchronous.trigger_event,
        ButtonSystemAdapter.deliver_button_events,
        sync_handle_button_event_passive, handle_button_event_manager]
  · simp [accepted, EnhancedButtonManager.trigger_opt,
      ButtonSystemAdapter.deliver_button_events]
  · simp [accepted, EnhancedButtonManager.trigger_opt,
      ButtonSystemAdapter.deliver_button_events]

theorem sync_process_button_event_down_passive (a : ButtonSystemAdapter)
    (su lu : ButtonFunction) (now : Nat) :
    Synchronous.process_button_event Synchronous.passive_callback a .down su lu now
      = ButtonSystemAdapter.deliver_button_events
          { a with button_manager_ :=
              (EnhancedButtonManager.trigger_opt
                { a.button_manager_ with down_button_ :=
                    (EnhancedButtonManager.process_button_event
                      a.button_manager_.long_press_ms_ a.button_manager_.down_button_
                      su lu now).1 } .down
                (EnhancedButtonManager.process_button_event
                  a.button_manager_.long_press_ms_ a.button_manager_.down_button_
                  su lu now).2).1 }
          now
          (accepted .down (EnhancedButtonManager.process_button_event
            a.button_manager_.long_press_ms_ a.button_manager_.down_button_ su lu now).2) := by
  unfold Synchronous.process_button_event EnhancedButtonManager.process_button_event
  simp only [EnhancedButtonManager.button_state]
  split_ifs
  · by_cases he : EnhancedButtonManager.function_to_event lu = .NONE
    · simp [he, accepted, EnhancedButtonManager.trigger_opt,
        EnhancedButtonManager.trigger_event, Synchronous.trigger_event,
        Synchronous.mark_long_press_handled, ButtonSystemAdapter.deliver_button_events]
    · simp [he, accepted, EnhancedButtonManager.trigger_opt,
        EnhancedButtonManager.trigger_event, Synchronous.trigger_event,
        Synchronous.mark_long_press_handled, ButtonSystemAdapter.deliver_button_events,
        sync_handle_button_event_passive, handle_button_event_manager]
  · simp [accepted, EnhancedButtonManager.trigger_opt,
      ButtonSystemAdapter.deliver_button_events]
  · by_cases he : EnhancedButtonManager.function_to_event su = .NONE
    · simp [he, accepted, EnhancedButtonManager.trigger_opt,
        EnhancedButtonManager.trigger_event, Synchronous.trigger_event,
        ButtonSystemAdapter.deliver_button_events]
    · simp [he, accepted, EnhancedButtonManager.trigger_opt,
        EnhancedButtonManager.trigger_event, Synchronous.trigger_event,
        ButtonSystemAdapter.deliver_button_events,
        sync_handle_button_event_passive, handle_button_event_manager]
  · simp [accepted, EnhancedButtonManager.trigger_opt,
      ButtonSystemAdapter.deliver_button_events]
  · simp [accepted, EnhancedButtonManager.trigger_opt,
      ButtonSystemAdapter.deliver_button_events]

theorem sync_manager_update_passive (a : ButtonSystemAdapter) (tk : TickInput) :
    Synchronous.manager_update Synchronous.passive_callback a tk
      = ButtonSystemAdapter.deliver_button_events
          { a with button_manager_ := (EnhancedButtonManager.update a.button_manager_ tk).1 }
          tk.now (EnhancedButtonManager.update a.button_manager_ tk).2 := by
  rw [update_state, update_events]
  simp only [Synchronous.manager_update, sync_process_button_event_up_passive,
    sync_process_button_event_down_passive, deliver_button_events_manager,
    trigger_opt_fst, Synchronous.refresh_buttons, button_step,
    update_button_state_pressed, update_button_state_last_pressed,
    deliver_button_events_append, Bool.and_not_self, Bool.false_eq_true, if_false,
    List.append_nil]
  generalize EnhancedButtonManager.process_button_event a.button_manager_.long_press_ms_
    (update_button_state a.button_manager_.up_button_ tk.gpio_get a.button_manager_.up_pin_
      tk.now) a.button_manager_.current_mapping_.single_press_up
    a.button_manager_.current_mapping_.long_press_up tk.now = pu
  generalize EnhancedButtonManager.process_button_event a.button_manager_.long_press_ms_
    (update_button_state a.button_manager_.down_button_ tk.gpio_get
      a.button_manager_.down_pin_ tk.now) a.button_manager_.current_mapping_.single_press_down
    a.button_manager_.current_mapping_.long_press_down tk.now = pd
  have hpend : (Option.map Fired.event (accepted .down pd.2).getLast?).getD
      ((Option.map Fired.event (accepted .up pu.2).getLast?).getD
        a.button_manager_.pending_event_)
      = (Option.map Fired.event
          (accepted .up pu.2 ++ accepted .down pd.2).getLast?).getD
          a.button_manager_.pending_event_ := by
    rcases accepted_cases .up pu.2 with h | ⟨e, _, _, h⟩ <;>
      rcases accepted_cases .down pd.2 with h2 | ⟨e2, _, _, h2⟩ <;> simp [h, h2]
  rw [hpend]

/-- With a callback that leaves the adapter alone, `update` with the
callbacks run inside the call is `ButtonSystemAdapter.update`, which hands
the manager's events to `handle_button_event` after the manager has
finished. -/
theorem sync_update_passive (a : ButtonSystemAdapter) (tk : TickInput)
    (joy : JoystickReading) :
    Synchronous.update Synchronous.passive_callback a tk joy
      = ButtonSystemAdapter.update a tk joy := by
  unfold Synchronous.update ButtonSystemAdapter.update
  simp only [sync_manager_update_passive, sync_handle_joystick_event_passive]

/-- C16. With the default configuration the four reference offsets are
classified `NONE`, `RIGHT`, `NONE` and `UP`, by
`JoystickDebouncer::determine_direction` on the raw values
`(2048 + dx, 2048 + dy)` modulo `2^16` and by
`JoystickController::determineDirection` on the offsets. -/
theorem reference_offsets_classified :
    (JoystickDebouncer.ctor._config.threshold = 1800 ∧
     JoystickDebouncer.ctor._config.deadzone = 1000 ∧
     JoystickDebouncer.ctor._config.direction_ratio = { num := 3, den := 2 } ∧
     JoystickController.ctor.threshold_ = 1800) ∧
    (JoystickDebouncer.determine_direction JoystickDebouncer.ctor
        (raw_of_offset 0) (raw_of_offset 0) = .NONE ∧
     JoystickDebouncer.determine_direction JoystickDebouncer.ctor
        (raw_of_offset 3000) (raw_of_offset 0) = .RIGHT ∧
     JoystickDebouncer.determine_direction JoystickDebouncer.ctor
        (raw_of_offset 1200) (raw_of_offset 1200) = .NONE ∧
     JoystickDebouncer.determine_direction JoystickDebouncer.ctor
        (raw_of_offset 0) (raw_of_offset (-3000)) = .UP) ∧
    (JoystickController.determineDirection JoystickController.ctor 0 0 = .NONE ∧
     JoystickController.determineDirection JoystickController.ctor 3000 0 = .RIGHT ∧
     JoystickController.determineDirection JoystickController.ctor 1200 1200 = .NONE ∧
     JoystickController.determineDirection JoystickController.ctor 0 (-3000) = .UP) := by
  decide

/-- C17, the code at a diagonal push. With the default configuration the
raw sample `(4048, 4048)`, offsets `(2000, 2000)`, passes the deadzone
(1000) and the threshold (1800) and neither axis exceeds 1.5 times the
other; `JoystickDebouncer::determine_direction` and
`Joystick::determine_direction` return `DOWN`, and `UP` for the opposite
diagonal `(48, 48)`, where the claim expects `NONE`. The sibling
`JoystickController::determineDirection` returns `NONE` for these offsets. -/
theorem diagonal_push_classified_vertical :
    (raw_of_offset 2000 = 4048 ∧ raw_of_offset (-2000) = 48) ∧
    (gt_times 2000 2000 JoystickDebouncer.default_config.direction_ratio = false) ∧
    JoystickDebouncer.determine_direction JoystickDebouncer.ctor 4048 4048 = .DOWN ∧
    Joystick.determine_direction JoystickDebouncer.default_config 4048 4048 = .DOWN ∧
    JoystickDebouncer.determine_direction JoystickDebouncer.ctor 48 48 = .UP ∧
    Joystick.determine_direction JoystickDebouncer.default_config 48 48 = .UP ∧
    JoystickController.determineDirection JoystickController.ctor 2000 2000 = .NONE ∧
    JoystickController.determineDirection JoystickController.ctor (-2000) (-2000)
      = .NONE := by
  decide

/-- C19, the code on the reference sequence. From the constructed
controller (`stable_count_required_ = 3`) the samples classified
`[UP, UP, NONE, UP, UP, UP]` leave `getCurrentDirection()` at `NONE` after
every sample, index 5 included, where the claim expects `UP`; `UP` is
reported only after a fourth consecutive `UP`, at index 6. -/
theorem controller_reports_one_sample_late :
    JoystickController.ctor.stable_count_required_ = 3 ∧
    [pushed_offsets 0 (-3000), pushed_offsets 0 (-3000), pushed_offsets 0 0,
      pushed_offsets 0 (-3000), pushed_offsets 0 (-3000), pushed_offsets 0 (-3000),
      pushed_offsets 0 (-3000)].map
        (fun x => JoystickController.determineDirection JoystickController.ctor
          x.offset_x x.offset_y)
      = [.UP, .UP, .NONE, .UP, .UP, .UP, .UP] ∧
    JoystickController.reported_trace JoystickController.ctor
      [pushed_offsets 0 (-3000), pushed_offsets 0 (-3000), pushed_offsets 0 0,
        pushed_offsets 0 (-3000), pushed_offsets 0 (-3000), pushed_offsets 0 (-3000),
        pushed_offsets 0 (-3000)]
      = [.NONE, .NONE, .NONE, .NONE, .NONE, .NONE, .UP] := by
  decide

/-- C20 as stated fails: with `stable_count_required_ = 3`, once `UP` is
reported, a single sample classified `NONE` makes `getCurrentDirection()`
return `NONE`, so it did change to `NONE` before three consecutive `NONE`
classifications. -/
theorem controller_returns_to_none_at_once :
    JoystickController.reported_trace JoystickController.ctor
      [pushed_offsets 0 (-3000), pushed_offsets 0 (-3000), pushed_offsets 0 (-3000),
        pushed_offsets 0 (-3000), pushed_offsets 0 0]
      = [.NONE, .NONE, .NONE, .UP, .NONE] ∧
    ¬ (JoystickController.reported_trace JoystickController.ctor
        [pushed_offsets 0 (-3000), pushed_offsets 0 (-3000), pushed_offsets 0 (-3000),
          pushed_offsets 0 (-3000), pushed_offsets 0 0]).getLast? = some .UP := by
  decide

theorem handleButtonEvent_last_reported (c : JoystickController) (button_value : Nat) :
    (JoystickController.handleButtonEvent c button_value).1.last_reported_direction_
      = c.last_reported_direction_ := by
  unfold JoystickController.handleButtonEvent
  simp only []
  split
  · rfl
  · split <;> rfl

theorem update_direction_none (c : JoystickController) :
    (JoystickController.update_direction c .NONE).1.last_reported_direction_
      = .NONE := by
  unfold JoystickController.update_direction
  simp only [ne_eq, not_true_eq_false, false_and, and_false, if_false, true_and]
  split_ifs <;> simp_all

/-- C20 amended. `JoystickController::update` applies no stability
requirement to transitions into `NONE`: for every state and every
`stable_count_required_`, a sample classified `NONE` makes
`getCurrentDirection()` return `NONE` right after that call. -/
theorem controller_none_is_immediate (c : JoystickController) (sample : OffsetSample)
    (hnone : JoystickController.determineDirection c sample.offset_x sample.offset_y
      = .NONE) :
    (JoystickController.update c sample).getCurrentDirection = .NONE := by
  unfold JoystickController.update JoystickController.getCurrentDirection
  rw [hnone]
  simp only []
  rw [handleButtonEvent_last_reported, update_direction_none]

/-- Witness of `controller_none_is_immediate`: the controller that reports
`UP` after four samples pushed up, at a sample with the stick at rest. -/
theorem controller_none_is_immediate_witness :
    (JoystickController.update
      (JoystickController.update (JoystickController.update (JoystickController.update
        (JoystickController.update JoystickController.ctor (pushed_offsets 0 (-3000)))
        (pushed_offsets 0 (-3000))) (pushed_offsets 0 (-3000)))
        (pushed_offsets 0 (-3000)))
      (pushed_offsets 0 0)).getCurrentDirection = .NONE :=
  controller_none_is_immediate _ (pushed_offsets 0 0) (by decide)

/-! ### The stability filter of `JoystickDebouncer` against the run-length filter -/

theorem update_direction_related (required : Nat) (d : JoystickDebouncer)
    (f : RunFilter) (new : JoystickDirection)
    (hreq : d._config.stable_count_required = required)
    (h2 : 2 ≤ required) (h255 : required ≤ 255)
    (hinv : filter_related required d f) :
    filter_related required (JoystickDebouncer.update_direction d new)
      (RunFilter.step required f new) := by
  obtain ⟨stable, cand, n⟩ := f
  obtain ⟨cfg, cur, last, bs, lbs, count, lbt, beo, dc⟩ := d
  obtain ⟨hcur, hcase⟩ := hinv
  simp only at hcur hcase hreq
  subst hcur
  unfold filter_related JoystickDebouncer.update_direction RunFilter.step
  simp only [hreq]
  by_cases hns : new = cur
  · subst hns
    simp
  · by_cases hl : new = last
    · subst hl
      rcases hcase with ⟨hc, hlast | hcount⟩ | ⟨hc, hlast, hcount, h1, hlt⟩
      · exact absurd hlast hns
      · subst hc
        subst hcount
        have h1q : ¬ required ≤ 1 := by omega
        have h1r : ¬ 1 = required := by omega
        simp [hns, h1q, h1r]
        omega
      · subst hlast
        subst hcount
        have hmod : (count + 1) % 256 = count + 1 := by omega
        by_cases hcommit : required ≤ count + 1
        · have hrun : count + 1 = required := by omega
          have hmodr : required % 256 = required := by omega
          simp [hns, hrun, hmodr]
        · have hrun : ¬ count + 1 = required := by omega
          simp [hns, hmod, hcommit, hrun]
          omega
    · have h1r : ¬ 1 = required := by omega
      rcases hcase with ⟨hc, _⟩ | ⟨hc, hlast, hcount, h1, hlt⟩
      · subst hc
        simp [hns, hl, h1r]
        omega
      · subst hlast
        simp [hns, hl, h1r]
        omega

theorem update_button_direction_members (d : JoystickDebouncer) (t v : Nat) :
    (JoystickDebouncer.update_button d t v)._config = d._config ∧
    (JoystickDebouncer.update_button d t v)._current_direction = d._current_direction ∧
    (JoystickDebouncer.update_button d t v)._last_direction = d._last_direction ∧
    (JoystickDebouncer.update_button d t v)._direction_stable_count
      = d._direction_stable_count := by
  unfold JoystickDebouncer.update_button
  simp only []
  split_ifs <;> exact ⟨rfl, rfl, rfl, rfl⟩

theorem update_direction_config (d : JoystickDebouncer) (new : JoystickDirection) :
    (JoystickDebouncer.update_direction d new)._config = d._config := by
  unfold JoystickDebouncer.update_direction
  simp only []
  split_ifs <;> rfl

theorem raw_direction_config (d1 d2 : JoystickDebouncer) (sample : JoystickSample)
    (h : d1._config = d2._config) :
    JoystickDebouncer.raw_direction d1 sample = JoystickDebouncer.raw_direction d2 sample := by
  unfold JoystickDebouncer.raw_direction JoystickDebouncer.determine_direction
  rw [h]

theorem filter_related_members (required : Nat) (d1 d2 : JoystickDebouncer)
    (f : RunFilter) (hc : d1._current_direction = d2._current_direction)
    (hl : d1._last_direction = d2._last_direction)
    (hn : d1._direction_stable_count = d2._direction_stable_count)
    (h : filter_related required d2 f) : filter_related required d1 f := by
  unfold filter_related at *
  rw [hc, hl, hn]
  exact h

theorem stable_trace_related (cfg : JoystickDebounceConfig)
    (h2 : 2 ≤ cfg.stable_count_required) (h255 : cfg.stable_count_required ≤ 255)
    (samples : List (Nat × JoystickSample)) :
    ∀ (d : JoystickDebouncer) (f : RunFilter), d._config = cfg →
      filter_related cfg.stable_count_required d f →
      JoystickDebouncer.stable_trace d samples =
        RunFilter.trace cfg.stable_count_required f
          (samples.map (fun x => JoystickDebouncer.raw_direction
            (JoystickDebouncer.ctor.set_debounce_config cfg) x.2)) := by
  induction samples with
  | nil => intro d f _ _; rfl
  | cons x rest ih =>
    intro d f hcfg hrel
    obtain ⟨b1, b2, b3, b4⟩ :=
      update_button_direction_members d (x.1 % UINT32_MOD) (x.2.button_value % 256)
    have hraw : JoystickDebouncer.raw_direction
        (JoystickDebouncer.update_button d (x.1 % UINT32_MOD) (x.2.button_value % 256)) x.2
        = JoystickDebouncer.raw_direction
            (JoystickDebouncer.ctor.set_debounce_config cfg) x.2 :=
      raw_direction_config _ _ x.2 (by rw [b1, hcfg]; rfl)
    have hstep := update_direction_related cfg.stable_count_required
      (JoystickDebouncer.update_button d (x.1 % UINT32_MOD) (x.2.button_value % 256)) f
      (JoystickDebouncer.raw_direction
        (JoystickDebouncer.ctor.set_debounce_config cfg) x.2)
      (by rw [b1, hcfg]) h2 h255
      (filter_related_members _ _ _ f b2 b3 b4 hrel)
    have hupd : JoystickDebouncer.update d x.1 (some x.2)
        = JoystickDebouncer.update_direction
            (JoystickDebouncer.update_button d (x.1 % UINT32_MOD) (x.2.button_value % 256))
            (JoystickDebouncer.raw_direction
              (JoystickDebouncer.ctor.set_debounce_config cfg) x.2) := by
      simp only [JoystickDebouncer.update, hraw]
    simp only [JoystickDebouncer.stable_trace, List.map_cons, RunFilter.trace, hupd]
    rw [ih _ _ (by rw [update_direction_config, b1, hcfg]) hstep]
    have hstable : JoystickDebouncer.get_stable_direction
        (JoystickDebouncer.update_direction
          (JoystickDebouncer.update_button d (x.1 % UINT32_MOD) (x.2.button_value % 256))
          (JoystickDebouncer.raw_direction
            (JoystickDebouncer.ctor.set_debounce_config cfg) x.2))
        = (RunFilter.step cfg.stable_count_required f
            (JoystickDebouncer.raw_direction
              (JoystickDebouncer.ctor.set_debounce_config cfg) x.2)).stable := hstep.1
    rw [hstable]

/-- C18 as stated fails: with `stable_count_required = 1`, from the
constructed state, one sample classified `UP` is the first consecutive `UP`,
yet the stable direction is still `NONE` after it. -/
theorem single_sample_not_committed :
    JoystickDebouncer.raw_direction
      (JoystickDebouncer.ctor.set_debounce_config
        { JoystickDebouncer.default_config with stable_count_required := 1 })
      (pushed 0 (-3000)) = .UP ∧
    JoystickDebouncer.stable_trace
      (JoystickDebouncer.ctor.set_debounce_config
        { JoystickDebouncer.default_config with stable_count_required := 1 })
      [(0, pushed 0 (-3000))] = [.NONE] ∧
    RunFilter.trace 1 RunFilter.init [.UP] = [.UP] ∧
    ¬ (JoystickDebouncer.stable_trace
        (JoystickDebouncer.ctor.set_debounce_config
          { JoystickDebouncer.default_config with stable_count_required := 1 })
        [(0, pushed 0 (-3000))]
      = RunFilter.trace 1 RunFilter.init [.UP]) := by
  decide

/-- C18 amended. For a configuration with
`2 <= stable_count_required <= 255` and every sequence of samples fed to
`JoystickDebouncer::update` from the constructed state, the stable direction
after every tick is that of the run-length filter: it changes to a value `d`
different from the current stable direction exactly at the tick that
delivers the `stable_count_required`-th consecutive raw classification equal
to `d`. In particular, with the default 3, the samples classified
`[UP, UP, NONE, UP, UP, UP]` leave the stable direction `NONE` after indices
0 to 4 and `UP` after index 5. -/
theorem debouncer_commits_at_required_run (cfg : JoystickDebounceConfig)
    (samples : List (Nat × JoystickSample))
    (h2 : 2 ≤ cfg.stable_count_required) (h255 : cfg.stable_count_required ≤ 255) :
    JoystickDebouncer.stable_trace (JoystickDebouncer.ctor.set_debounce_config cfg)
        samples
      = RunFilter.trace cfg.stable_count_required RunFilter.init
          (samples.map (fun x => JoystickDebouncer.raw_direction
            (JoystickDebouncer.ctor.set_debounce_config cfg) x.2)) ∧
    [pushed 0 (-3000), pushed 0 (-3000), pushed 0 0, pushed 0 (-3000),
        pushed 0 (-3000), pushed 0 (-3000)].map
          (JoystickDebouncer.raw_direction JoystickDebouncer.ctor)
      = [.UP, .UP, .NONE, .UP, .UP, .UP] ∧
    JoystickDebouncer.stable_trace JoystickDebouncer.ctor
        [(0, pushed 0 (-3000)), (10, pushed 0 (-3000)), (20, pushed 0 0),
         (30, pushed 0 (-3000)), (40, pushed 0 (-3000)), (50, pushed 0 (-3000))]
      = [.NONE, .NONE, .NONE, .NONE, .NONE, .UP] := by
  refine ⟨?_, by decide, by decide⟩
  apply stable_trace_related cfg h2 h255 samples _ _ rfl
  unfold filter_related
  exact ⟨rfl, Or.inl ⟨rfl, Or.inl rfl⟩⟩

/-- Witness of `debouncer_commits_at_required_run`: the default
configuration on the samples classified `[UP, UP, DOWN, DOWN, DOWN]`. -/
theorem debouncer_commits_at_required_run_witness :
    JoystickDebouncer.stable_trace
        (JoystickDebouncer.ctor.set_debounce_config JoystickDebouncer.default_config)
        [(0, pushed 0 (-3000)), (10, pushed 0 (-3000)), (20, pushed 0 3000),
         (30, pushed 0 3000), (40, pushed 0 3000)]
      = RunFilter.trace JoystickDebouncer.default_config.stable_count_required
          RunFilter.init
          ([(0, pushed 0 (-3000)), (10, pushed 0 (-3000)), (20, pushed 0 3000),
            (30, pushed 0 3000), (40, pushed 0 3000)].map
              (fun x => JoystickDebouncer.raw_direction
                (JoystickDebouncer.ctor.set_debounce_config
                  JoystickDebouncer.default_config) x.2)) :=
  (debouncer_commits_at_required_run JoystickDebouncer.default_config
    [(0, pushed 0 (-3000)), (10, pushed 0 (-3000)), (20, pushed 0 3000),
     (30, pushed 0 3000), (40, pushed 0 3000)] (by decide) (by decide)).1

/-! ### Failed reads, debounce and the joystick button flag -/

/-- C21, the code at failed reads. `get_joy_adc_16bits_value_xy` substitutes
`(0, 0)`, not the centre, when the I2C read fails; with the default
configuration `JoystickDebouncer::update` classifies such a tick `UP`, and
three failed reads in a row change the stable direction from `NONE` to `UP`,
where the claim expects `NONE` throughout. The sibling
`get_joy_adc_16bits_value_xy_with_timeout` substitutes `(2048, 2048)`. -/
theorem failed_reads_classified_up :
    Joystick.get_joy_adc_16bits_value_xy none = (0, 0) ∧
    JoystickDebouncer.raw_direction JoystickDebouncer.ctor failed_read = .UP ∧
    JoystickDebouncer.stable_trace JoystickDebouncer.ctor
      [(0, failed_read), (10, failed_read), (20, failed_read)]
      = [.NONE, .NONE, .UP] ∧
    Joystick.get_joy_adc_16bits_value_xy_with_timeout none = ((2048, 2048), false) := by
  decide

/-- C23, the code at a rising edge inside the debounce time. With
`debounce_time_ms_ = 50` (and just the same after `set_debounce_time(1000)`)
the Up button is pressed at 1000 ms, held at 1600 ms where its long press is
handled, released at 1610 ms and sampled pressed again at 1620 ms, 10 ms
after the release: the edge is accepted, it records `press_time = 1620`,
clears `long_press_handled` and starts a press, where the claim expects it
to be ignored. -/
theorem rising_edge_inside_debounce_accepted :
    manager0.debounce_time_ms_ = 50 ∧
    (run manager0 [tick 1000 true false false, tick 1600 true false false,
        tick 1610 false false false]).1.up_button_
      = { pressed := false, last_pressed := false, press_time := 1000,
          release_time := 1610, long_press_handled := true } ∧
    (run manager0 [tick 1000 true false false, tick 1600 true false false,
        tick 1610 false false false, tick 1620 true false false]).1.up_button_
      = { pressed := true, last_pressed := true, press_time := 1620,
          release_time := 1610, long_press_handled := false } ∧
    (run (manager0.set_debounce_time 1000)
        [tick 1000 true false false, tick 1600 true false false,
         tick 1610 false false false, tick 1620 true false false]).1.up_button_
      = { pressed := true, last_pressed := true, press_time := 1620,
          release_time := 1610, long_press_handled := false } := by
  decide

/-- C24, the code at a bounce inside the debounce time. The constructed
`JoystickDebouncer` accepts a press at 1000 ms; at 1050 ms the button reads
released, which the 200 ms debounce rejects: `get_button_state()` did not
change during that call, yet `has_button_event()` is still true after it,
where the claim expects false. The button part of `Joystick::update` does
the same. -/
theorem button_event_flag_stays_set :
    (JoystickDebouncer.update JoystickDebouncer.ctor 1000
        (some pressed_at_rest)).get_button_state
      = .PRESSED ∧
    (JoystickDebouncer.update
      (JoystickDebouncer.update JoystickDebouncer.ctor 1000
        (some pressed_at_rest))
      1050 (some (pushed 0 0))).get_button_state = .PRESSED ∧
    (JoystickDebouncer.update
      (JoystickDebouncer.update JoystickDebouncer.ctor 1000
        (some pressed_at_rest))
      1050 (some (pushed 0 0))).has_button_event = true ∧
    (Joystick.update_button joystick0 1000 0).get_button_state = .PRESSED ∧
    (Joystick.update_button (Joystick.update_button joystick0 1000 0)
      1050 1).get_button_state = .PRESSED ∧
    (Joystick.update_button (Joystick.update_button joystick0 1000 0)
      1050 1).has_button_event = true := by
  decide

/-- C27, the code with a constructor argument other than 600. A handler
built with `long_press_ms = 300` has KEY1 held from 1000 ms: it is not
`LONG_PRESS` at 1300 ms nor at 1599 ms, only at 1600 ms. A handler built
with `long_press_ms = 1000` is `LONG_PRESS` at 1600 ms, 400 ms early, and
the release at 1700 ms yields no `SHORT_PRESS`. `update` compares with the
macro `NEW_BUTTON_LONG_PRESS_MS`, not with `long_press_ms_`. -/
theorem handler_ignores_constructor_long_press :
    (ButtonEventHandler.ctor 300 0).long_press_ms_ = 300 ∧
    ButtonEventHandler.key1_trace (ButtonEventHandler.ctor 300 0)
      [(1000, true), (1300, true), (1599, true), (1600, true)]
      = [.NONE, .NONE, .NONE, .LONG_PRESS] ∧
    (ButtonEventHandler.ctor 1000 0).long_press_ms_ = 1000 ∧
    ButtonEventHandler.key1_trace (ButtonEventHandler.ctor 1000 0)
      [(1000, true), (1300, true), (1600, true), (1700, false)]
      = [.NONE, .NONE, .LONG_PRESS, .LONG_PRESS] := by
  decide

/-! ### Offsets, gates and the mode switch of the adapter -/

theorem determine_direction_classifies_offsets (d : JoystickDebouncer)
    (cfg : JoystickDebounceConfig) (x_adc y_adc : Nat) :
    JoystickDebouncer.determine_direction d x_adc y_adc
      = classify_offsets d._config (axis_offset x_adc) (axis_offset y_adc) ∧
    Joystick.determine_direction cfg x_adc y_adc
      = classify_offsets cfg (axis_offset x_adc) (axis_offset y_adc) :=
  ⟨rfl, rfl⟩

/-- C25 as stated fails: for the raw value 65535 the offset used is -2049,
not 65535 - 2048 = 63487. -/
theorem offset_wraps_for_large_raw :
    axis_offset 65535 = -2049 ∧ ¬ axis_offset 65535 = 65535 - 2048 := by
  decide

/-- C25 amended. For every raw 16-bit value `r`, the offset that
`JoystickDebouncer::determine_direction` and `Joystick::determine_direction`
use for an axis is `r - 2048` when `r <= 34815`, which covers the 12-bit
range, and `r - 2048 - 65536` when `r >= 34816`. -/
theorem offset_of_raw (r : Nat) (hr : r ≤ 65535) :
    axis_offset r = (if r ≤ 34815 then (r : Int) - 2048 else (r : Int) - 2048 - 65536) ∧
    (∀ (d : JoystickDebouncer) (other : Nat),
      JoystickDebouncer.determine_direction d r other
        = classify_offsets d._config (axis_offset r) (axis_offset other) ∧
      JoystickDebouncer.determine_direction d other r
        = classify_offsets d._config (axis_offset other) (axis_offset r)) ∧
    (∀ (cfg : JoystickDebounceConfig) (other : Nat),
      Joystick.determine_direction cfg r other
        = classify_offsets cfg (axis_offset r) (axis_offset other) ∧
      Joystick.determine_direction cfg other r
        = classify_offsets cfg (axis_offset other) (axis_offset r)) := by
  refine ⟨?_, fun d other => ⟨rfl, rfl⟩, fun cfg other => ⟨rfl, rfl⟩⟩
  unfold axis_offset to_int16
  split <;> omega

/-- Witness of `offset_of_raw`: the raw value 5048 has offset 3000. -/
theorem offset_of_raw_witness : axis_offset 5048 = 3000 :=
  (offset_of_raw 5048 (by decide)).1

theorem button_step_call (lp : Nat) (su lu : ButtonFunction) (pin : Nat)
    (s : ButtonState) (tk : TickInput) :
    (button_step lp su lu pin s tk).2 = none ∨
    (button_step lp su lu pin s tk).2 = some (function_to_event lu) := by
  unfold button_step process_button_event
  simp only [update_button_state_pressed, update_button_state_last_pressed]
  cases read_button_gpio tk.gpio_get pin
  · left
    simp
  · simp only [if_true]
    split
    · right; rfl
    · left; rfl

theorem accepted_of_call (b : Button) (e : EnhancedButtonEvent)
    (call : Option EnhancedButtonEvent) (h : call = none ∨ call = some e) :
    ∀ f ∈ accepted b call, f = { button := b, event := e } := by
  intro f hf
  rcases h with h | h
  · subst h
    simp [accepted] at hf
  · subst h
    simp only [accepted] at hf
    split at hf
    · simpa using hf
    · simp at hf

theorem update_only_long_press (m : EnhancedButtonManager) (tk : TickInput) :
    ∀ f ∈ (update m tk).2,
      f = { button := .up, event := function_to_event m.current_mapping_.long_press_up } ∨
      f = { button := .down,
            event := function_to_event m.current_mapping_.long_press_down } := by
  intro f hf
  rw [update_events, List.mem_append] at hf
  rcases hf with hf | hf
  · exact Or.inl (accepted_of_call _ _ _ (button_step_call _ _ _ _ _ _) f hf)
  · exact Or.inr (accepted_of_call _ _ _ (button_step_call _ _ _ _ _ _) f hf)

/-- C28. After `update_button_state` the members `pressed` and
`last_pressed` are equal, for every sample and prior state; and over every
sequence of `update` calls every triggered event is the long-press event of
Up or of Down in the current mapping. -/
theorem only_long_press_events :
    (∀ (s : ButtonState) (gpio_get : Nat → Bool) (pin t : Nat),
      (update_button_state s gpio_get pin t).pressed
        = (update_button_state s gpio_get pin t).last_pressed) ∧
    ∀ (ticks : List TickInput) (m : EnhancedButtonManager),
      ∀ fs ∈ (run m ticks).2, ∀ f ∈ fs,
        f = { button := .up,
              event := function_to_event m.current_mapping_.long_press_up } ∨
        f = { button := .down,
              event := function_to_event m.current_mapping_.long_press_down } := by
  constructor
  · intro s g pin t
    rw [update_button_state_pressed, update_button_state_last_pressed]
  · intro ticks
    induction ticks with
    | nil =>
      intro m fs hfs
      simp [run] at hfs
    | cons tk rest ih =>
      intro m fs hfs f hf
      simp only [run, List.mem_cons] at hfs
      rcases hfs with hfs | hfs
      · subst hfs
        exact update_only_long_press m tk f hf
      · have h := ih (update m tk).1 fs hfs f hf
        rw [update_current_mapping] at h
        exact h

/-- C29. `ButtonSystemAdapter::set_app_mode(mode)` with a mode other than
the current one sets `last_event_time_` to 0 and the remembered joystick
direction and button to `NONE` and `RELEASED`, so that an event other than
`NONE` generated at a clock value `now >= repeat_delay_ms` is delivered,
whenever the previous delivery was; and `set_app_mode` with the current
mode changes nothing. -/
theorem adapter_mode_switch_opens_gate (a : ButtonSystemAdapter) (mode : AppMode)
    (e : UnifiedInputEvent) (now : Nat)
    (hmode : a.current_app_mode_ ≠ mode) (he : e ≠ .NONE)
    (hnow : a.repeat_delay_ms_ ≤ now) (hu32 : now < UINT32_MOD) :
    (a.set_app_mode mode).last_event_time_ = 0 ∧
    (a.set_app_mode mode).last_joystick_direction_ = .NONE ∧
    (a.set_app_mode mode).last_joystick_button_ = .RELEASED ∧
    (ButtonSystemAdapter.trigger_unified_event (a.set_app_mode mode) e now).2 = [e] ∧
    a.set_app_mode a.current_app_mode_ = a := by
  have hset : a.set_app_mode mode =
      { a with current_app_mode_ := mode,
               button_manager_ := a.button_manager_.set_app_mode mode,
               last_joystick_direction_ := .NONE,
               last_joystick_button_ := .RELEASED,
               last_event_time_ := 0 } := by
    simp [ButtonSystemAdapter.set_app_mode, hmode]
  have hsub : sub_u32 now 0 = now := by
    unfold sub_u32
    unfold UINT32_MOD at *
    omega
  refine ⟨by rw [hset], by rw [hset], by rw [hset], ?_, ?_⟩
  · rw [hset, trigger_unified_event_open _ e now he]
    simp [ButtonSystemAdapter.can_trigger_event, hsub, hnow]
  · simp [ButtonSystemAdapter.set_app_mode]

/-- Witness of `adapter_mode_switch_opens_gate`: the fresh adapter delivers
`CONFIRM` at 1000 ms, is switched to `FILE_LIST`, and delivers `CANCEL` at
1050 ms, 50 ms after the previous delivery. -/
theorem adapter_mode_switch_opens_gate_witness :
    (ButtonSystemAdapter.trigger_unified_event
      ((ButtonSystemAdapter.trigger_unified_event adapter0 .CONFIRM 1000).1.set_app_mode
        .FILE_LIST) .CANCEL 1050).2 = [.CANCEL] :=
  (adapter_mode_switch_opens_gate
    (ButtonSystemAdapter.trigger_unified_event adapter0 .CONFIRM 1000).1 .FILE_LIST
    .CANCEL 1050 (by decide) (by decide) (by decide) (by decide)).2.2.2.1

/-- C30. For a configuration with `deadzone <= threshold`,
`JoystickDebouncer::determine_direction` returns on every sample what it
returns with the deadzone check removed; and
`JoystickController::determineDirection` returns on every pair of offsets
and for every threshold what it returns with the check against 80 % of the
threshold removed. -/
theorem deadzone_gate_subsumed (d : JoystickDebouncer) (x_adc y_adc : Nat)
    (hle : d._config.deadzone ≤ d._config.threshold)
    (hu16 : d._config.threshold < 65536) :
    JoystickDebouncer.determine_direction d x_adc y_adc
      = determine_direction_without_deadzone d x_adc y_adc ∧
    ∀ (c : JoystickController) (offset_x offset_y : Int),
      JoystickController.determineDirection c offset_x offset_y
        = determineDirection_without_deadzone c offset_x offset_y := by
  constructor
  · unfold JoystickDebouncer.determine_direction determine_direction_without_deadzone
    simp only []
    have h1 : d._config.deadzone % 65536 = d._config.deadzone := by omega
    have h2 : d._config.threshold % 65536 = d._config.threshold := by omega
    rw [h1, h2]
    by_cases hdz : |to_int16 (to_int16 (x_adc % 65536 : Nat) - 2048)| < (d._config.deadzone : Int) ∧
        |to_int16 (to_int16 (y_adc % 65536 : Nat) - 2048)| < (d._config.deadzone : Int)
    · have hth : |to_int16 (to_int16 (x_adc % 65536 : Nat) - 2048)|
            < (d._config.threshold : Int) ∧
          |to_int16 (to_int16 (y_adc % 65536 : Nat) - 2048)|
            < (d._config.threshold : Int) := by
        have hc : (d._config.deadzone : Int) ≤ (d._config.threshold : Int) := by
          exact_mod_cast hle
        exact ⟨lt_of_lt_of_le hdz.1 hc, lt_of_lt_of_le hdz.2 hc⟩
      rw [if_pos hdz, if_pos hth]
    · rw [if_neg hdz]
  · intro c offset_x offset_y
    unfold JoystickController.determineDirection determineDirection_without_deadzone
    simp only []
    by_cases hth : to_int16 |to_int16 offset_x| < (c.threshold_ : Int) ∧
        to_int16 |to_int16 offset_y| < (c.threshold_ : Int)
    · rw [if_pos hth, if_pos hth]
    · rw [if_neg hth, if_neg hth]
      have hno : ¬ (lt_times (to_int16 |to_int16 offset_x|) (c.threshold_ : Int)
            { num := 4, den := 5 } = true ∧
          lt_times (to_int16 |to_int16 offset_y|) (c.threshold_ : Int)
            { num := 4, den := 5 } = true) := by
        intro h
        apply hth
        simp only [lt_times, decide_eq_true_eq] at h
        have hnn : (0 : Int) ≤ (c.threshold_ : Int) := Int.ofNat_nonneg _
        constructor
        · have := h.1
          push_cast at this
          omega
        · have := h.2
          push_cast at this
          omega
      rw [if_neg hno]

/-- Witness of `deadzone_gate_subsumed`: the constructed debouncer
(deadzone 1000, threshold 1800) on the raw sample `(3000, 2048)`. -/
theorem deadzone_gate_subsumed_witness :
    JoystickDebouncer.determine_direction JoystickDebouncer.ctor 3000 2048
      = determine_direction_without_deadzone JoystickDebouncer.ctor 3000 2048 :=
  (deadzone_gate_subsumed JoystickDebouncer.ctor 3000 2048 (by decide) (by decide)).1

/-! ### The bounded retry of `Joystick::update` -/

theorem sub_u32_elapsed (c e : Nat) (he : e < UINT32_MOD) :
    sub_u32 ((c + e) % UINT32_MOD) (c % UINT32_MOD) = e := by
  unfold sub_u32
  unfold UINT32_MOD at *
  omega

/-- The retry loop entered with `e` ms elapsed and `made` attempts made, on a
script that lasts until the 10 ms are over: it returns, and it returns the
first successful read if that one starts before the 10 ms are over, the
centre otherwise, having stopped at the first loop test that finds 10 ms
elapsed. -/
theorem retry_loop_bounded (c : Nat) (script : List ReadAttempt) :
    ∀ (e made : Nat), made ≤ e → made ≤ 10 → 10 ≤ e + script.length →
      (∀ a ∈ script, a.result = none → 1 ≤ a.elapsed_ms) →
      e + ((script.take (10 - made)).map ReadAttempt.elapsed_ms).sum < UINT32_MOD →
      ∃ r, Joystick.retry_loop (c % UINT32_MOD) script (c + e) made = some r ∧
        r.attempts ≤ 10 ∧
        ((∃ pre a post x y, script = pre ++ a :: post ∧
            (∀ b ∈ pre, b.result = none) ∧ a.result = some (x, y) ∧
            e + (pre.map ReadAttempt.elapsed_ms).sum < 10 ∧
            r = { x_adc := x % 65536, y_adc := y % 65536, adc_read_success := true,
                  attempts := made + pre.length + 1 }) ∨
         (10 ≤ e ∧
            r = { x_adc := 2048, y_adc := 2048, adc_read_success := false,
                  attempts := made }) ∨
         (∃ pre last post, script = pre ++ last :: post ∧
            (∀ b ∈ pre, b.result = none) ∧ last.result = none ∧
            e + (pre.map ReadAttempt.elapsed_ms).sum < 10 ∧
            10 ≤ e + (pre.map ReadAttempt.elapsed_ms).sum + last.elapsed_ms ∧
            r = { x_adc := 2048, y_adc := 2048, adc_read_success := false,
                  attempts := made + pre.length + 1 })) := by
  induction script with
  | nil =>
    intro e made hme hm10 hlen _ hwrap
    have he : e < UINT32_MOD := by simpa using hwrap
    have h10 : ¬ e < 10 := by simpa using hlen
    refine ⟨_, ?_, hm10, Or.inr (Or.inl ⟨by omega, rfl⟩)⟩
    simp [Joystick.retry_loop, sub_u32_elapsed c e he, h10]
  | cons a rest ih =>
    intro e made hme hm10 hlen hadv hwrap
    have he : e < UINT32_MOD := by omega
    by_cases h10 : e < 10
    · cases hres : a.result with
      | some xy =>
        obtain ⟨x, y⟩ := xy
        refine ⟨{ x_adc := x % 65536, y_adc := y % 65536, adc_read_success := true,
                  attempts := made + 1 }, ?_, by simp; omega,
          Or.inl ⟨[], a, rest, x, y, rfl, by simp, hres, by simpa using h10, by simp⟩⟩
        simp [Joystick.retry_loop, sub_u32_elapsed c e he, h10, hres,
          Joystick.get_joy_adc_16bits_value_xy_with_timeout]
      | none =>
        have hadv1 : 1 ≤ a.elapsed_ms := hadv a (List.mem_cons_self _ _) hres
        have htake : (a :: rest).take (10 - made) = a :: rest.take (10 - (made + 1)) := by
          have : 10 - made = (10 - (made + 1)) + 1 := by omega
          rw [this, List.take_succ_cons]
        rw [htake] at hwrap
        simp only [List.map_cons, List.sum_cons] at hwrap
        have hlen2 : 10 ≤ e + a.elapsed_ms + rest.length := by
          simp only [List.length_cons] at hlen
          omega
        obtain ⟨r, hr, hr10, hcase⟩ := ih (e + a.elapsed_ms) (made + 1) (by omega)
          (by omega) hlen2 (fun b hb => hadv b (List.mem_cons_of_mem _ hb)) (by omega)
        refine ⟨r, ?_, hr10, ?_⟩
        · have hloop : Joystick.retry_loop (c % UINT32_MOD) (a :: rest) (c + e) made
              = Joystick.retry_loop (c % UINT32_MOD) rest (c + e + a.elapsed_ms)
                  (made + 1) := by
            simp [Joystick.retry_loop, sub_u32_elapsed c e he, h10, hres,
              Joystick.get_joy_adc_16bits_value_xy_with_timeout]
          rw [hloop, ← hr, Nat.add_assoc]
        · rcases hcase with ⟨pre, b, post, x, y, hsplit, hpre, hb, hsum, hrr⟩ |
            ⟨hover, hrr⟩ | ⟨pre, last, post, hsplit, hpre, hlast, hsum, hover, hrr⟩
          · refine Or.inl ⟨a :: pre, b, post, x, y, by simp [hsplit], ?_, hb, ?_, ?_⟩
            · intro z hz
              rcases List.mem_cons.mp hz with hz | hz
              · rw [hz]; exact hres
              · exact hpre z hz
            · simp only [List.map_cons, List.sum_cons]
              omega
            · rw [hrr]
              simp only [List.length_cons]
              congr 1
              omega
          · refine Or.inr (Or.inr ⟨[], a, rest, rfl, by simp, hres, by simpa using h10,
              by simpa using hover, ?_⟩)
            rw [hrr]
            simp
          · refine Or.inr (Or.inr ⟨a :: pre, last, post, by simp [hsplit], ?_, hlast,
              ?_, ?_, ?_⟩)
            · intro z hz
              rcases List.mem_cons.mp hz with hz | hz
              · rw [hz]; exact hres
              · exact hpre z hz
            · simp only [List.map_cons, List.sum_cons]
              omega
            · simp only [List.map_cons, List.sum_cons]
              omega
            · rw [hrr]
              simp only [List.length_cons]
              congr 1
              omega
    · refine ⟨_, ?_, hm10, Or.inr (Or.inl ⟨by omega, rfl⟩)⟩
      simp [Joystick.retry_loop, sub_u32_elapsed c e he, h10]

theorem centre_classified_none (cfg : JoystickDebounceConfig)
    (hdz : cfg.deadzone < 65536) (hth : cfg.threshold < 65536)
    (hpos : 0 < cfg.deadzone ∨ 0 < cfg.threshold) :
    Joystick.determine_direction cfg 2048 2048 = .NONE := by
  have h1 : cfg.deadzone % 65536 = cfg.deadzone := by omega
  have h2 : cfg.threshold % 65536 = cfg.threshold := by omega
  have hx : to_int16 (to_int16 ((2048 % 65536 : Nat) : Int) - 2048) = 0 := by decide
  unfold Joystick.determine_direction
  simp only [h1, h2, hx, abs_zero]
  rcases hpos with h | h
  · have : (0 : Int) < (cfg.deadzone : Int) := by exact_mod_cast h
    simp [this]
  · have : (0 : Int) < (cfg.threshold : Int) := by exact_mod_cast h
    simp [this]

/-- The retry loop reaches the first successful read when the failed reads
before it take less than 10 ms together, stops there and returns what that
read returned. -/
theorem retry_loop_stops_at_success (c : Nat) (a : ReadAttempt) (post : List ReadAttempt)
    (x y : Nat) (ha : a.result = some (x, y)) :
    ∀ (pre : List ReadAttempt) (e made : Nat), (∀ b ∈ pre, b.result = none) →
      e + (pre.map ReadAttempt.elapsed_ms).sum < 10 →
      Joystick.retry_loop (c % UINT32_MOD) (pre ++ a :: post) (c + e) made
        = some { x_adc := x % 65536, y_adc := y % 65536, adc_read_success := true,
                 attempts := made + pre.length + 1 } := by
  intro pre
  induction pre with
  | nil =>
    intro e made _ hsum
    have h10 : e < 10 := by simpa using hsum
    have he : e < UINT32_MOD := by unfold UINT32_MOD; omega
    simp [Joystick.retry_loop, sub_u32_elapsed c e he, h10, ha,
      Joystick.get_joy_adc_16bits_value_xy_with_timeout]
  | cons p rest ih =>
    intro e made hfail hsum
    simp only [List.map_cons, List.sum_cons] at hsum
    have h10 : e < 10 := by omega
    have he : e < UINT32_MOD := by unfold UINT32_MOD; omega
    have hp : p.result = none := hfail p (List.mem_cons_self _ _)
    have hloop : Joystick.retry_loop (c % UINT32_MOD) (p :: rest ++ a :: post) (c + e) made
        = Joystick.retry_loop (c % UINT32_MOD) (rest ++ a :: post) (c + e + p.elapsed_ms)
            (made + 1) := by
      simp [Joystick.retry_loop, sub_u32_elapsed c e he, h10, hp,
        Joystick.get_joy_adc_16bits_value_xy_with_timeout]
    rw [hloop, Nat.add_assoc, ih (e + p.elapsed_ms) (made + 1)
      (fun b hb => hfail b (List.mem_cons_of_mem _ hb)) (by omega)]
    simp only [List.length_cons]
    congr 2
    omega

theorem failed_reads_counted (pre : List ReadAttempt)
    (hadv : ∀ a ∈ pre, a.result = none → 1 ≤ a.elapsed_ms)
    (hfail : ∀ b ∈ pre, b.result = none) :
    pre.length ≤ (pre.map ReadAttempt.elapsed_ms).sum := by
  induction pre with
  | nil => simp
  | cons p rest ih =>
    have h1 := hadv p (List.mem_cons_self _ _) (hfail p (List.mem_cons_self _ _))
    have h2 := ih (fun a ha => hadv a (List.mem_cons_of_mem _ ha))
      (fun b hb => hfail b (List.mem_cons_of_mem _ hb))
    simp only [List.length_cons, List.map_cons, List.sum_cons]
    omega

/-- C22. The read of `Joystick::update` is given a script of read attempts
of which at least ten are available, every failed one advancing the clock
by at least 1 ms, the clock not wrapping during the first ten. Then the
retry loop returns after at most ten attempts, and its result is one of
two. Either the first successful attempt of the script starts before 10 ms
have elapsed: the loop stops at it, having made the failed attempts before
it and no other, and the sample classified is the one that attempt
returned. Or the attempts made all failed, the last of them started before
10 ms had elapsed and ended when they had, and the sample classified is
`(2048, 2048)`. `update` classifies exactly that sample. Whenever the first
successful attempt starts before 10 ms have elapsed, the result is the
first of the two. And `determine_direction` maps `(2048, 2048)` to `NONE`
for every configuration with `deadzone > 0` or `threshold > 0`. -/
theorem retry_bounded_and_neutral (clock_ms : Nat) (script : List ReadAttempt)
    (hlen : 10 ≤ script.length)
    (hadv : ∀ a ∈ script, a.result = none → 1 ≤ a.elapsed_ms)
    (hwrap : ((script.take 10).map ReadAttempt.elapsed_ms).sum < UINT32_MOD) :
    (∃ r, Joystick.read_with_retry clock_ms script = some r ∧
      r.attempts ≤ 10 ∧
      ((∃ pre a post x y, script = pre ++ a :: post ∧
          (∀ b ∈ pre, b.result = none) ∧ a.result = some (x, y) ∧
          (pre.map ReadAttempt.elapsed_ms).sum < 10 ∧
          r = { x_adc := x % 65536, y_adc := y % 65536, adc_read_success := true,
                attempts := pre.length + 1 }) ∨
       (∃ pre last post, script = pre ++ last :: post ∧
          (∀ b ∈ pre, b.result = none) ∧ last.result = none ∧
          (pre.map ReadAttempt.elapsed_ms).sum < 10 ∧
          10 ≤ (pre.map ReadAttempt.elapsed_ms).sum + last.elapsed_ms ∧
          r = { x_adc := 2048, y_adc := 2048, adc_read_success := false,
                attempts := pre.length + 1 })) ∧
      ∀ (j : Joystick) (t button_value : Nat),
        Joystick.update j t button_value clock_ms script
          = some (Joystick.update_direction
              (Joystick.update_button j (t % UINT32_MOD) (button_value % 256))
              (t % UINT32_MOD)
              (Joystick.determine_direction
                (Joystick.update_button j (t % UINT32_MOD)
                  (button_value % 256))._debounce_config r.x_adc r.y_adc))) ∧
    (∀ (pre : List ReadAttempt) (a : ReadAttempt) (post : List ReadAttempt) (x y : Nat),
      script = pre ++ a :: post → (∀ b ∈ pre, b.result = none) →
      a.result = some (x, y) → (pre.map ReadAttempt.elapsed_ms).sum < 10 →
      pre.length + 1 ≤ 10 ∧
      Joystick.read_with_retry clock_ms script
        = some { x_adc := x % 65536, y_adc := y % 65536, adc_read_success := true,
                 attempts := pre.length + 1 }) ∧
    ∀ cfg : JoystickDebounceConfig, cfg.deadzone < 65536 → cfg.threshold < 65536 →
      (0 < cfg.deadzone ∨ 0 < cfg.threshold) →
      Joystick.determine_direction cfg 2048 2048 = .NONE := by
  refine ⟨?_, ?_, fun cfg h1 h2 h3 => centre_classified_none cfg h1 h2 h3⟩
  · obtain ⟨r, hr, hr10, hcase⟩ := retry_loop_bounded clock_ms script 0 0 (le_refl _)
      (by omega) (by omega) hadv (by simpa using hwrap)
    have hread : Joystick.read_with_retry clock_ms script = some r := by
      unfold Joystick.read_with_retry
      simpa using hr
    refine ⟨r, hread, hr10, ?_, ?_⟩
    · rcases hcase with h | ⟨h, _⟩ | h
      · left
        simpa using h
      · omega
      · right
        simpa using h
    · intro j t button_value
      simp only [Joystick.update, hread]
  · intro pre a post x y hsplit hfail ha hsum
    have hcount := failed_reads_counted pre
      (fun b hb => hadv b (by rw [hsplit]; exact List.mem_append_left _ hb)) hfail
    refine ⟨by omega, ?_⟩
    have h := retry_loop_stops_at_success clock_ms a post x y ha pre 0 0 hfail
      (by simpa using hsum)
    unfold Joystick.read_with_retry
    rw [hsplit]
    simpa using h

/-- Witness of `retry_bounded_and_neutral`. Twelve failing attempts of 1 ms
each, read from clock value 5: the loop returns after at most ten attempts.
Two failing attempts of 1 ms followed by one that reads `(3000, 2048)`: the
loop stops at the third attempt and returns that sample. -/
theorem retry_bounded_and_neutral_witness :
    (∃ r, Joystick.read_with_retry 5
        (List.replicate 12 { result := none, elapsed_ms := 1 }) = some r ∧
      r.attempts ≤ 10) ∧
    Joystick.read_with_retry 5
      ([{ result := none, elapsed_ms := 1 }, { result := none, elapsed_ms := 1 }]
        ++ { result := some (3000, 2048), elapsed_ms := 1 }
          :: List.replicate 9 { result := none, elapsed_ms := 1 })
      = some { x_adc := 3000, y_adc := 2048, adc_read_success := true, attempts := 3 } :=
  ⟨match (retry_bounded_and_neutral 5
      (List.replicate 12 { result := none, elapsed_ms := 1 })
      (by decide) (by decide) (by decide)).1 with
    | ⟨r, h1, h2, _⟩ => ⟨r, h1, h2⟩,
   ((retry_bounded_and_neutral 5
      ([{ result := none, elapsed_ms := 1 }, { result := none, elapsed_ms := 1 }]
        ++ { result := some (3000, 2048), elapsed_ms := 1 }
          :: List.replicate 9 { result := none, elapsed_ms := 1 })
      (by decide) (by decide) (by decide)).2.1
      [{ result := none, elapsed_ms := 1 }, { result := none, elapsed_ms := 1 }]
      { result := some (3000, 2048), elapsed_ms := 1 }
      (List.replicate 9 { result := none, elapsed_ms := 1 }) 3000 2048
      rfl (by decide) rfl (by decide)).2⟩

/-! ### `ButtonManager`: one event per press-release cycle of a page key -/

theorem poll_eq (s : ButtonManager) (tk : TickInput) :
    ButtonManager.poll s tk
      = ({ ButtonManager.update s tk with pending_event_ := .NONE },
          (ButtonManager.update s tk).pending_event_) :=
  rfl

theorem page_up_stage_up (s : ButtonManager) (cur : Bool) (now : Nat) :
    ((ButtonManager.page_up_stage s cur now).2 = true →
      ((ButtonManager.page_up_stage s cur now).1.pending_event_ = .PAGE_UP_LONG ∧
        cur = true ∧ s.last_page_up_state_ = true ∧
        s.page_up_long_press_handled_ = false ∧
        (ButtonManager.page_up_stage s cur now).1.page_up_long_press_handled_ = true ∧
        (ButtonManager.page_up_stage s cur now).1.last_page_up_state_ = true) ∨
      ((ButtonManager.page_up_stage s cur now).1.pending_event_ = .PAGE_UP ∧
        cur = false ∧ s.last_page_up_state_ = true ∧
        s.page_up_long_press_handled_ = false ∧
        (ButtonManager.page_up_stage s cur now).1.page_up_long_press_handled_ = false ∧
        (ButtonManager.page_up_stage s cur now).1.last_page_up_state_ = false)) ∧
    ((ButtonManager.page_up_stage s cur now).2 = false →
      (ButtonManager.page_up_stage s cur now).1.pending_event_ = s.pending_event_ ∧
      (ButtonManager.page_up_stage s cur now).1.last_page_up_state_
        = s.last_page_up_state_ ∧
      ((ButtonManager.page_up_stage s cur now).1.page_up_long_press_handled_
          = s.page_up_long_press_handled_ ∨
        (cur = true ∧ s.last_page_up_state_ = false ∧
          (ButtonManager.page_up_stage s cur now).1.page_up_long_press_handled_
            = false))) := by
  unfold ButtonManager.page_up_stage
  cases cur <;> cases hl : s.last_page_up_state_ <;>
    cases hh : s.page_up_long_press_handled_ <;> simp [hl, hh]
  split <;> simp [hl, hh]

theorem page_down_stage_down (s : ButtonManager) (cur : Bool) (now : Nat) :
    ((ButtonManager.page_down_stage s cur now).2 = true →
      ((ButtonManager.page_down_stage s cur now).1.pending_event_ = .PAGE_DOWN_LONG ∧
        cur = true ∧ s.last_page_down_state_ = true ∧
        s.page_down_long_press_handled_ = false ∧
        (ButtonManager.page_down_stage s cur now).1.page_down_long_press_handled_
          = true ∧
        (ButtonManager.page_down_stage s cur now).1.last_page_down_state_ = true) ∨
      ((ButtonManager.page_down_stage s cur now).1.pending_event_ = .PAGE_DOWN ∧
        cur = false ∧ s.last_page_down_state_ = true ∧
        s.page_down_long_press_handled_ = false ∧
        (ButtonManager.page_down_stage s cur now).1.page_down_long_press_handled_
          = false ∧
        (ButtonManager.page_down_stage s cur now).1.last_page_down_state_ = false)) ∧
    ((ButtonManager.page_down_stage s cur now).2 = false →
      (ButtonManager.page_down_stage s cur now).1.pending_event_ = s.pending_event_ ∧
      (ButtonManager.page_down_stage s cur now).1.last_page_down_state_
        = s.last_page_down_state_ ∧
      ((ButtonManager.page_down_stage s cur now).1.page_down_long_press_handled_
          = s.page_down_long_press_handled_ ∨
        (cur = true ∧ s.last_page_down_state_ = false ∧
          (ButtonManager.page_down_stage s cur now).1.page_down_long_press_handled_
            = false))) := by
  unfold ButtonManager.page_down_stage
  cases cur <;> cases hl : s.last_page_down_state_ <;>
    cases hh : s.page_down_long_press_handled_ <;> simp [hl, hh]
  split <;> simp [hl, hh]

theorem page_up_stage_frame (s : ButtonManager) (cur : Bool) (now : Nat) :
    (ButtonManager.page_up_stage s cur now).1.last_page_down_state_
      = s.last_page_down_state_ ∧
    (ButtonManager.page_up_stage s cur now).1.page_down_long_press_handled_
      = s.page_down_long_press_handled_ ∧
    (ButtonManager.page_up_stage s cur now).1.page_down_press_start_time_
      = s.page_down_press_start_time_ ∧
    (ButtonManager.page_up_stage s cur now).1.page_up_pin_ = s.page_up_pin_ ∧
    (ButtonManager.page_up_stage s cur now).1.page_down_pin_ = s.page_down_pin_ ∧
    (ButtonManager.page_up_stage s cur now).1.screen_power_pin_ = s.screen_power_pin_ ∧
    (ButtonManager.page_up_stage s cur now).1.long_press_time_ms_
      = s.long_press_time_ms_ ∧
    (ButtonManager.page_up_stage s cur now).1.debounce_time_ms_ = s.debounce_time_ms_ ∧
    (ButtonManager.page_up_stage s cur now).1.last_screen_power_state_
      = s.last_screen_power_state_ := by
  unfold ButtonManager.page_up_stage
  simp only []
  split_ifs <;> simp

theorem page_down_stage_frame (s : ButtonManager) (cur : Bool) (now : Nat) :
    (ButtonManager.page_down_stage s cur now).1.last_page_up_state_
      = s.last_page_up_state_ ∧
    (ButtonManager.page_down_stage s cur now).1.page_up_long_press_handled_
      = s.page_up_long_press_handled_ ∧
    (ButtonManager.page_down_stage s cur now).1.page_up_press_start_time_
      = s.page_up_press_start_time_ ∧
    (ButtonManager.page_down_stage s cur now).1.page_up_pin_ = s.page_up_pin_ ∧
    (ButtonManager.page_down_stage s cur now).1.page_down_pin_ = s.page_down_pin_ ∧
    (ButtonManager.page_down_stage s cur now).1.screen_power_pin_
      = s.screen_power_pin_ ∧
    (ButtonManager.page_down_stage s cur now).1.long_press_time_ms_
      = s.long_press_time_ms_ ∧
    (ButtonManager.page_down_stage s cur now).1.debounce_time_ms_
      = s.debounce_time_ms_ ∧
    (ButtonManager.page_down_stage s cur now).1.last_screen_power_state_
      = s.last_screen_power_state_ := by
  unfold ButtonManager.page_down_stage
  simp only []
  split_ifs <;> simp

theorem screen_stage_frame (s : ButtonManager) (cur : Bool) (now : Nat) :
    (ButtonManager.screen_stage s cur now).1.last_page_up_state_
      = s.last_page_up_state_ ∧
    (ButtonManager.screen_stage s cur now).1.page_up_long_press_handled_
      = s.page_up_long_press_handled_ ∧
    (ButtonManager.screen_stage s cur now).1.page_up_press_start_time_
      = s.page_up_press_start_time_ ∧
    (ButtonManager.screen_stage s cur now).1.last_page_down_state_
      = s.last_page_down_state_ ∧
    (ButtonManager.screen_stage s cur now).1.page_down_long_press_handled_
      = s.page_down_long_press_handled_ ∧
    (ButtonManager.screen_stage s cur now).1.page_down_press_start_time_
      = s.page_down_press_start_time_ ∧
    (ButtonManager.screen_stage s cur now).1.page_up_pin_ = s.page_up_pin_ ∧
    (ButtonManager.screen_stage s cur now).1.page_down_pin_ = s.page_down_pin_ ∧
    (ButtonManager.screen_stage s cur now).1.screen_power_pin_ = s.screen_power_pin_ ∧
    (ButtonManager.screen_stage s cur now).1.long_press_time_ms_
      = s.long_press_time_ms_ ∧
    (ButtonManager.screen_stage s cur now).1.debounce_time_ms_ = s.debounce_time_ms_ ∧
    ((ButtonManager.screen_stage s cur now).2 = true →
      (ButtonManager.screen_stage s cur now).1.pending_event_ = .SCREEN_POWER_TOGGLE) ∧
    ((ButtonManager.screen_stage s cur now).2 = false →
      (ButtonManager.screen_stage s cur now).1.pending_event_ = s.pending_event_) := by
  unfold ButtonManager.screen_stage
  simp only []
  split_ifs <;> simp

theorem poll_key_ok (s : ButtonManager) (tk : TickInput) (k : PageKey)
    (hp : s.pending_event_ = .NONE) :
    key_poll_ok (s.key_sampled k tk) (s.key_last k) (s.key_handled k)
      (decide ((ButtonManager.poll s tk).2 = long_event k))
      (decide ((ButtonManager.poll s tk).2 = short_event k))
      ((ButtonManager.poll s tk).1.key_last k)
      ((ButtonManager.poll s tk).1.key_handled k) ∧
    (ButtonManager.poll s tk).1.pending_event_ = .NONE ∧
    (ButtonManager.poll s tk).1.key_pin k = s.key_pin k := by
  rw [poll_eq]
  have hsc := screen_stage_frame s
    (ButtonManager.readButtonState tk.gpio_get s.screen_power_pin_) tk.now
  have hupf := page_up_stage_frame
    (ButtonManager.screen_stage s
      (ButtonManager.readButtonState tk.gpio_get s.screen_power_pin_) tk.now).1
    (ButtonManager.readButtonState tk.gpio_get s.page_up_pin_) tk.now
  have hup := page_up_stage_up
    (ButtonManager.screen_stage s
      (ButtonManager.readButtonState tk.gpio_get s.screen_power_pin_) tk.now).1
    (ButtonManager.readButtonState tk.gpio_get s.page_up_pin_) tk.now
  have hdnf := page_down_stage_frame
    (ButtonManager.page_up_stage (ButtonManager.screen_stage s
      (ButtonManager.readButtonState tk.gpio_get s.screen_power_pin_) tk.now).1
      (ButtonManager.readButtonState tk.gpio_get s.page_up_pin_) tk.now).1
    (ButtonManager.readButtonState tk.gpio_get s.page_down_pin_) tk.now
  have hdn := page_down_stage_down
    (ButtonManager.page_up_stage (ButtonManager.screen_stage s
      (ButtonManager.readButtonState tk.gpio_get s.screen_power_pin_) tk.now).1
      (ButtonManager.readButtonState tk.gpio_get s.page_up_pin_) tk.now).1
    (ButtonManager.readButtonState tk.gpio_get s.page_down_pin_) tk.now
  unfold ButtonManager.update
  simp only [hp, ne_eq, not_true_eq_false, if_false]
  generalize ButtonManager.screen_stage s
      (ButtonManager.readButtonState tk.gpio_get s.screen_power_pin_) tk.now = sc at *
  generalize ButtonManager.page_up_stage sc.1
      (ButtonManager.readButtonState tk.gpio_get s.page_up_pin_) tk.now = up at *
  generalize ButtonManager.page_down_stage up.1
      (ButtonManager.readButtonState tk.gpio_get s.page_down_pin_) tk.now = dn at *
  generalize hcu : ButtonManager.readButtonState tk.gpio_get s.page_up_pin_ = cu at *
  generalize hcd : ButtonManager.readButtonState tk.gpio_get s.page_down_pin_ = cd at *
  obtain ⟨sc1, sc2⟩ := sc
  obtain ⟨up1, up2⟩ := up
  obtain ⟨dn1, dn2⟩ := dn
  simp only at hsc hupf hup hdnf hdn ⊢
  unfold key_poll_ok ButtonManager.key_sampled
  cases k <;> cases sc2 <;> cases up2 <;> cases dn2 <;>
    simp only [ButtonManager.key_last, ButtonManager.key_handled, ButtonManager.key_pin,
      long_event, short_event, hcu, hcd] <;>
    simp only [Bool.false_eq_true, false_implies, true_implies, forall_const, and_true,
      true_and] at hsc hup hdn <;>
    first
    | (simp_all; done)
    | (rcases hup with h | h <;> simp_all)
    | (rcases hdn with h | h <;> simp_all)
/-- One poll while the screen key and the other page key are released and
the other page key is registered released: what it does to page key `k`. -/
theorem poll_isolated (s : ButtonManager) (tk : TickInput) (k : PageKey)
    (hp : s.pending_event_ = .NONE) (hrel : s.others_released k tk)
    (hol : s.other_last k = false) :
    ((ButtonManager.poll s tk).1.pending_event_ = .NONE ∧
      (ButtonManager.poll s tk).1.screen_power_pin_ = s.screen_power_pin_ ∧
      (ButtonManager.poll s tk).1.key_pin k = s.key_pin k ∧
      (ButtonManager.poll s tk).1.other_pin k = s.other_pin k ∧
      (ButtonManager.poll s tk).1.long_press_time_ms_ = s.long_press_time_ms_ ∧
      (ButtonManager.poll s tk).1.other_last k = false ∧
      (ButtonManager.poll s tk).1.key_last k = s.key_sampled k tk) ∧
    (s.key_sampled k tk = true → s.key_last k = false →
      (ButtonManager.poll s tk).2 = .NONE ∧
      (ButtonManager.poll s tk).1.key_handled k = false ∧
      (ButtonManager.poll s tk).1.key_start k = tk.now) ∧
    (s.key_sampled k tk = true → s.key_last k = true → s.key_handled k = false →
      s.long_press_time_ms_ ≤ sub_u32 tk.now (s.key_start k) →
      (ButtonManager.poll s tk).2 = long_event k ∧
      (ButtonManager.poll s tk).1.key_handled k = true ∧
      (ButtonManager.poll s tk).1.key_start k = s.key_start k) ∧
    (s.key_sampled k tk = true → s.key_last k = true →
      (s.key_handled k = true ∨ sub_u32 tk.now (s.key_start k) < s.long_press_time_ms_) →
      (ButtonManager.poll s tk).2 = .NONE ∧
      (ButtonManager.poll s tk).1.key_handled k = s.key_handled k ∧
      (ButtonManager.poll s tk).1.key_start k = s.key_start k) ∧
    (s.key_sampled k tk = false → s.key_last k = true → s.key_handled k = false →
      (ButtonManager.poll s tk).2 = short_event k ∧
      (ButtonManager.poll s tk).1.key_handled k = false ∧
      (ButtonManager.poll s tk).1.key_start k = s.key_start k) ∧
    (s.key_sampled k tk = false → (s.key_last k = false ∨ s.key_handled k = true) →
      (ButtonManager.poll s tk).2 = .NONE ∧
      (ButtonManager.poll s tk).1.key_handled k = s.key_handled k ∧
      (ButtonManager.poll s tk).1.key_start k = s.key_start k) := by
  rw [poll_eq]
  obtain ⟨hsc, hother⟩ := hrel
  cases k
  · simp only [ButtonManager.other_pin, ButtonManager.other_last, ButtonManager.key_pin,
      ButtonManager.key_last, ButtonManager.key_handled, ButtonManager.key_start,
      ButtonManager.key_sampled, long_event, short_event] at hother hol ⊢
    unfold ButtonManager.update ButtonManager.screen_stage ButtonManager.isButtonJustPressed
      ButtonManager.page_down_stage ButtonManager.page_up_stage
    cases hcu : ButtonManager.readButtonState tk.gpio_get s.page_up_pin_ <;>
      cases hl : s.last_page_up_state_ <;>
      cases hh : s.page_up_long_press_handled_ <;>
      simp [hp, hsc, hother, hol, hcu, hl, hh]
    split_ifs <;> simp_all
  · simp only [ButtonManager.other_pin, ButtonManager.other_last, ButtonManager.key_pin,
      ButtonManager.key_last, ButtonManager.key_handled, ButtonManager.key_start,
      ButtonManager.key_sampled, long_event, short_event] at hother hol ⊢
    unfold ButtonManager.update ButtonManager.screen_stage ButtonManager.isButtonJustPressed
      ButtonManager.page_down_stage ButtonManager.page_up_stage
    cases hcd : ButtonManager.readButtonState tk.gpio_get s.page_down_pin_ <;>
      cases hl : s.last_page_down_state_ <;>
      cases hh : s.page_down_long_press_handled_ <;>
      simp [hp, hsc, hother, hol, hcd, hl, hh]
    split_ifs <;> simp_all
theorem poll_run_cons (s : ButtonManager) (tk : TickInput) (rest : List TickInput) :
    ButtonManager.poll_run s (tk :: rest)
      = ((ButtonManager.poll_run (ButtonManager.poll s tk).1 rest).1,
         (ButtonManager.poll s tk).2
           :: (ButtonManager.poll_run (ButtonManager.poll s tk).1 rest).2) := rfl

theorem key_events_cons_other (k : PageKey) (e : ButtonManagerEvent)
    (es : List ButtonManagerEvent) (hl : e ≠ long_event k) (hs : e ≠ short_event k) :
    key_events k (e :: es) = key_events k es := by
  simp [key_events, hl, hs]

theorem key_events_cons_length (k : PageKey) (e : ButtonManagerEvent)
    (es : List ButtonManagerEvent) :
    (key_events k (e :: es)).length ≤ (key_events k es).length + 1 := by
  unfold key_events
  rw [List.filter_cons]
  split <;> simp

/-- While page key `k` is sampled released, a state that registers it
released or long-pressed produces no event of `k`. -/
theorem released_quiet (k : PageKey) (pk : Nat) :
    ∀ (ticks : List TickInput) (s : ButtonManager),
      s.pending_event_ = .NONE → s.key_pin k = pk →
      (∀ tk ∈ ticks, ButtonManager.readButtonState tk.gpio_get pk = false) →
      (s.key_last k = false ∨ s.key_handled k = true) →
      key_events k (ButtonManager.poll_run s ticks).2 = [] := by
  intro ticks
  induction ticks with
  | nil => intro s _ _ _ _; rfl
  | cons tk rest ih =>
    intro s hp hpin hall hq
    obtain ⟨hok, hp1, hpin1⟩ := poll_key_ok s tk k hp
    have hcur : s.key_sampled k tk = false := by
      unfold ButtonManager.key_sampled
      rw [hpin]
      exact hall tk (List.mem_cons_self _ _)
    rw [hcur] at hok
    obtain ⟨hlong, hshort, hnone⟩ := hok
    have hL : (ButtonManager.poll s tk).2 ≠ long_event k := by
      intro h
      have := hlong (by simp [h])
      simp at this
    have hS : (ButtonManager.poll s tk).2 ≠ short_event k := by
      intro h
      have := hshort (by simp [h])
      rcases hq with hq | hq <;> simp [hq] at this
    have hn := hnone (by simp [hL]) (by simp [hS])
    rw [poll_run_cons]
    simp only []
    rw [key_events_cons_other k _ _ hL hS]
    refine ih _ hp1 (hpin1.trans hpin) (fun t ht => hall t (List.mem_cons_of_mem _ ht)) ?_
    rcases hq with hq | hq
    · left
      rcases hn.1 with h | h
      · rw [h, hq]
      · exact h
    · right
      rcases hn.2 with h | h
      · rw [h, hq]
      · simp at h
/-- While page key `k` is sampled released, at most one event of `k` is
produced. -/
theorem released_at_most_once (k : PageKey) (pk : Nat) :
    ∀ (ticks : List TickInput) (s : ButtonManager),
      s.pending_event_ = .NONE → s.key_pin k = pk →
      (∀ tk ∈ ticks, ButtonManager.readButtonState tk.gpio_get pk = false) →
      (key_events k (ButtonManager.poll_run s ticks).2).length ≤ 1 := by
  intro ticks
  induction ticks with
  | nil => intro s _ _ _; simp [ButtonManager.poll_run, key_events]
  | cons tk rest ih =>
    intro s hp hpin hall
    obtain ⟨hok, hp1, hpin1⟩ := poll_key_ok s tk k hp
    obtain ⟨_, hshort, _⟩ := hok
    have hrest : ∀ t ∈ rest, ButtonManager.readButtonState t.gpio_get pk = false :=
      fun t ht => hall t (List.mem_cons_of_mem _ ht)
    rw [poll_run_cons]
    simp only []
    by_cases hS : (ButtonManager.poll s tk).2 = short_event k
    · have h := hshort (by simp [hS])
      have hq := released_quiet k pk rest _ hp1 (hpin1.trans hpin) hrest (Or.inl h.2.2.2.2)
      have hlen := key_events_cons_length k (ButtonManager.poll s tk).2
        (ButtonManager.poll_run (ButtonManager.poll s tk).1 rest).2
      rw [hq] at hlen
      simpa using hlen
    · by_cases hL : (ButtonManager.poll s tk).2 = long_event k
      · have hcur : s.key_sampled k tk = false := by
          unfold ButtonManager.key_sampled
          rw [hpin]
          exact hall tk (List.mem_cons_self _ _)
        have h := (poll_key_ok s tk k hp).1.1 (by simp [hL])
        rw [hcur] at h
        simp at h
      · rw [key_events_cons_other k _ _ hL hS]
        exact ih _ hp1 (hpin1.trans hpin) hrest

/-- Once the long press of page key `k` is registered, the rest of the hold
and the release after it produce no event of `k`. -/
theorem handled_quiet (k : PageKey) (pk : Nat) (released : List TickInput)
    (hreleased : ∀ tk ∈ released, ButtonManager.readButtonState tk.gpio_get pk = false) :
    ∀ (held : List TickInput) (s : ButtonManager),
      s.pending_event_ = .NONE → s.key_pin k = pk →
      (∀ tk ∈ held, ButtonManager.readButtonState tk.gpio_get pk = true) →
      s.key_last k = true → s.key_handled k = true →
      key_events k (ButtonManager.poll_run s (held ++ released)).2 = [] := by
  intro held
  induction held with
  | nil =>
    intro s hp hpin _ _ hh
    exact released_quiet k pk released s hp hpin hreleased (Or.inr hh)
  | cons tk rest ih =>
    intro s hp hpin hall hl hh
    obtain ⟨hok, hp1, hpin1⟩ := poll_key_ok s tk k hp
    have hcur : s.key_sampled k tk = true := by
      unfold ButtonManager.key_sampled
      rw [hpin]
      exact hall tk (List.mem_cons_self _ _)
    rw [hcur, hl, hh] at hok
    obtain ⟨hlong, hshort, hnone⟩ := hok
    have hL : (ButtonManager.poll s tk).2 ≠ long_event k := by
      intro h
      have := hlong (by simp [h])
      simp at this
    have hS : (ButtonManager.poll s tk).2 ≠ short_event k := by
      intro h
      have := hshort (by simp [h])
      simp at this
    have hn := hnone (by simp [hL]) (by simp [hS])
    rw [List.cons_append, poll_run_cons]
    simp only []
    rw [key_events_cons_other k _ _ hL hS]
    refine ih _ hp1 (hpin1.trans hpin) (fun t ht => hall t (List.mem_cons_of_mem _ ht)) ?_ ?_
    · rcases hn.1 with h | h <;> exact h
    · rcases hn.2 with h | h
      · exact h
      · simp at h

/-- A hold of page key `k` followed by its release produces at most one
event of `k`, whatever the other keys do. -/
theorem cycle_at_most_once (k : PageKey) (pk : Nat) (released : List TickInput)
    (hreleased : ∀ tk ∈ released, ButtonManager.readButtonState tk.gpio_get pk = false) :
    ∀ (held : List TickInput) (s : ButtonManager),
      s.pending_event_ = .NONE → s.key_pin k = pk →
      (∀ tk ∈ held, ButtonManager.readButtonState tk.gpio_get pk = true) →
      (key_events k (ButtonManager.poll_run s (held ++ released)).2).length ≤ 1 := by
  intro held
  induction held with
  | nil =>
    intro s hp hpin _
    exact released_at_most_once k pk released s hp hpin hreleased
  | cons tk rest ih =>
    intro s hp hpin hall
    obtain ⟨hok, hp1, hpin1⟩ := poll_key_ok s tk k hp
    have hcur : s.key_sampled k tk = true := by
      unfold ButtonManager.key_sampled
      rw [hpin]
      exact hall tk (List.mem_cons_self _ _)
    rw [hcur] at hok
    obtain ⟨hlong, hshort, _⟩ := hok
    have hrest : ∀ t ∈ rest, ButtonManager.readButtonState t.gpio_get pk = true :=
      fun t ht => hall t (List.mem_cons_of_mem _ ht)
    rw [List.cons_append, poll_run_cons]
    simp only []
    by_cases hL : (ButtonManager.poll s tk).2 = long_event k
    · have h := hlong (by simp [hL])
      have hq := handled_quiet k pk released hreleased rest _ hp1 (hpin1.trans hpin) hrest
        h.2.2.2.2 h.2.2.2.1
      have hlen := key_events_cons_length k (ButtonManager.poll s tk).2
        (ButtonManager.poll_run (ButtonManager.poll s tk).1 (rest ++ released)).2
      rw [hq] at hlen
      simpa using hlen
    · by_cases hS : (ButtonManager.poll s tk).2 = short_event k
      · have h := hshort (by simp [hS])
        simp at h
      · rw [key_events_cons_other k _ _ hL hS]
        exact ih _ hp1 (hpin1.trans hpin) hrest
theorem poll_run_append (a b : List TickInput) :
    ∀ s : ButtonManager,
      ButtonManager.poll_run s (a ++ b)
        = ((ButtonManager.poll_run (ButtonManager.poll_run s a).1 b).1,
           (ButtonManager.poll_run s a).2
             ++ (ButtonManager.poll_run (ButtonManager.poll_run s a).1 b).2) := by
  induction a with
  | nil => intro s; rfl
  | cons tk rest ih =>
    intro s
    rw [List.cons_append, poll_run_cons, poll_run_cons, ih]
    rfl

/-- The facts of `poll_isolated` relative to a reference state `s0`. -/
theorem isolated_step (s0 s : ButtonManager) (k : PageKey) (tk : TickInput)
    (hiso : s0.isolated s k) (hrel : s0.others_released k tk) :
    s0.isolated (ButtonManager.poll s tk).1 k ∧
    (ButtonManager.poll s tk).1.key_last k = s0.key_sampled k tk ∧
    (s0.key_sampled k tk = true → s.key_last k = false →
      (ButtonManager.poll s tk).2 = .NONE ∧
      (ButtonManager.poll s tk).1.key_handled k = false ∧
      (ButtonManager.poll s tk).1.key_start k = tk.now) ∧
    (s0.key_sampled k tk = true → s.key_last k = true → s.key_handled k = false →
      s0.long_press_time_ms_ ≤ sub_u32 tk.now (s.key_start k) →
      (ButtonManager.poll s tk).2 = long_event k ∧
      (ButtonManager.poll s tk).1.key_handled k = true ∧
      (ButtonManager.poll s tk).1.key_start k = s.key_start k) ∧
    (s0.key_sampled k tk = true → s.key_last k = true →
      (s.key_handled k = true ∨ sub_u32 tk.now (s.key_start k) < s0.long_press_time_ms_) →
      (ButtonManager.poll s tk).2 = .NONE ∧
      (ButtonManager.poll s tk).1.key_handled k = s.key_handled k ∧
      (ButtonManager.poll s tk).1.key_start k = s.key_start k) ∧
    (s0.key_sampled k tk = false → s.key_last k = true → s.key_handled k = false →
      (ButtonManager.poll s tk).2 = short_event k ∧
      (ButtonManager.poll s tk).1.key_handled k = false ∧
      (ButtonManager.poll s tk).1.key_start k = s.key_start k) ∧
    (s0.key_sampled k tk = false → (s.key_last k = false ∨ s.key_handled k = true) →
      (ButtonManager.poll s tk).2 = .NONE ∧
      (ButtonManager.poll s tk).1.key_handled k = s.key_handled k ∧
      (ButtonManager.poll s tk).1.key_start k = s.key_start k) := by
  obtain ⟨hp, hsc, hpk, hpo, hlp, hol⟩ := hiso
  have hrel1 : s.others_released k tk := by
    unfold ButtonManager.others_released at hrel ⊢
    rw [hsc, hpo]
    exact hrel
  have hsam : s.key_sampled k tk = s0.key_sampled k tk := by
    unfold ButtonManager.key_sampled
    rw [hpk]
  have h := poll_isolated s tk k hp hrel1 hol
  rw [hsam, hlp] at h
  obtain ⟨⟨h1, h2, h3, h4, h5, h6, h7⟩, hrest⟩ := h
  exact ⟨⟨h1, h2.trans hsc, h3.trans hpk, h4.trans hpo, h5, h6⟩, h7, hrest⟩
/-- While the hold of page key `k` is registered and stays below the
long-press time, isolated polls produce nothing. -/
theorem isolated_waiting (s0 : ButtonManager) (k : PageKey) (t0 : Nat) :
    ∀ (pre : List TickInput) (s : ButtonManager),
      s0.isolated s k →
      (∀ tk ∈ pre, s0.others_released k tk ∧ s0.key_sampled k tk = true ∧
        sub_u32 tk.now t0 < s0.long_press_time_ms_) →
      s.key_last k = true → s.key_handled k = false → s.key_start k = t0 →
      (ButtonManager.poll_run s pre).2 = List.replicate pre.length .NONE ∧
      s0.isolated (ButtonManager.poll_run s pre).1 k ∧
      (ButtonManager.poll_run s pre).1.key_last k = true ∧
      (ButtonManager.poll_run s pre).1.key_handled k = false ∧
      (ButtonManager.poll_run s pre).1.key_start k = t0 := by
  intro pre
  induction pre with
  | nil => intro s hiso _ hl hh hs; exact ⟨rfl, hiso, hl, hh, hs⟩
  | cons tk rest ih =>
    intro s hiso hall hl hh hs
    obtain ⟨hrel, hcur, hlt⟩ := hall tk (List.mem_cons_self _ _)
    obtain ⟨hiso1, hlast1, _, _, hwait, _, _⟩ := isolated_step s0 s k tk hiso hrel
    obtain ⟨he, hh1, hs1⟩ := hwait hcur hl (Or.inr (by rw [hs]; exact hlt))
    have h := ih _ hiso1 (fun t ht => hall t (List.mem_cons_of_mem _ ht))
      (hlast1.trans hcur) (hh1.trans hh) (hs1.trans hs)
    rw [poll_run_cons]
    simp only [List.length_cons, List.replicate_succ]
    exact ⟨by rw [he, h.1], h.2⟩

/-- Once the long press of page key `k` is registered, isolated polls of
the held key produce nothing. -/
theorem isolated_handled (s0 : ButtonManager) (k : PageKey) :
    ∀ (post : List TickInput) (s : ButtonManager),
      s0.isolated s k →
      (∀ tk ∈ post, s0.others_released k tk ∧ s0.key_sampled k tk = true) →
      s.key_last k = true → s.key_handled k = true →
      (ButtonManager.poll_run s post).2 = List.replicate post.length .NONE ∧
      s0.isolated (ButtonManager.poll_run s post).1 k ∧
      (ButtonManager.poll_run s post).1.key_last k = true ∧
      (ButtonManager.poll_run s post).1.key_handled k = true := by
  intro post
  induction post with
  | nil => intro s hiso _ hl hh; exact ⟨rfl, hiso, hl, hh⟩
  | cons tk rest ih =>
    intro s hiso hall hl hh
    obtain ⟨hrel, hcur⟩ := hall tk (List.mem_cons_self _ _)
    obtain ⟨hiso1, hlast1, _, _, hwait, _, _⟩ := isolated_step s0 s k tk hiso hrel
    obtain ⟨he, hh1, _⟩ := hwait hcur hl (Or.inl hh)
    have h := ih _ hiso1 (fun t ht => hall t (List.mem_cons_of_mem _ ht))
      (hlast1.trans hcur) (hh1.trans hh)
    rw [poll_run_cons]
    simp only [List.length_cons, List.replicate_succ]
    exact ⟨by rw [he, h.1], h.2⟩
/-- A state that registers both page keys released and holds no pending
event is isolated with respect to itself. -/
theorem isolated_self (s : ButtonManager) (k : PageKey)
    (hp : s.pending_event_ = .NONE) (hol : s.other_last k = false) :
    s.isolated s k :=
  ⟨hp, rfl, rfl, rfl, rfl, hol⟩

/-- An undisturbed press of page key `k` whose hold is seen reaching the
long-press time at `fire`: the long event there and nothing else. -/
theorem isolated_long_press (s : ButtonManager) (k : PageKey)
    (hp : s.pending_event_ = .NONE) (hl : s.key_last k = false)
    (hol : s.other_last k = false)
    (press : TickInput) (pre : List TickInput) (fire : TickInput) (post : List TickInput)
    (rel : TickInput)
    (hothers : ∀ tk ∈ press :: (pre ++ fire :: (post ++ [rel])), s.others_released k tk)
    (hheld : ∀ tk ∈ press :: (pre ++ fire :: post), s.key_sampled k tk = true)
    (hrel : s.key_sampled k rel = false)
    (hpre : ∀ tk ∈ pre, sub_u32 tk.now press.now < s.long_press_time_ms_)
    (hfire : s.long_press_time_ms_ ≤ sub_u32 fire.now press.now) :
    (ButtonManager.poll_run s (press :: (pre ++ fire :: (post ++ [rel])))).2
      = .NONE :: (List.replicate pre.length .NONE
          ++ long_event k :: (List.replicate post.length .NONE ++ [.NONE])) := by
  have hmem : ∀ tk, tk ∈ press :: (pre ++ fire :: (post ++ [rel])) ↔
      tk = press ∨ tk ∈ pre ∨ tk = fire ∨ tk ∈ post ∨ tk = rel := by
    intro tk; simp
  have hmem2 : ∀ tk, tk ∈ press :: (pre ++ fire :: post) ↔
      tk = press ∨ tk ∈ pre ∨ tk = fire ∨ tk ∈ post := by
    intro tk; simp
  have ho : ∀ tk, (tk = press ∨ tk ∈ pre ∨ tk = fire ∨ tk ∈ post ∨ tk = rel) →
      s.others_released k tk := fun tk h => hothers tk ((hmem tk).2 h)
  have hc : ∀ tk, (tk = press ∨ tk ∈ pre ∨ tk = fire ∨ tk ∈ post) →
      s.key_sampled k tk = true := fun tk h => hheld tk ((hmem2 tk).2 h)
  -- the press tick
  obtain ⟨hiso1, hlast1, hrise, _, _, _, _⟩ :=
    isolated_step s s k press (isolated_self s k hp hol) (ho press (Or.inl rfl))
  obtain ⟨he1, hh1, hs1⟩ := hrise (hc press (Or.inl rfl)) hl
  -- the ticks before the long press fires
  obtain ⟨hev2, hiso2, hlast2, hh2, hs2⟩ :=
    isolated_waiting s k press.now pre _ hiso1
      (fun tk ht => ⟨ho tk (Or.inr (Or.inl ht)), hc tk (Or.inr (Or.inl ht)), hpre tk ht⟩)
      (hlast1.trans (hc press (Or.inl rfl))) hh1 hs1
  -- the tick at which it fires
  obtain ⟨hiso3, hlast3, _, hlong, _, _, _⟩ :=
    isolated_step s _ k fire hiso2 (ho fire (Or.inr (Or.inr (Or.inl rfl))))
  obtain ⟨he3, hh3, _⟩ := hlong (hc fire (Or.inr (Or.inr (Or.inl rfl)))) hlast2 hh2
    (by rw [hs2]; exact hfire)
  -- the rest of the hold
  obtain ⟨hev4, hiso4, hlast4, hh4⟩ :=
    isolated_handled s k post _ hiso3
      (fun tk ht => ⟨ho tk (Or.inr (Or.inr (Or.inr (Or.inl ht)))),
        hc tk (Or.inr (Or.inr (Or.inr ht)))⟩)
      (hlast3.trans (hc fire (Or.inr (Or.inr (Or.inl rfl))))) hh3
  -- the release
  obtain ⟨_, _, _, _, _, _, hquiet⟩ :=
    isolated_step s _ k rel hiso4 (ho rel (Or.inr (Or.inr (Or.inr (Or.inr rfl)))))
  obtain ⟨he5, _, _⟩ := hquiet hrel (Or.inr hh4)
  rw [poll_run_cons, poll_run_append, poll_run_cons, poll_run_append, poll_run_cons]
  simp only [he1, hev2, he3, hev4, he5, ButtonManager.poll_run]

/-- An undisturbed press of page key `k` released before any update sees
the hold reach the long-press time: the short event at the release. -/
theorem isolated_short_press (s : ButtonManager) (k : PageKey)
    (hp : s.pending_event_ = .NONE) (hl : s.key_last k = false)
    (hol : s.other_last k = false)
    (press : TickInput) (pre : List TickInput) (rel : TickInput)
    (hothers : ∀ tk ∈ press :: (pre ++ [rel]), s.others_released k tk)
    (hheld : ∀ tk ∈ press :: pre, s.key_sampled k tk = true)
    (hrel : s.key_sampled k rel = false)
    (hpre : ∀ tk ∈ pre, sub_u32 tk.now press.now < s.long_press_time_ms_) :
    (ButtonManager.poll_run s (press :: (pre ++ [rel]))).2
      = .NONE :: (List.replicate pre.length .NONE ++ [short_event k]) := by
  have ho : ∀ tk, (tk = press ∨ tk ∈ pre ∨ tk = rel) → s.others_released k tk := by
    intro tk h
    apply hothers tk
    simpa using h
  have hc : ∀ tk, (tk = press ∨ tk ∈ pre) → s.key_sampled k tk = true := by
    intro tk h
    apply hheld tk
    simpa using h
  obtain ⟨hiso1, hlast1, hrise, _, _, _, _⟩ :=
    isolated_step s s k press (isolated_self s k hp hol) (ho press (Or.inl rfl))
  obtain ⟨he1, hh1, hs1⟩ := hrise (hc press (Or.inl rfl)) hl
  obtain ⟨hev2, hiso2, hlast2, hh2, _⟩ :=
    isolated_waiting s k press.now pre _ hiso1
      (fun tk ht => ⟨ho tk (Or.inr (Or.inl ht)), hc tk (Or.inr ht), hpre tk ht⟩)
      (hlast1.trans (hc press (Or.inl rfl))) hh1 hs1
  obtain ⟨_, _, _, _, _, hshort, _⟩ :=
    isolated_step s _ k rel hiso2 (ho rel (Or.inr (Or.inr rfl)))
  obtain ⟨he3, _, _⟩ := hshort hrel hlast2 hh2
  rw [poll_run_cons, poll_run_append, poll_run_cons]
  simp only [he1, hev2, he3, ButtonManager.poll_run]
/-- C26 (as stated, fails): with another key pressed meanwhile the page-up
key does not behave as described. In the first run page up is pressed at
1000 and held at 1300 and 1600, where the hold has reached the long-press
time of 600 ms, but the screen key is pressed at 1600 and `update` returns
before looking at page up: no `PAGE_UP_LONG` is produced while held, and the
release at 1700 produces `PAGE_UP`. In the second run the release of page up
at 1700 coincides with a screen key press and is never registered, so the
next hold from 1800 to 2500 and its release at 2600 produce nothing at
all. -/
theorem page_key_cycle_disturbed :
    button_manager0.long_press_time_ms_ = 600 ∧
    (ButtonManager.poll_run button_manager0
      [tick 1000 true false false, tick 1300 true false false, tick 1600 true false true,
       tick 1700 false false false, tick 1800 false false false]).2
      = [.NONE, .NONE, .SCREEN_POWER_TOGGLE, .PAGE_UP, .NONE] ∧
    (ButtonManager.poll_run button_manager0
      [tick 1000 true false false, tick 1600 true false false, tick 1700 false false true,
       tick 1800 true false false, tick 2500 true false false,
       tick 2600 false false false]).2
      = [.NONE, .PAGE_UP_LONG, .SCREEN_POWER_TOGGLE, .NONE, .NONE, .NONE] := by
  decide

/-- C26 (amended): `ButtonManager::update` followed by `getNextEvent` after
every call, for a page key `k` (page up or page down). Whatever the other
keys do, a run of updates that sample `k` pressed followed by a run that
sample it released produces at most one event of `k`: at most one long
event, at most one short event and never both. When moreover both page keys
are registered released at the start and the screen key and the other page
key are sampled released throughout, the press update produces nothing, the
long event is produced at the first later update of the hold at which the
time since the press update (modulo 2^32) has reached `long_press_time_ms_`
and nothing else is produced up to and including the release; when no
update of the hold sees that time reached, the short event is produced at
the release update and nothing before it. -/
theorem page_key_cycle (s : ButtonManager) (k : PageKey)
    (hp : s.pending_event_ = .NONE) :
    (∀ held released : List TickInput,
      (∀ tk ∈ held, s.key_sampled k tk = true) →
      (∀ tk ∈ released, s.key_sampled k tk = false) →
      (key_events k (ButtonManager.poll_run s (held ++ released)).2).length ≤ 1) ∧
    (s.key_last k = false → s.other_last k = false →
      ∀ (press : TickInput) (pre : List TickInput) (fire : TickInput)
        (post : List TickInput) (rel : TickInput),
      (∀ tk ∈ press :: (pre ++ fire :: (post ++ [rel])), s.others_released k tk) →
      (∀ tk ∈ press :: (pre ++ fire :: post), s.key_sampled k tk = true) →
      s.key_sampled k rel = false →
      (∀ tk ∈ pre, sub_u32 tk.now press.now < s.long_press_time_ms_) →
      s.long_press_time_ms_ ≤ sub_u32 fire.now press.now →
      (ButtonManager.poll_run s (press :: (pre ++ fire :: (post ++ [rel])))).2
        = .NONE :: (List.replicate pre.length .NONE
            ++ long_event k :: (List.replicate post.length .NONE ++ [.NONE]))) ∧
    (s.key_last k = false → s.other_last k = false →
      ∀ (press : TickInput) (pre : List TickInput) (rel : TickInput),
      (∀ tk ∈ press :: (pre ++ [rel]), s.others_released k tk) →
      (∀ tk ∈ press :: pre, s.key_sampled k tk = true) →
      s.key_sampled k rel = false →
      (∀ tk ∈ pre, sub_u32 tk.now press.now < s.long_press_time_ms_) →
      (ButtonManager.poll_run s (press :: (pre ++ [rel]))).2
        = .NONE :: (List.replicate pre.length .NONE ++ [short_event k])) := by
  refine ⟨?_, ?_, ?_⟩
  · intro held released hheld hreleased
    exact cycle_at_most_once k (s.key_pin k) released hreleased held s hp rfl hheld
  · intro hl hol press pre fire post rel hothers hheld hrel hpre hfire
    exact isolated_long_press s k hp hl hol press pre fire post rel hothers hheld hrel
      hpre hfire
  · intro hl hol press pre rel hothers hheld hrel hpre
    exact isolated_short_press s k hp hl hol press pre rel hothers hheld hrel hpre

/-- C26 at the manager of GPIO 14, 8 and 9: a page-up hold disturbed by the
other keys produces one page-up event at most; an undisturbed hold of
600 ms produces `PAGE_UP_LONG` at 1600 and nothing at the release; an
undisturbed hold of 300 ms produces `PAGE_UP` at the release. -/
theorem page_key_cycle_witness :
    (key_events .up (ButtonManager.poll_run button_manager0
      ([tick 1000 true false false, tick 1600 true true false, tick 1700 true false true]
        ++ [tick 1800 false false true, tick 1900 false true false])).2).length ≤ 1 ∧
    (ButtonManager.poll_run button_manager0
      [tick 1000 true false false, tick 1300 true false false, tick 1600 true false false,
       tick 1900 true false false, tick 2000 false false false]).2
      = [.NONE, .NONE, .PAGE_UP_LONG, .NONE, .NONE] ∧
    (ButtonManager.poll_run button_manager0
      [tick 1000 true false false, tick 1300 true false false,
       tick 1400 false false false]).2
      = [.NONE, .NONE, .PAGE_UP] :=
  ⟨(page_key_cycle button_manager0 .up rfl).1 _ _ (by decide) (by decide),
   (page_key_cycle button_manager0 .up rfl).2.1 rfl rfl
      (tick 1000 true false false) [tick 1300 true false false]
      (tick 1600 true false false) [tick 1900 true false false]
      (tick 2000 false false false)
      (by decide) (by decide) (by decide) (by decide) (by decide),
   (page_key_cycle button_manager0 .up rfl).2.2 rfl rfl
      (tick 1000 true false false) [tick 1300 true false false]
      (tick 1400 false false false)
      (by decide) (by decide) (by decide) (by decide)⟩
end PicoInput
